import Mathlib

/-! Secure intake and document handling: a verification development.

Shallow embedding of the document screener (`upload-security.js`), the batch
uploads of the client vault and the intake form (`vault.js`, `app.js`) and the
intake endpoints of the server (`server.js`), followed by the properties
established for them.

Conventions of the embedding:

* a JavaScript string is a Lean `String`; a byte buffer is a `List Nat` whose
  entries are byte values `0..255`;
* an `async` function is the function of its inputs and of the answers of the
  services it awaits; an exception is an `Except.error`;
* the services outside the repository (identity provider, object store,
  relational store, clock, cipher) are fields of an environment record.
-/

deriving instance DecidableEq for Except

namespace TaxAgent

/-! ## JavaScript built-ins used by the sources -/

/-- An exception thrown by the JavaScript run time. -/
inductive JsError
  | typeError (what : String)
  | referenceError (what : String)
  | error (what : String)
  deriving DecidableEq, Repr

/-- The simple lower-case mappings of the Unicode character database beyond ASCII
(the field Simple_Lowercase_Mapping of `UnicodeData.txt`, version 14.0), as runs
`(first, last, step, image)`: the code points `first, first + step, …, last`
have the lower-case forms `image, image + step, …`. -/
def lowerCaseRuns : List (Nat × Nat × Nat × Nat) :=
  [(0xC0, 0xD6, 1, 0xE0), (0xD8, 0xDE, 1, 0xF8), (0x100, 0x12E, 2, 0x101),
   (0x132, 0x136, 2, 0x133), (0x139, 0x147, 2, 0x13A), (0x14A, 0x176, 2, 0x14B),
   (0x178, 0x178, 1, 0xFF), (0x179, 0x17D, 2, 0x17A), (0x181, 0x181, 1, 0x253),
   (0x182, 0x184, 2, 0x183), (0x186, 0x186, 1, 0x254), (0x187, 0x187, 1, 0x188),
   (0x189, 0x18A, 1, 0x256), (0x18B, 0x18B, 1, 0x18C), (0x18E, 0x18E, 1, 0x1DD),
   (0x18F, 0x18F, 1, 0x259), (0x190, 0x190, 1, 0x25B), (0x191, 0x191, 1, 0x192),
   (0x193, 0x193, 1, 0x260), (0x194, 0x194, 1, 0x263), (0x196, 0x196, 1, 0x269),
   (0x197, 0x197, 1, 0x268), (0x198, 0x198, 1, 0x199), (0x19C, 0x19C, 1, 0x26F),
   (0x19D, 0x19D, 1, 0x272), (0x19F, 0x19F, 1, 0x275), (0x1A0, 0x1A4, 2, 0x1A1),
   (0x1A6, 0x1A6, 1, 0x280), (0x1A7, 0x1A7, 1, 0x1A8), (0x1A9, 0x1A9, 1, 0x283),
   (0x1AC, 0x1AC, 1, 0x1AD), (0x1AE, 0x1AE, 1, 0x288), (0x1AF, 0x1AF, 1, 0x1B0),
   (0x1B1, 0x1B2, 1, 0x28A), (0x1B3, 0x1B5, 2, 0x1B4), (0x1B7, 0x1B7, 1, 0x292),
   (0x1B8, 0x1B8, 1, 0x1B9), (0x1BC, 0x1BC, 1, 0x1BD), (0x1C4, 0x1C4, 1, 0x1C6),
   (0x1C5, 0x1C5, 1, 0x1C6), (0x1C7, 0x1C7, 1, 0x1C9), (0x1C8, 0x1C8, 1, 0x1C9),
   (0x1CA, 0x1CA, 1, 0x1CC), (0x1CB, 0x1DB, 2, 0x1CC), (0x1DE, 0x1EE, 2, 0x1DF),
   (0x1F1, 0x1F1, 1, 0x1F3), (0x1F2, 0x1F4, 2, 0x1F3), (0x1F6, 0x1F6, 1, 0x195),
   (0x1F7, 0x1F7, 1, 0x1BF), (0x1F8, 0x21E, 2, 0x1F9), (0x220, 0x220, 1, 0x19E),
   (0x222, 0x232, 2, 0x223), (0x23A, 0x23A, 1, 0x2C65), (0x23B, 0x23B, 1, 0x23C),
   (0x23D, 0x23D, 1, 0x19A), (0x23E, 0x23E, 1, 0x2C66), (0x241, 0x241, 1, 0x242),
   (0x243, 0x243, 1, 0x180), (0x244, 0x244, 1, 0x289), (0x245, 0x245, 1, 0x28C),
   (0x246, 0x24E, 2, 0x247), (0x370, 0x372, 2, 0x371), (0x376, 0x376, 1, 0x377),
   (0x37F, 0x37F, 1, 0x3F3), (0x386, 0x386, 1, 0x3AC), (0x388, 0x38A, 1, 0x3AD),
   (0x38C, 0x38C, 1, 0x3CC), (0x38E, 0x38F, 1, 0x3CD), (0x391, 0x3A1, 1, 0x3B1),
   (0x3A3, 0x3AB, 1, 0x3C3), (0x3CF, 0x3CF, 1, 0x3D7), (0x3D8, 0x3EE, 2, 0x3D9),
   (0x3F4, 0x3F4, 1, 0x3B8), (0x3F7, 0x3F7, 1, 0x3F8), (0x3F9, 0x3F9, 1, 0x3F2),
   (0x3FA, 0x3FA, 1, 0x3FB), (0x3FD, 0x3FF, 1, 0x37B), (0x400, 0x40F, 1, 0x450),
   (0x410, 0x42F, 1, 0x430), (0x460, 0x480, 2, 0x461), (0x48A, 0x4BE, 2, 0x48B),
   (0x4C0, 0x4C0, 1, 0x4CF), (0x4C1, 0x4CD, 2, 0x4C2), (0x4D0, 0x52E, 2, 0x4D1),
   (0x531, 0x556, 1, 0x561), (0x10A0, 0x10C5, 1, 0x2D00), (0x10C7, 0x10C7, 1, 0x2D27),
   (0x10CD, 0x10CD, 1, 0x2D2D), (0x13A0, 0x13EF, 1, 0xAB70), (0x13F0, 0x13F5, 1, 0x13F8),
   (0x1C90, 0x1CBA, 1, 0x10D0), (0x1CBD, 0x1CBF, 1, 0x10FD), (0x1E00, 0x1E94, 2, 0x1E01),
   (0x1E9E, 0x1E9E, 1, 0xDF), (0x1EA0, 0x1EFE, 2, 0x1EA1), (0x1F08, 0x1F0F, 1, 0x1F00),
   (0x1F18, 0x1F1D, 1, 0x1F10), (0x1F28, 0x1F2F, 1, 0x1F20), (0x1F38, 0x1F3F, 1, 0x1F30),
   (0x1F48, 0x1F4D, 1, 0x1F40), (0x1F59, 0x1F5F, 2, 0x1F51), (0x1F68, 0x1F6F, 1, 0x1F60),
   (0x1F88, 0x1F8F, 1, 0x1F80), (0x1F98, 0x1F9F, 1, 0x1F90), (0x1FA8, 0x1FAF, 1, 0x1FA0),
   (0x1FB8, 0x1FB9, 1, 0x1FB0), (0x1FBA, 0x1FBB, 1, 0x1F70), (0x1FBC, 0x1FBC, 1, 0x1FB3),
   (0x1FC8, 0x1FCB, 1, 0x1F72), (0x1FCC, 0x1FCC, 1, 0x1FC3), (0x1FD8, 0x1FD9, 1, 0x1FD0),
   (0x1FDA, 0x1FDB, 1, 0x1F76), (0x1FE8, 0x1FE9, 1, 0x1FE0), (0x1FEA, 0x1FEB, 1, 0x1F7A),
   (0x1FEC, 0x1FEC, 1, 0x1FE5), (0x1FF8, 0x1FF9, 1, 0x1F78), (0x1FFA, 0x1FFB, 1, 0x1F7C),
   (0x1FFC, 0x1FFC, 1, 0x1FF3), (0x2126, 0x2126, 1, 0x3C9), (0x212A, 0x212A, 1, 0x6B),
   (0x212B, 0x212B, 1, 0xE5), (0x2132, 0x2132, 1, 0x214E), (0x2160, 0x216F, 1, 0x2170),
   (0x2183, 0x2183, 1, 0x2184), (0x24B6, 0x24CF, 1, 0x24D0), (0x2C00, 0x2C2F, 1, 0x2C30),
   (0x2C60, 0x2C60, 1, 0x2C61), (0x2C62, 0x2C62, 1, 0x26B), (0x2C63, 0x2C63, 1, 0x1D7D),
   (0x2C64, 0x2C64, 1, 0x27D), (0x2C67, 0x2C6B, 2, 0x2C68), (0x2C6D, 0x2C6D, 1, 0x251),
   (0x2C6E, 0x2C6E, 1, 0x271), (0x2C6F, 0x2C6F, 1, 0x250), (0x2C70, 0x2C70, 1, 0x252),
   (0x2C72, 0x2C72, 1, 0x2C73), (0x2C75, 0x2C75, 1, 0x2C76), (0x2C7E, 0x2C7F, 1, 0x23F),
   (0x2C80, 0x2CE2, 2, 0x2C81), (0x2CEB, 0x2CED, 2, 0x2CEC), (0x2CF2, 0x2CF2, 1, 0x2CF3),
   (0xA640, 0xA66C, 2, 0xA641), (0xA680, 0xA69A, 2, 0xA681), (0xA722, 0xA72E, 2, 0xA723),
   (0xA732, 0xA76E, 2, 0xA733), (0xA779, 0xA77B, 2, 0xA77A), (0xA77D, 0xA77D, 1, 0x1D79),
   (0xA77E, 0xA786, 2, 0xA77F), (0xA78B, 0xA78B, 1, 0xA78C), (0xA78D, 0xA78D, 1, 0x265),
   (0xA790, 0xA792, 2, 0xA791), (0xA796, 0xA7A8, 2, 0xA797), (0xA7AA, 0xA7AA, 1, 0x266),
   (0xA7AB, 0xA7AB, 1, 0x25C), (0xA7AC, 0xA7AC, 1, 0x261), (0xA7AD, 0xA7AD, 1, 0x26C),
   (0xA7AE, 0xA7AE, 1, 0x26A), (0xA7B0, 0xA7B0, 1, 0x29E), (0xA7B1, 0xA7B1, 1, 0x287),
   (0xA7B2, 0xA7B2, 1, 0x29D), (0xA7B3, 0xA7B3, 1, 0xAB53), (0xA7B4, 0xA7C2, 2, 0xA7B5),
   (0xA7C4, 0xA7C4, 1, 0xA794), (0xA7C5, 0xA7C5, 1, 0x282), (0xA7C6, 0xA7C6, 1, 0x1D8E),
   (0xA7C7, 0xA7C9, 2, 0xA7C8), (0xA7D0, 0xA7D0, 1, 0xA7D1), (0xA7D6, 0xA7D8, 2, 0xA7D7),
   (0xA7F5, 0xA7F5, 1, 0xA7F6), (0xFF21, 0xFF3A, 1, 0xFF41), (0x10400, 0x10427, 1, 0x10428),
   (0x104B0, 0x104D3, 1, 0x104D8), (0x10570, 0x1057A, 1, 0x10597), (0x1057C, 0x1058A, 1, 0x105A3),
   (0x1058C, 0x10592, 1, 0x105B3), (0x10594, 0x10595, 1, 0x105BB), (0x10C80, 0x10CB2, 1, 0x10CC0),
   (0x118A0, 0x118BF, 1, 0x118C0), (0x16E40, 0x16E5F, 1, 0x16E60), (0x1E900, 0x1E921, 1, 0x1E922)]

/-- The code points with the property Cased of the Unicode character database
(`DerivedCoreProperties.txt`, version 14.0), as ranges `(first, last)`. -/
def casedRanges : List (Nat × Nat) :=
  [(0x41, 0x5A), (0x61, 0x7A), (0xAA, 0xAA), (0xB5, 0xB5), (0xBA, 0xBA), (0xC0, 0xD6),
   (0xD8, 0xF6), (0xF8, 0x1BA), (0x1BC, 0x1BF), (0x1C4, 0x293), (0x295, 0x2B8), (0x2C0, 0x2C1),
   (0x2E0, 0x2E4), (0x345, 0x345), (0x370, 0x373), (0x376, 0x377), (0x37A, 0x37D), (0x37F, 0x37F),
   (0x386, 0x386), (0x388, 0x38A), (0x38C, 0x38C), (0x38E, 0x3A1), (0x3A3, 0x3F5), (0x3F7, 0x481),
   (0x48A, 0x52F), (0x531, 0x556), (0x560, 0x588), (0x10A0, 0x10C5), (0x10C7, 0x10C7),
   (0x10CD, 0x10CD), (0x10D0, 0x10FA), (0x10FD, 0x10FF), (0x13A0, 0x13F5), (0x13F8, 0x13FD),
   (0x1C80, 0x1C88), (0x1C90, 0x1CBA), (0x1CBD, 0x1CBF), (0x1D00, 0x1DBF), (0x1E00, 0x1F15),
   (0x1F18, 0x1F1D), (0x1F20, 0x1F45), (0x1F48, 0x1F4D), (0x1F50, 0x1F57), (0x1F59, 0x1F59),
   (0x1F5B, 0x1F5B), (0x1F5D, 0x1F5D), (0x1F5F, 0x1F7D), (0x1F80, 0x1FB4), (0x1FB6, 0x1FBC),
   (0x1FBE, 0x1FBE), (0x1FC2, 0x1FC4), (0x1FC6, 0x1FCC), (0x1FD0, 0x1FD3), (0x1FD6, 0x1FDB),
   (0x1FE0, 0x1FEC), (0x1FF2, 0x1FF4), (0x1FF6, 0x1FFC), (0x2071, 0x2071), (0x207F, 0x207F),
   (0x2090, 0x209C), (0x2102, 0x2102), (0x2107, 0x2107), (0x210A, 0x2113), (0x2115, 0x2115),
   (0x2119, 0x211D), (0x2124, 0x2124), (0x2126, 0x2126), (0x2128, 0x2128), (0x212A, 0x212D),
   (0x212F, 0x2134), (0x2139, 0x2139), (0x213C, 0x213F), (0x2145, 0x2149), (0x214E, 0x214E),
   (0x2160, 0x217F), (0x2183, 0x2184), (0x24B6, 0x24E9), (0x2C00, 0x2CE4), (0x2CEB, 0x2CEE),
   (0x2CF2, 0x2CF3), (0x2D00, 0x2D25), (0x2D27, 0x2D27), (0x2D2D, 0x2D2D), (0xA640, 0xA66D),
   (0xA680, 0xA69D), (0xA722, 0xA787), (0xA78B, 0xA78E), (0xA790, 0xA7CA), (0xA7D0, 0xA7D1),
   (0xA7D3, 0xA7D3), (0xA7D5, 0xA7D9), (0xA7F5, 0xA7F6), (0xA7F8, 0xA7FA), (0xAB30, 0xAB5A),
   (0xAB5C, 0xAB68), (0xAB70, 0xABBF), (0xFB00, 0xFB06), (0xFB13, 0xFB17), (0xFF21, 0xFF3A),
   (0xFF41, 0xFF5A), (0x10400, 0x1044F), (0x104B0, 0x104D3), (0x104D8, 0x104FB),
   (0x10570, 0x1057A), (0x1057C, 0x1058A), (0x1058C, 0x10592), (0x10594, 0x10595),
   (0x10597, 0x105A1), (0x105A3, 0x105B1), (0x105B3, 0x105B9), (0x105BB, 0x105BC),
   (0x10780, 0x10780), (0x10783, 0x10785), (0x10787, 0x107B0), (0x107B2, 0x107BA),
   (0x10C80, 0x10CB2), (0x10CC0, 0x10CF2), (0x118A0, 0x118DF), (0x16E40, 0x16E7F),
   (0x1D400, 0x1D454), (0x1D456, 0x1D49C), (0x1D49E, 0x1D49F), (0x1D4A2, 0x1D4A2),
   (0x1D4A5, 0x1D4A6), (0x1D4A9, 0x1D4AC), (0x1D4AE, 0x1D4B9), (0x1D4BB, 0x1D4BB),
   (0x1D4BD, 0x1D4C3), (0x1D4C5, 0x1D505), (0x1D507, 0x1D50A), (0x1D50D, 0x1D514),
   (0x1D516, 0x1D51C), (0x1D51E, 0x1D539), (0x1D53B, 0x1D53E), (0x1D540, 0x1D544),
   (0x1D546, 0x1D546), (0x1D54A, 0x1D550), (0x1D552, 0x1D6A5), (0x1D6A8, 0x1D6C0),
   (0x1D6C2, 0x1D6DA), (0x1D6DC, 0x1D6FA), (0x1D6FC, 0x1D714), (0x1D716, 0x1D734),
   (0x1D736, 0x1D74E), (0x1D750, 0x1D76E), (0x1D770, 0x1D788), (0x1D78A, 0x1D7A8),
   (0x1D7AA, 0x1D7C2), (0x1D7C4, 0x1D7CB), (0x1DF00, 0x1DF09), (0x1DF0B, 0x1DF1E),
   (0x1E900, 0x1E943), (0x1F130, 0x1F149), (0x1F150, 0x1F169), (0x1F170, 0x1F189)]

/-- The code points with the property Case_Ignorable of the Unicode character
database (`DerivedCoreProperties.txt`, version 14.0), as ranges `(first, last)`. -/
def caseIgnorableRanges : List (Nat × Nat) :=
  [(0x27, 0x27), (0x2E, 0x2E), (0x3A, 0x3A), (0x5E, 0x5E), (0x60, 0x60), (0xA8, 0xA8),
   (0xAD, 0xAD), (0xAF, 0xAF), (0xB4, 0xB4), (0xB7, 0xB8), (0x2B0, 0x36F), (0x374, 0x375),
   (0x37A, 0x37A), (0x384, 0x385), (0x387, 0x387), (0x483, 0x489), (0x559, 0x559), (0x55F, 0x55F),
   (0x591, 0x5BD), (0x5BF, 0x5BF), (0x5C1, 0x5C2), (0x5C4, 0x5C5), (0x5C7, 0x5C7), (0x5F4, 0x5F4),
   (0x600, 0x605), (0x610, 0x61A), (0x61C, 0x61C), (0x640, 0x640), (0x64B, 0x65F), (0x670, 0x670),
   (0x6D6, 0x6DD), (0x6DF, 0x6E8), (0x6EA, 0x6ED), (0x70F, 0x70F), (0x711, 0x711), (0x730, 0x74A),
   (0x7A6, 0x7B0), (0x7EB, 0x7F5), (0x7FA, 0x7FA), (0x7FD, 0x7FD), (0x816, 0x82D), (0x859, 0x85B),
   (0x888, 0x888), (0x890, 0x891), (0x898, 0x89F), (0x8C9, 0x902), (0x93A, 0x93A), (0x93C, 0x93C),
   (0x941, 0x948), (0x94D, 0x94D), (0x951, 0x957), (0x962, 0x963), (0x971, 0x971), (0x981, 0x981),
   (0x9BC, 0x9BC), (0x9C1, 0x9C4), (0x9CD, 0x9CD), (0x9E2, 0x9E3), (0x9FE, 0x9FE), (0xA01, 0xA02),
   (0xA3C, 0xA3C), (0xA41, 0xA42), (0xA47, 0xA48), (0xA4B, 0xA4D), (0xA51, 0xA51), (0xA70, 0xA71),
   (0xA75, 0xA75), (0xA81, 0xA82), (0xABC, 0xABC), (0xAC1, 0xAC5), (0xAC7, 0xAC8), (0xACD, 0xACD),
   (0xAE2, 0xAE3), (0xAFA, 0xAFF), (0xB01, 0xB01), (0xB3C, 0xB3C), (0xB3F, 0xB3F), (0xB41, 0xB44),
   (0xB4D, 0xB4D), (0xB55, 0xB56), (0xB62, 0xB63), (0xB82, 0xB82), (0xBC0, 0xBC0), (0xBCD, 0xBCD),
   (0xC00, 0xC00), (0xC04, 0xC04), (0xC3C, 0xC3C), (0xC3E, 0xC40), (0xC46, 0xC48), (0xC4A, 0xC4D),
   (0xC55, 0xC56), (0xC62, 0xC63), (0xC81, 0xC81), (0xCBC, 0xCBC), (0xCBF, 0xCBF), (0xCC6, 0xCC6),
   (0xCCC, 0xCCD), (0xCE2, 0xCE3), (0xD00, 0xD01), (0xD3B, 0xD3C), (0xD41, 0xD44), (0xD4D, 0xD4D),
   (0xD62, 0xD63), (0xD81, 0xD81), (0xDCA, 0xDCA), (0xDD2, 0xDD4), (0xDD6, 0xDD6), (0xE31, 0xE31),
   (0xE34, 0xE3A), (0xE46, 0xE4E), (0xEB1, 0xEB1), (0xEB4, 0xEBC), (0xEC6, 0xEC6), (0xEC8, 0xECD),
   (0xF18, 0xF19), (0xF35, 0xF35), (0xF37, 0xF37), (0xF39, 0xF39), (0xF71, 0xF7E), (0xF80, 0xF84),
   (0xF86, 0xF87), (0xF8D, 0xF97), (0xF99, 0xFBC), (0xFC6, 0xFC6), (0x102D, 0x1030),
   (0x1032, 0x1037), (0x1039, 0x103A), (0x103D, 0x103E), (0x1058, 0x1059), (0x105E, 0x1060),
   (0x1071, 0x1074), (0x1082, 0x1082), (0x1085, 0x1086), (0x108D, 0x108D), (0x109D, 0x109D),
   (0x10FC, 0x10FC), (0x135D, 0x135F), (0x1712, 0x1714), (0x1732, 0x1733), (0x1752, 0x1753),
   (0x1772, 0x1773), (0x17B4, 0x17B5), (0x17B7, 0x17BD), (0x17C6, 0x17C6), (0x17C9, 0x17D3),
   (0x17D7, 0x17D7), (0x17DD, 0x17DD), (0x180B, 0x180F), (0x1843, 0x1843), (0x1885, 0x1886),
   (0x18A9, 0x18A9), (0x1920, 0x1922), (0x1927, 0x1928), (0x1932, 0x1932), (0x1939, 0x193B),
   (0x1A17, 0x1A18), (0x1A1B, 0x1A1B), (0x1A56, 0x1A56), (0x1A58, 0x1A5E), (0x1A60, 0x1A60),
   (0x1A62, 0x1A62), (0x1A65, 0x1A6C), (0x1A73, 0x1A7C), (0x1A7F, 0x1A7F), (0x1AA7, 0x1AA7),
   (0x1AB0, 0x1ACE), (0x1B00, 0x1B03), (0x1B34, 0x1B34), (0x1B36, 0x1B3A), (0x1B3C, 0x1B3C),
   (0x1B42, 0x1B42), (0x1B6B, 0x1B73), (0x1B80, 0x1B81), (0x1BA2, 0x1BA5), (0x1BA8, 0x1BA9),
   (0x1BAB, 0x1BAD), (0x1BE6, 0x1BE6), (0x1BE8, 0x1BE9), (0x1BED, 0x1BED), (0x1BEF, 0x1BF1),
   (0x1C2C, 0x1C33), (0x1C36, 0x1C37), (0x1C78, 0x1C7D), (0x1CD0, 0x1CD2), (0x1CD4, 0x1CE0),
   (0x1CE2, 0x1CE8), (0x1CED, 0x1CED), (0x1CF4, 0x1CF4), (0x1CF8, 0x1CF9), (0x1D2C, 0x1D6A),
   (0x1D78, 0x1D78), (0x1D9B, 0x1DFF), (0x1FBD, 0x1FBD), (0x1FBF, 0x1FC1), (0x1FCD, 0x1FCF),
   (0x1FDD, 0x1FDF), (0x1FED, 0x1FEF), (0x1FFD, 0x1FFE), (0x200B, 0x200F), (0x2018, 0x2019),
   (0x2024, 0x2024), (0x2027, 0x2027), (0x202A, 0x202E), (0x2060, 0x2064), (0x2066, 0x206F),
   (0x2071, 0x2071), (0x207F, 0x207F), (0x2090, 0x209C), (0x20D0, 0x20F0), (0x2C7C, 0x2C7D),
   (0x2CEF, 0x2CF1), (0x2D6F, 0x2D6F), (0x2D7F, 0x2D7F), (0x2DE0, 0x2DFF), (0x2E2F, 0x2E2F),
   (0x3005, 0x3005), (0x302A, 0x302D), (0x3031, 0x3035), (0x303B, 0x303B), (0x3099, 0x309E),
   (0x30FC, 0x30FE), (0xA015, 0xA015), (0xA4F8, 0xA4FD), (0xA60C, 0xA60C), (0xA66F, 0xA672),
   (0xA674, 0xA67D), (0xA67F, 0xA67F), (0xA69C, 0xA69F), (0xA6F0, 0xA6F1), (0xA700, 0xA721),
   (0xA770, 0xA770), (0xA788, 0xA78A), (0xA7F2, 0xA7F4), (0xA7F8, 0xA7F9), (0xA802, 0xA802),
   (0xA806, 0xA806), (0xA80B, 0xA80B), (0xA825, 0xA826), (0xA82C, 0xA82C), (0xA8C4, 0xA8C5),
   (0xA8E0, 0xA8F1), (0xA8FF, 0xA8FF), (0xA926, 0xA92D), (0xA947, 0xA951), (0xA980, 0xA982),
   (0xA9B3, 0xA9B3), (0xA9B6, 0xA9B9), (0xA9BC, 0xA9BD), (0xA9CF, 0xA9CF), (0xA9E5, 0xA9E6),
   (0xAA29, 0xAA2E), (0xAA31, 0xAA32), (0xAA35, 0xAA36), (0xAA43, 0xAA43), (0xAA4C, 0xAA4C),
   (0xAA70, 0xAA70), (0xAA7C, 0xAA7C), (0xAAB0, 0xAAB0), (0xAAB2, 0xAAB4), (0xAAB7, 0xAAB8),
   (0xAABE, 0xAABF), (0xAAC1, 0xAAC1), (0xAADD, 0xAADD), (0xAAEC, 0xAAED), (0xAAF3, 0xAAF4),
   (0xAAF6, 0xAAF6), (0xAB5B, 0xAB5F), (0xAB69, 0xAB6B), (0xABE5, 0xABE5), (0xABE8, 0xABE8),
   (0xABED, 0xABED), (0xFB1E, 0xFB1E), (0xFBB2, 0xFBC2), (0xFE00, 0xFE0F), (0xFE13, 0xFE13),
   (0xFE20, 0xFE2F), (0xFE52, 0xFE52), (0xFE55, 0xFE55), (0xFEFF, 0xFEFF), (0xFF07, 0xFF07),
   (0xFF0E, 0xFF0E), (0xFF1A, 0xFF1A), (0xFF3E, 0xFF3E), (0xFF40, 0xFF40), (0xFF70, 0xFF70),
   (0xFF9E, 0xFF9F), (0xFFE3, 0xFFE3), (0xFFF9, 0xFFFB), (0x101FD, 0x101FD), (0x102E0, 0x102E0),
   (0x10376, 0x1037A), (0x10780, 0x10785), (0x10787, 0x107B0), (0x107B2, 0x107BA),
   (0x10A01, 0x10A03), (0x10A05, 0x10A06), (0x10A0C, 0x10A0F), (0x10A38, 0x10A3A),
   (0x10A3F, 0x10A3F), (0x10AE5, 0x10AE6), (0x10D24, 0x10D27), (0x10EAB, 0x10EAC),
   (0x10F46, 0x10F50), (0x10F82, 0x10F85), (0x11001, 0x11001), (0x11038, 0x11046),
   (0x11070, 0x11070), (0x11073, 0x11074), (0x1107F, 0x11081), (0x110B3, 0x110B6),
   (0x110B9, 0x110BA), (0x110BD, 0x110BD), (0x110C2, 0x110C2), (0x110CD, 0x110CD),
   (0x11100, 0x11102), (0x11127, 0x1112B), (0x1112D, 0x11134), (0x11173, 0x11173),
   (0x11180, 0x11181), (0x111B6, 0x111BE), (0x111C9, 0x111CC), (0x111CF, 0x111CF),
   (0x1122F, 0x11231), (0x11234, 0x11234), (0x11236, 0x11237), (0x1123E, 0x1123E),
   (0x112DF, 0x112DF), (0x112E3, 0x112EA), (0x11300, 0x11301), (0x1133B, 0x1133C),
   (0x11340, 0x11340), (0x11366, 0x1136C), (0x11370, 0x11374), (0x11438, 0x1143F),
   (0x11442, 0x11444), (0x11446, 0x11446), (0x1145E, 0x1145E), (0x114B3, 0x114B8),
   (0x114BA, 0x114BA), (0x114BF, 0x114C0), (0x114C2, 0x114C3), (0x115B2, 0x115B5),
   (0x115BC, 0x115BD), (0x115BF, 0x115C0), (0x115DC, 0x115DD), (0x11633, 0x1163A),
   (0x1163D, 0x1163D), (0x1163F, 0x11640), (0x116AB, 0x116AB), (0x116AD, 0x116AD),
   (0x116B0, 0x116B5), (0x116B7, 0x116B7), (0x1171D, 0x1171F), (0x11722, 0x11725),
   (0x11727, 0x1172B), (0x1182F, 0x11837), (0x11839, 0x1183A), (0x1193B, 0x1193C),
   (0x1193E, 0x1193E), (0x11943, 0x11943), (0x119D4, 0x119D7), (0x119DA, 0x119DB),
   (0x119E0, 0x119E0), (0x11A01, 0x11A0A), (0x11A33, 0x11A38), (0x11A3B, 0x11A3E),
   (0x11A47, 0x11A47), (0x11A51, 0x11A56), (0x11A59, 0x11A5B), (0x11A8A, 0x11A96),
   (0x11A98, 0x11A99), (0x11C30, 0x11C36), (0x11C38, 0x11C3D), (0x11C3F, 0x11C3F),
   (0x11C92, 0x11CA7), (0x11CAA, 0x11CB0), (0x11CB2, 0x11CB3), (0x11CB5, 0x11CB6),
   (0x11D31, 0x11D36), (0x11D3A, 0x11D3A), (0x11D3C, 0x11D3D), (0x11D3F, 0x11D45),
   (0x11D47, 0x11D47), (0x11D90, 0x11D91), (0x11D95, 0x11D95), (0x11D97, 0x11D97),
   (0x11EF3, 0x11EF4), (0x13430, 0x13438), (0x16AF0, 0x16AF4), (0x16B30, 0x16B36),
   (0x16B40, 0x16B43), (0x16F4F, 0x16F4F), (0x16F8F, 0x16F9F), (0x16FE0, 0x16FE1),
   (0x16FE3, 0x16FE4), (0x1AFF0, 0x1AFF3), (0x1AFF5, 0x1AFFB), (0x1AFFD, 0x1AFFE),
   (0x1BC9D, 0x1BC9E), (0x1BCA0, 0x1BCA3), (0x1CF00, 0x1CF2D), (0x1CF30, 0x1CF46),
   (0x1D167, 0x1D169), (0x1D173, 0x1D182), (0x1D185, 0x1D18B), (0x1D1AA, 0x1D1AD),
   (0x1D242, 0x1D244), (0x1DA00, 0x1DA36), (0x1DA3B, 0x1DA6C), (0x1DA75, 0x1DA75),
   (0x1DA84, 0x1DA84), (0x1DA9B, 0x1DA9F), (0x1DAA1, 0x1DAAF), (0x1E000, 0x1E006),
   (0x1E008, 0x1E018), (0x1E01B, 0x1E021), (0x1E023, 0x1E024), (0x1E026, 0x1E02A),
   (0x1E130, 0x1E13D), (0x1E2AE, 0x1E2AE), (0x1E2EC, 0x1E2EF), (0x1E8D0, 0x1E8D6),
   (0x1E944, 0x1E94B), (0x1F3FB, 0x1F3FF), (0xE0001, 0xE0001), (0xE0020, 0xE007F),
   (0xE0100, 0xE01EF)]

/-- Whether a code point lies in one of the ranges `(first, last)`. -/
def inRanges (ranges : List (Nat × Nat)) (n : Nat) : Bool :=
  ranges.any fun r => decide (r.1 ≤ n ∧ n ≤ r.2)

/-- The property Cased of a character. -/
def isCased (c : Char) : Bool :=
  inRanges casedRanges c.toNat

/-- The property Case_Ignorable of a character. -/
def isCaseIgnorable (c : Char) : Bool :=
  inRanges caseIgnorableRanges c.toNat

/-- The lower-case form of a code point beyond ASCII that has a simple
lower-case mapping; any other code point is its own lower-case form. -/
def lowerCode (n : Nat) : Nat :=
  match lowerCaseRuns.find? fun r => decide (r.1 ≤ n ∧ n ≤ r.2.1 ∧ (n - r.1) % r.2.2.1 = 0) with
  | some r => r.2.2.2 + (n - r.1)
  | none => n

/-- Lower-casing of one character out of context by
`String.prototype.toLowerCase`: the case mapping of the Unicode character
database, which is the simple mapping of `UnicodeData.txt` but for U+0130, whose
unconditional entry in `SpecialCasing.txt` has two characters. -/
def lowerChar (c : Char) : List Char :=
  if c.toNat < 128 then
    if 'A' ≤ c ∧ c ≤ 'Z' then [Char.ofNat (c.toNat + 32)] else [c]
  else if c.toNat = 0x130 then ['i', Char.ofNat 0x307]
  else [Char.ofNat (lowerCode c.toNat)]

/-- A cased letter comes next in a run of characters, once the case-ignorable
characters at its head are skipped. -/
def casedLetterNext (cs : List Char) : Bool :=
  match cs.dropWhile isCaseIgnorable with
  | c :: _ => isCased c
  | [] => false

/-- The condition Final_Sigma of `SpecialCasing.txt`, the one context-sensitive
mapping that is not bound to a language: a capital sigma is preceded by a cased
letter and not followed by one, case-ignorable characters skipped on both sides.
The characters before are given nearest first. -/
def isFinalSigma (before after : List Char) : Bool :=
  casedLetterNext before && !casedLetterNext after

/-- Lower-casing of one character between the characters before it (nearest
first) and those after it. -/
def lowerCharAt (before : List Char) (c : Char) (after : List Char) : List Char :=
  if c.toNat = 0x3A3 then
    if isFinalSigma before after then [Char.ofNat 0x3C2] else [Char.ofNat 0x3C3]
  else lowerChar c

/-- Lower-casing of a run of characters that follows the characters `before`
(nearest first). -/
def lowerCharsFrom (before : List Char) : List Char → List Char
  | [] => []
  | c :: cs => lowerCharAt before c cs ++ lowerCharsFrom (c :: before) cs

/-- The method `String.prototype.toLowerCase`. -/
def toLowerCase (s : String) : String :=
  String.mk (lowerCharsFrom [] s.data)

/-- The class `\d` of a regular expression without the `u` flag. -/
def isDigit (c : Char) : Bool :=
  decide ('0' ≤ c ∧ c ≤ '9')

/-- The method `String.prototype.includes` on character lists. -/
def includesChars (text pattern : List Char) : Bool :=
  match text with
  | [] => pattern.isEmpty
  | c :: cs => pattern.isPrefixOf (c :: cs) || includesChars cs pattern

/-- The method `String.prototype.includes`. -/
def includes (text pattern : String) : Bool :=
  includesChars text.data pattern.data

/-- The white space and line terminators of ECMAScript: what `trim` strips and
what the class `\s` matches. -/
def isJsSpace (c : Char) : Bool :=
  let n := c.toNat
  n == 0x09 || n == 0x0A || n == 0x0B || n == 0x0C || n == 0x0D || n == 0x20 || n == 0xA0 ||
    n == 0x1680 || (0x2000 ≤ n && n ≤ 0x200A) || n == 0x2028 || n == 0x2029 || n == 0x202F ||
    n == 0x205F || n == 0x3000 || n == 0xFEFF

/-- The method `String.prototype.trim`. -/
def trim (s : String) : String :=
  String.mk ((s.data.dropWhile isJsSpace).reverse.dropWhile isJsSpace).reverse

/-- The method `String.prototype.endsWith`. -/
def endsWith (s ending : String) : Bool :=
  ending.data.isSuffixOf s.data

/-- The method `String.prototype.startsWith`. -/
def startsWith (s start : String) : Bool :=
  start.data.isPrefixOf s.data

/-- The pieces of `split(/[…]+/)` for a class of separator characters:
`current` is the piece being read, in reverse, and `inRun` tells whether the
character before was a separator. -/
def splitRuns (isSeparator : Char → Bool) : List Char → Bool → List Char → List String
  | [], _, current => [String.mk current.reverse]
  | c :: cs, inRun, current =>
    if isSeparator c then
      if inRun then splitRuns isSeparator cs true []
      else String.mk current.reverse :: splitRuns isSeparator cs true []
    else splitRuns isSeparator cs false (c :: current)

/-- A value read from a parsed JSON body: `undefined` for a property that is
absent, an integral number (at most `2 ^ 53` in absolute value, so that a double
holds it and its conversion to a string is its decimal digits), a string, or an
object or array,
given by its conversion to a string (`"[object Object]"` for a plain object,
the joined elements for an array). Numbers with a fraction are outside the
embedding; the pages of this repository send the form fields as strings. -/
inductive JsValue
  | undefined
  | null
  | bool (b : Bool)
  | num (n : Int)
  | str (s : String)
  | object (text : String)
  deriving DecidableEq, Repr

/-- The conversion `String(value)`. -/
def JsValue.toText : JsValue → String
  | .undefined => "undefined"
  | .null => "null"
  | .bool b => if b then "true" else "false"
  | .num n => if n < 0 then "-" ++ toString n.natAbs else toString n.natAbs
  | .str s => s
  | .object text => text

/-- The value of a run of decimal digits. -/
def digitsValue (ds : List Char) : Nat :=
  ds.foldl (fun acc d => acc * 10 + (d.toNat - 48)) 0

/-- The least integer that the conversion to a double rounds to `Infinity`:
`2 ^ 1024 - 2 ^ 970`, written out. -/
def doubleOverflow : Nat :=
  179769313486231580793728971405303415079934132710037826936173778980444968292764750946649017977587207096330286416692887910946555547851940402630657488671505820681908902000708383676273854845817711531764475730270069855571366959622842914819860834936475292719074168444365510704342711559699508093042880177904174497792

/-- The exponent of the leading binary digit of a natural number, halved at
most `fuel` times. -/
def leadingBitFrom : Nat → Nat → Nat
  | 0, _ => 0
  | fuel + 1, n => if n < 2 then 0 else leadingBitFrom fuel (n / 2) + 1

/-- The exponent of the leading binary digit of a positive natural number: the
`e` with `2 ^ e ≤ n < 2 ^ (e + 1)`. -/
def leadingBit (n : Nat) : Nat :=
  leadingBitFrom n n

/-- The exponent of the leading binary digit of the ratio `p / q` of two
positive integers: the integer `e` with `2 ^ e ≤ p / q < 2 ^ (e + 1)`. -/
def binaryExponent (p q : Nat) : Int :=
  let e : Int := (leadingBit p : Int) - (leadingBit q : Int)
  let below : Bool :=
    if 0 ≤ e then decide (p < q * 2 ^ e.toNat) else decide (p * 2 ^ (-e).toNat < q)
  if below then e - 1 else e

/-- The double nearest to the ratio `p / q` of two positive integers, as the
pair `(m, s)` of its value `m * 2 ^ s`: the rounding of IEEE 754 to the nearest
value with a mantissa of 53 binary digits and an exponent of at least `-1074`,
a tie going to the even mantissa. -/
def nearestDouble (p q : Nat) : Nat × Int :=
  let s : Int := max (binaryExponent p q - 52) (-1074)
  let n := if 0 ≤ s then p else p * 2 ^ (-s).toNat
  let d := if 0 ≤ s then q * 2 ^ s.toNat else q
  let m := n / d
  let r := n % d
  (if d < 2 * r ∨ (2 * r = d ∧ m % 2 = 1) then m + 1 else m, s)

/-- The double nearest to a natural number below `doubleOverflow`; the integers
up to `2 ^ 53` are doubles. -/
def roundNatToDouble (n : Nat) : Nat :=
  if n ≤ 9007199254740992 then n
  else (nearestDouble n 1).1 * 2 ^ (nearestDouble n 1).2.toNat

/-- The call `Number.parseInt(text, 10)` where its result is finite: leading
white space, an optional sign, then the longest run of digits; `none` when
there is no digit (`NaN`) or when the value overflows (`Infinity`). The value is
the double nearest to the integer read. -/
def parseInt (text : String) : Option Int :=
  let cs := text.data.dropWhile isJsSpace
  let (negative, cs) :=
    match cs with
    | '-' :: rest => (true, rest)
    | '+' :: rest => (false, rest)
    | _ => (false, cs)
  let ds := cs.takeWhile isDigit
  if ds.isEmpty then none
  else if digitsValue ds ≥ doubleOverflow then none
  else some (if negative then -(roundNatToDouble (digitsValue ds) : Int)
    else (roundNatToDouble (digitsValue ds) : Int))

/-! ## `upload-security.js` -/

namespace UploadSecurity

/-- A browser `File`: its name, its declared media type and its content. -/
structure UploadFile where
  name : String
  type : String
  bytes : List Nat
  deriving DecidableEq, Repr

/-- The property `size` of a `File`. -/
def UploadFile.size (file : UploadFile) : Nat :=
  file.bytes.length

def MAX_SCAN_BYTES : Nat := 200000

def EICAR_SIGNATURE : String := "EICAR-STANDARD-ANTIVIRUS-TEST-FILE"

/-- What the property read `SIGNATURES[key]` can yield: one of the three byte
arrays of the object literal, or a member that every object literal inherits
from `Object.prototype` (a function, with its `length`, or the prototype itself
under the key `__proto__`). -/
inductive SignatureValue
  | array (signature : List Nat)
  | inheritedFunction (length : Nat)
  | inheritedPrototype
  deriving DecidableEq, Repr

/-- The property read `SIGNATURES[key]`; `none` is `undefined`. -/
def SIGNATURES (key : String) : Option SignatureValue :=
  if key = "application/pdf" then some (.array [0x25, 0x50, 0x44, 0x46])
  else if key = "image/png" then some (.array [0x89, 0x50, 0x4e, 0x47])
  else if key = "image/jpeg" then some (.array [0xff, 0xd8, 0xff])
  else if key = "__proto__" then some .inheritedPrototype
  else if key = "toString" ∨ key = "toLocaleString" ∨ key = "valueOf" then
    some (.inheritedFunction 0)
  else if key = "constructor" ∨ key = "hasOwnProperty" ∨ key = "isPrototypeOf"
      ∨ key = "propertyIsEnumerable" ∨ key = "__lookupGetter__" ∨ key = "__lookupSetter__" then
    some (.inheritedFunction 1)
  else if key = "__defineGetter__" ∨ key = "__defineSetter__" then
    some (.inheritedFunction 2)
  else none

/-- The expression `file.name.split(".").pop()`: the text after the last dot,
the whole name when it has no dot. -/
def lastSegment (name : String) : String :=
  String.mk (name.data.reverse.takeWhile (fun c => c != '.')).reverse

/-- The object returned by `getExpectedSignature`. -/
structure Expected where
  type : String
  signature : SignatureValue
  deriving DecidableEq, Repr

def getExpectedSignature (file : UploadFile) : Option Expected :=
  match SIGNATURES file.type with
  | some value => some { type := file.type, signature := value }
  | none =>
    let extension := toLowerCase (lastSegment file.name)
    if extension = "pdf" then
      some { type := "application/pdf", signature := .array [0x25, 0x50, 0x44, 0x46] }
    else if extension = "png" then
      some { type := "image/png", signature := .array [0x89, 0x50, 0x4e, 0x47] }
    else if extension = "jpg" ∨ extension = "jpeg" then
      some { type := "image/jpeg", signature := .array [0xff, 0xd8, 0xff] }
    else none

/-- The call `signature.every((value, index) => bytes[index] === value)`, from
index `index` on. -/
def everyFrom (bytes : List Nat) : List Nat → Nat → Bool
  | [], _ => true
  | value :: rest, index => (bytes.get? index == some value) && everyFrom bytes rest (index + 1)

/-- The function `matchesSignature` on a signature that was found (never
`null`). A signature that is not an array has no method `every`, and the call
throws unless the length test returned first. -/
def matchesSignature (bytes : List Nat) (signature : SignatureValue) : Except JsError Bool :=
  match signature with
  | .array sig =>
    if bytes.length < sig.length then .ok false else .ok (everyFrom bytes sig 0)
  | .inheritedFunction length =>
    if bytes.length < length then .ok false
    else .error (.typeError "signature.every is not a function")
  | .inheritedPrototype => .error (.typeError "signature.every is not a function")

/-- The function `readSample`: the first `MAX_SCAN_BYTES` bytes of the file. -/
def readSample (file : UploadFile) : List Nat :=
  file.bytes.take MAX_SCAN_BYTES

/-- State of the UTF-8 decoder between two bytes: the code point collected so
far, the number of continuation bytes still needed, and the bounds the next
byte has to respect. -/
structure Utf8State where
  codePoint : Nat
  needed : Nat
  lower : Nat
  upper : Nat
  deriving DecidableEq, Repr

/-- The replacement character U+FFFD. -/
def replacement : Char := Char.ofNat 0xFFFD

/-- One byte read by the decoder while no sequence is open: the characters it
emits and the sequence it opens, if any. -/
def utf8Lead (byte : Nat) : List Char × Option Utf8State :=
  if byte ≤ 0x7F then ([Char.ofNat byte], none)
  else if 0xC2 ≤ byte ∧ byte ≤ 0xDF then
    ([], some { codePoint := byte % 0x20, needed := 1, lower := 0x80, upper := 0xBF })
  else if 0xE0 ≤ byte ∧ byte ≤ 0xEF then
    ([], some { codePoint := byte % 0x10, needed := 2,
                lower := if byte = 0xE0 then 0xA0 else 0x80,
                upper := if byte = 0xED then 0x9F else 0xBF })
  else if 0xF0 ≤ byte ∧ byte ≤ 0xF4 then
    ([], some { codePoint := byte % 0x08, needed := 3,
                lower := if byte = 0xF0 then 0x90 else 0x80,
                upper := if byte = 0xF4 then 0x8F else 0xBF })
  else ([replacement], none)

/-- The UTF-8 decoder of `TextDecoder("utf-8", { fatal: false })`: a malformed
sequence yields U+FFFD and the offending byte is read again as a lead byte; a
sequence cut by the end of the input yields U+FFFD. -/
def utf8Decode : Option Utf8State → List Nat → List Char
  | none, [] => []
  | some _, [] => [replacement]
  | none, byte :: rest =>
    (utf8Lead byte).1 ++ utf8Decode (utf8Lead byte).2 rest
  | some st, byte :: rest =>
    if st.lower ≤ byte ∧ byte ≤ st.upper then
      let codePoint := st.codePoint * 64 + byte % 64
      if st.needed = 1 then Char.ofNat codePoint :: utf8Decode none rest
      else utf8Decode
        (some { codePoint := codePoint, needed := st.needed - 1, lower := 0x80, upper := 0xBF }) rest
    else
      replacement :: ((utf8Lead byte).1 ++ utf8Decode (utf8Lead byte).2 rest)

/-- The function `decodeSample`: non-fatal UTF-8 decoding; a byte order mark at
the start of the input is dropped (`ignoreBOM` is not set). -/
def decodeSample (bytes : List Nat) : String :=
  match utf8Decode none bytes with
  | c :: cs => if c.toNat = 0xFEFF then String.mk cs else String.mk (c :: cs)
  | [] => ""

/-- The term `\d{n}`: the text left after `n` digits, if they are there. -/
def digits : Nat → List Char → Option (List Char)
  | 0, cs => some cs
  | _ + 1, [] => none
  | n + 1, c :: cs => if isDigit c then digits n cs else none

/-- The lookahead `(?!\d)`. -/
def notBeforeDigit : List Char → Bool
  | [] => true
  | c :: _ => !isDigit c

/-- The terms `\d{4}(?!\d)`. -/
def ssnLast (cs : List Char) : Bool :=
  match digits 4 cs with
  | some rest => notBeforeDigit rest
  | none => false

/-- The terms `\d{2}-?\d{4}(?!\d)`: the hyphen is tried first, then its absence. -/
def ssnMiddle (cs : List Char) : Bool :=
  match digits 2 cs with
  | some rest =>
    (match rest with
      | '-' :: rest' => ssnLast rest'
      | _ => false) || ssnLast rest
  | none => false

/-- The terms `\d{3}-?\d{2}-?\d{4}(?!\d)`. -/
def ssnBody (cs : List Char) : Bool :=
  match digits 3 cs with
  | some rest =>
    (match rest with
      | '-' :: rest' => ssnMiddle rest'
      | _ => false) || ssnMiddle rest
  | none => false

/-- One attempt of `SSN_PATTERN` at a position: the group `(^|\D)` takes the
start of the text, when the position is the start, or else one non-digit. -/
def ssnAt (atStart : Bool) (cs : List Char) : Bool :=
  (atStart && ssnBody cs) ||
    (match cs with
      | c :: rest => !isDigit c && ssnBody rest
      | [] => false)

/-- The search of `SSN_PATTERN` through the positions of the text. -/
def ssnSearch (atStart : Bool) : List Char → Bool
  | [] => ssnAt atStart []
  | c :: cs => ssnAt atStart (c :: cs) || ssnSearch false cs

/-- The call `SSN_PATTERN.test(text)` for
`SSN_PATTERN = /(^|\D)\d{3}-?\d{2}-?\d{4}(?!\d)/`. -/
def SSN_PATTERN_test (text : String) : Bool :=
  ssnSearch true text.data

/-- The object returned by `scanFile`. -/
structure ScanResult where
  ok : Bool
  malware : Bool
  dlp : Bool
  message : String
  deriving DecidableEq, Repr

/-- The function `scanFile`. -/
def scanFile (file : UploadFile) : Except JsError ScanResult :=
  let expected := getExpectedSignature file
  let sample := readSample file
  let mismatch : Except JsError Bool :=
    match expected with
    | some e => (matchesSignature sample e.signature).map (fun m => !m)
    | none => .ok false
  match mismatch with
  | .error err => .error err
  | .ok true =>
    .ok { ok := false, malware := true, dlp := false,
          message := "File signature mismatch detected in " ++ file.name ++ "." }
  | .ok false =>
    let text := decodeSample sample
    if includes text EICAR_SIGNATURE then
      .ok { ok := false, malware := true, dlp := false,
            message := "Malware test signature detected in " ++ file.name ++ "." }
    else
      let dlpHit := SSN_PATTERN_test text
      .ok { ok := true, malware := false, dlp := dlpHit,
            message := if dlpHit then "Sensitive data detected in " ++ file.name ++ "." else "" }

/-- One entry of the array `results` built by `scanFiles`. -/
structure ScanEntry where
  name : String
  ok : Bool
  dlp : Bool
  message : String
  deriving DecidableEq, Repr

/-- The two shapes of the object returned by `scanFiles`:
`{ ok: false, message, results }` and `{ ok: true, dlpHits, warnings, results }`. -/
inductive ScanBatch
  | blocked (message : String) (results : List ScanEntry)
  | passed (dlpHits : Nat) (warnings : List String) (results : List ScanEntry)
  deriving DecidableEq, Repr

/-- The field `ok` of the object returned by `scanFiles`. -/
def ScanBatch.ok : ScanBatch → Bool
  | .blocked _ _ => false
  | .passed _ _ _ => true

/-- The field `results` of the object returned by `scanFiles`. -/
def ScanBatch.results : ScanBatch → List ScanEntry
  | .blocked _ results => results
  | .passed _ _ results => results

/-- A run of `scanFiles`: the texts handed to `onProgress`, the files whose
bytes were read by `scanFile`, both in order, and the value returned or the
exception thrown. -/
structure ScanRun where
  progress : List String
  sampled : List UploadFile
  outcome : Except JsError ScanBatch
  deriving DecidableEq, Repr

/-- The `for` loop of `scanFiles` from position `index` on: `files` are the
files not yet visited, `total` is `files.length` of the whole batch, the other
arguments are the loop variables and the effects so far. -/
def scanLoop (total : Nat) :
    List UploadFile → Nat → Nat → List String → List ScanEntry →
      List String → List UploadFile → ScanRun
  | [], _, dlpHits, warnings, results, progress, sampled =>
    { progress := progress ++ [""], sampled := sampled,
      outcome := .ok (.passed dlpHits warnings results) }
  | file :: rest, index, dlpHits, warnings, results, progress, sampled =>
    let progress := progress ++
      ["Screening " ++ file.name ++ " (" ++ toString (index + 1) ++ " of " ++ toString total ++ ")..."]
    let sampled := sampled ++ [file]
    match scanFile file with
    | .error err => { progress := progress, sampled := sampled, outcome := .error err }
    | .ok result =>
      let results := results ++
        [{ name := file.name, ok := result.ok, dlp := result.dlp, message := result.message }]
      if !result.ok then
        { progress := progress, sampled := sampled,
          outcome := .ok (.blocked
            (if result.message = "" then "Upload blocked by security screening." else result.message)
            results) }
      else if result.dlp then
        scanLoop total rest (index + 1) (dlpHits + 1) (warnings ++ [result.message]) results
          progress sampled
      else
        scanLoop total rest (index + 1) dlpHits warnings results progress sampled

/-- The function `scanFiles`, called with a progress callback. -/
def scanFiles (files : List UploadFile) : ScanRun :=
  if files.isEmpty then
    { progress := [], sampled := [], outcome := .ok (.passed 0 [] []) }
  else scanLoop files.length files 0 0 [] [] [] []

/-! ### Vocabulary of the screening properties -/

/-- Container verification lets the file through: no signature is expected for
it, or the expected signature is matched. -/
def PassesContainer (file : UploadFile) : Prop :=
  getExpectedSignature file = none ∨
    ∃ e, getExpectedSignature file = some e ∧
      matchesSignature (readSample file) e.signature = .ok true

/-- The text is a match of `\d{3}-?\d{2}-?\d{4}`: three digits, an optional
hyphen, two digits, an optional hyphen, four digits. -/
def SsnShaped (mid : List Char) : Prop :=
  ∃ a h₁ b h₂ c, mid = a ++ h₁ ++ b ++ h₂ ++ c ∧
    a.length = 3 ∧ (∀ x ∈ a, isDigit x = true) ∧ (h₁ = [] ∨ h₁ = ['-']) ∧
    b.length = 2 ∧ (∀ x ∈ b, isDigit x = true) ∧ (h₂ = [] ∨ h₂ = ['-']) ∧
    c.length = 4 ∧ (∀ x ∈ c, isDigit x = true)

/-- The text contains a substring matching `\d{3}-?\d{2}-?\d{4}`. -/
def ContainsSsnShape (text : String) : Prop :=
  ∃ before mid after, text.data = before ++ mid ++ after ∧ SsnShaped mid

/-- The text contains a substring matching `\d{3}-?\d{2}-?\d{4}` that starts
the text or follows a non-digit, and that no digit follows. -/
def ContainsDelimitedSsn (text : String) : Prop :=
  ∃ before mid after, text.data = before ++ mid ++ after ∧ SsnShaped mid ∧
    (before = [] ∨ ∃ init c, before = init ++ [c] ∧ isDigit c = false) ∧
    (after = [] ∨ ∃ c tail, after = c :: tail ∧ isDigit c = false)

/-- The entry that `scanFiles` pushes on `results` for a file whose scan
returned. -/
def entryOf (file : UploadFile) : ScanEntry :=
  match scanFile file with
  | .ok r => { name := file.name, ok := r.ok, dlp := r.dlp, message := r.message }
  | .error _ => { name := file.name, ok := false, dlp := false, message := "" }

/-- The file is rejected by `scanFile`. -/
def Rejected (file : UploadFile) : Prop :=
  ∃ r, scanFile file = .ok r ∧ r.ok = false

/-- The file is accepted by `scanFile`. -/
def Accepted (file : UploadFile) : Prop :=
  ∃ r, scanFile file = .ok r ∧ r.ok = true

/-- The file fails signature verification: a byte signature is expected for it
and its leading bytes are not that signature. -/
def SignatureMismatch (file : UploadFile) : Prop :=
  ∃ e sig, getExpectedSignature file = some e ∧ e.signature = .array sig ∧
    file.bytes.take sig.length ≠ sig

end UploadSecurity

/-! ## Batch uploads of `vault.js` and `app.js` -/

namespace Upload

open UploadSecurity

/-- The configuration and the outside services the upload functions depend on:
the constants `allowedTypes` and `maxUploadSize`, whether the client `supabase`
was created, the access token of the session (empty when there is none), the
text returned by the `n`-th call of `buildTimestamp`, and the answer of the
object store to `upload(path, file)`: `none` when the object is written,
`some m` when the store returns an error whose `message` is `m`. -/
structure UploadEnv where
  allowedTypes : List String
  maxUploadSize : Nat
  supabase : Bool
  sessionToken : String
  buildTimestamp : Nat → String
  storageError : String → UploadFile → Option String

/-- The signed-in context handed to the upload functions: the id of
`context.user` (`none` when there is no user), the username and the key derived
from it (empty when it is missing). -/
structure UploadContext where
  user : Option String
  username : String
  usernameKey : String
  deriving DecidableEq, Repr

/-- The body posted to `/api/uploads/record` by `recordUpload`. -/
structure UploadPayload where
  client_user_id : Option String
  client_username : String
  file_name : String
  storage_path : String
  file_size : Nat
  file_type : String
  category : String
  document_label : Option String
  scan_status : String
  scan_notes : String
  dlp_hits : Nat
  deriving DecidableEq, Repr

/-- What the upload functions write outside the page: the objects written to
the object store, as pairs of path and file, and the upload records requested
from the server, both in order. -/
structure Stored where
  objects : List (String × UploadFile)
  records : List UploadPayload
  deriving DecidableEq, Repr

/-- The function `recordUpload` (the same in `vault.js` and `app.js`): nothing
is sent without a client or without an access token. -/
def recordUpload (env : UploadEnv) (payload : UploadPayload) (stored : Stored) : Stored :=
  if !env.supabase then stored
  else if env.sessionToken = "" then stored
  else { stored with records := stored.records ++ [payload] }

/-- The replacement `name.replace(/[^a-zA-Z0-9._-]/g, "_")`: a character outside
the class becomes one underscore per UTF-16 code unit. -/
def safeName (name : String) : String :=
  String.mk (name.data.flatMap fun c =>
    if c.isAlphanum ∨ c = '.' ∨ c = '_' ∨ c = '-' then [c]
    else if c.toNat < 0x10000 then ['_'] else ['_', '_'])

/-- The storage path built for the file at position `counter` (from 1) of a
batch of `total` files. -/
def storagePath (env : UploadEnv) (context : UploadContext) (total counter : Nat)
    (name : String) : String :=
  "uploads/" ++ context.usernameKey ++ "/" ++ env.buildTimestamp (counter - 1) ++
    (if total > 1 then "-" ++ toString counter else "") ++ "-" ++ safeName name

/-- The scan status, the scan notes and the number of hits recorded for the
file at position `index` of the scanned batch. -/
def scanInfoOf (results : List ScanEntry) (index : Nat) : String × String × Nat :=
  match results.get? index with
  | some info => (if info.dlp then "flagged" else "clean", info.message, if info.dlp then 1 else 0)
  | none => ("unknown", "", 0)

/-- The object store writes every one of the files at the path built for its
position; `counter` files of the batch were uploaded before them. -/
def allStored (env : UploadEnv) (context : UploadContext) (total : Nat) :
    Nat → List UploadFile → Bool
  | _, [] => true
  | counter, file :: rest =>
    (env.storageError (storagePath env context total (counter + 1) file.name) file).isNone &&
      allStored env context total (counter + 1) rest

/-- The objects written for the files, each at the path built for its position;
`counter` files of the batch were uploaded before them. -/
def uploadedObjects (env : UploadEnv) (context : UploadContext) (total : Nat) :
    Nat → List UploadFile → List (String × UploadFile)
  | _, [] => []
  | counter, file :: rest =>
    (storagePath env context total (counter + 1) file.name, file) ::
      uploadedObjects env context total (counter + 1) rest

/-! Sample data for the concrete cases below. -/

/-- A configuration with the default constants, a signed-in session, a clock
that is read at a fixed instant and an object store that accepts every write. -/
def sampleEnv : UploadEnv where
  allowedTypes := ["application/pdf", "image/jpeg", "image/png"]
  maxUploadSize := 10 * 1024 * 1024
  supabase := true
  sessionToken := "token"
  buildTimestamp := fun _ => "20250101120000000"
  storageError := fun _ _ => none

def sampleContext : UploadContext :=
  { user := some "user-1", username := "Ada", usernameKey := "ada" }

/-- A well-formed PDF named `w2.pdf`. -/
def sampleW2 : UploadFile :=
  { name := "w2.pdf", type := "application/pdf", bytes := [0x25, 0x50, 0x44, 0x46] }

/-- A file named `1099.pdf` and declared as PDF whose bytes are not a PDF. -/
def sampleSpoofed : UploadFile :=
  { name := "1099.pdf", type := "application/pdf", bytes := [0x4d, 0x5a] }

/-- A well-formed PDF named `tax-id.pdf`. -/
def sampleId : UploadFile :=
  { name := "tax-id.pdf", type := "application/pdf", bytes := [0x25, 0x50, 0x44, 0x46] }

/-- The sample configuration with an object store that refuses every file named
`tax-id.pdf` with the error message `quota`. -/
def sampleFailingEnv : UploadEnv :=
  { sampleEnv with
    storageError := fun _ file => if file.name = "tax-id.pdf" then some "quota" else none }

end Upload

/-! ### `vault.js` -/

namespace Vault

open UploadSecurity Upload

def documentNameTokens : List String :=
  ["w2", "1099", "1098", "id", "passport", "license", "k1", "schedule", "receipt",
   "statement", "tax"]

/-- The function `normalizeFileName`: lower-case, then drop every character
outside `a-z0-9`. -/
def normalizeFileName (value : String) : String :=
  String.mk ((toLowerCase value).data.filter fun c => c.isLower || c.isDigit)

/-- One character of a pattern word against one character of the text under
the flag `i`: only the two ASCII cases of a letter match it. -/
def matchesIgnoreCase (patternChar textChar : Char) : Bool :=
  textChar == patternChar || textChar == patternChar.toUpper

/-- A word of the alternation matched at the start of the text: the rest of the
text, if the word is there. -/
def stripWord : List Char → List Char → Option (List Char)
  | [], cs => some cs
  | _ :: _, [] => none
  | p :: ps, c :: cs => if matchesIgnoreCase p c then stripWord ps cs else none

/-- The terms ``[-_\\s]*\\d*`` of `genericFilePattern`, as the source writes
them in a regular-expression literal: any run of the characters `-`, `_`,
backslash and `s`, then one backslash, then any number of `d`. -/
def genericTail : List Char → Bool
  | [] => false
  | c :: cs =>
    ((c == '-' || c == '_' || c == '\\' || c == 's' || c == 'S') && genericTail cs)
      || c == '\\'

/-- The call `genericFilePattern.test(name)`. -/
def genericFilePattern_test (name : String) : Bool :=
  ["img", "image", "scan", "document", "file", "photo", "screenshot"].any fun word =>
    match stripWord word.data name.data with
    | some rest => genericTail rest
    | none => false

/-- The function `getDocumentNameError`; the empty string is "no error". -/
def getDocumentNameError (file : UploadFile) : String :=
  let normalized := normalizeFileName file.name
  let hasToken := documentNameTokens.any fun token => includes normalized token
  if !hasToken || genericFilePattern_test file.name then
    "Rename \"" ++ file.name ++
      "\" to include the document type (e.g., W-2_2025.pdf) and reselect it."
  else ""

/-- The upload area of the client vault: what is stored outside the page, the
text and the kind of the message shown, and the progress line. -/
structure Page where
  stored : Stored
  message : String × String
  progress : String
  deriving DecidableEq, Repr

/-- The result of running a handler of the page: the page it leaves, and the
exception it threw, if any. -/
structure PageRun where
  page : Page
  thrown : Option JsError
  deriving DecidableEq, Repr

/-- The upload loop of `uploadFiles` over the files not yet uploaded; `counter`
files were uploaded before. Returns the page and whether the loop ran to its
end. -/
def uploadLoop (env : UploadEnv) (context : UploadContext) (total : Nat)
    (results : List ScanEntry) : List UploadFile → Nat → Page → Page × Bool
  | [], _, page => (page, true)
  | file :: rest, counter, page =>
    let info := scanInfoOf results counter
    let counter := counter + 1
    let page := { page with
      progress := "Uploading " ++ toString counter ++ " of " ++ toString total ++ ": " ++ file.name }
    let path := storagePath env context total counter file.name
    match env.storageError path file with
    | some errorMessage =>
      ({ page with
          message := ("Upload failed: " ++ (if errorMessage = "" then file.name else errorMessage),
                      "error"),
          progress := "" }, false)
    | none =>
      let stored := { page.stored with objects := page.stored.objects ++ [(path, file)] }
      let stored := recordUpload env
        { client_user_id := context.user.filter (fun id => id != ""),
          client_username := context.username,
          file_name := file.name, storage_path := path, file_size := file.size,
          file_type := file.type, category := "documents", document_label := none,
          scan_status := info.1, scan_notes := info.2.1, dlp_hits := info.2.2 } stored
      uploadLoop env context total results rest counter { page with stored := stored }

/-- The function `uploadFiles` of the client vault, on the files resolved from
the selection. `hasMessageElement` tells whether the element `uploadMessage`
exists. The receipt and the refreshed listing only display and are left out. -/
def uploadFiles (env : UploadEnv) (hasMessageElement : Bool) (context : UploadContext)
    (files : List UploadFile) (page : Page) : PageRun :=
  if !hasMessageElement then { page := page, thrown := none }
  else if context.usernameKey = "" then
    { page := { page with
        message := ("Username missing. Complete account setup to upload files.", "error") },
      thrown := none }
  else if files.isEmpty then
    { page := { page with message := ("Select files to upload.", "error") }, thrown := none }
  else
    match files.find? (fun file => getDocumentNameError file != "") with
    | some invalidName =>
      { page := { page with message := (getDocumentNameError invalidName, "error"), progress := "" },
        thrown := none }
    | none =>
      let page := { page with
        progress := "Preparing " ++ toString files.length ++ " file" ++
          (if files.length > 1 then "s" else "") ++ "..." }
      match files.find? (fun file =>
          !env.allowedTypes.contains file.type || decide (file.size > env.maxUploadSize)) with
      | some invalid =>
        { page := { page with
            message := ("Unsupported file or size too large: " ++ invalid.name, "error"),
            progress := "" },
          thrown := none }
      | none =>
        let scan := scanFiles files
        let page := { page with progress := scan.progress.getLastD page.progress }
        match scan.outcome with
        | .error err => { page := page, thrown := some err }
        | .ok (.blocked message _) =>
          { page := { page with
              message := (if message = "" then "Upload blocked by security screening."
                          else message, "error"),
              progress := "" },
            thrown := none }
        | .ok (.passed dlpHits _ results) =>
          let page := { page with message := ("Uploading files...", "info") }
          if !env.supabase then
            { page := { page with
                progress := "Uploading 1 of " ++ toString files.length ++ ": " ++
                  (files.head?.map (fun f => f.name)).getD "" },
              thrown := some (.typeError "Cannot read properties of null (reading 'storage')") }
          else
            match uploadLoop env context files.length results files 0 page with
            | (page, false) => { page := page, thrown := none }
            | (page, true) =>
              { page := { page with
                  message :=
                    if dlpHits != 0 then
                      ("Uploads complete. Sensitive data was detected and flagged for preparer review.",
                       "warning")
                    else ("Uploads complete.", "success"),
                  progress := "" },
                thrown := none }

/-! The display of the review status. -/

def reviewStatusMap : List String :=
  ["received", "in_review", "awaiting_documents", "awaiting_authorization", "ready_to_file",
   "filed"]

/-- The constant `normalized` of `setReviewStatus`: the status when it is one of
the six strings of `reviewStatusMap`, `received` otherwise. -/
def normalizedStatus (status : JsValue) : String :=
  match status with
  | .str s => if s ≠ "" ∧ reviewStatusMap.contains s then s else "received"
  | _ => "received"

/-- The constant `activeIndex` of `setReviewStatus`:
`Math.max(reviewStatusMap.indexOf(normalized), 0)`. -/
def activeIndex (status : JsValue) : Nat :=
  let index := reviewStatusMap.indexOf (normalizedStatus status)
  if index < reviewStatusMap.length then index else 0

/-- The objects `reviewLabels` and `badgeClassMap` read at a status of
`reviewStatusMap`, with their fall-backs. -/
def badgeOf (normalized : String) : String × String :=
  if normalized = "received" then ("Received", "pending")
  else if normalized = "in_review" then ("In review", "pending")
  else if normalized = "awaiting_documents" then ("Awaiting documents", "required")
  else if normalized = "awaiting_authorization" then ("Awaiting Form 8879", "required")
  else if normalized = "ready_to_file" then ("Ready to file", "pending")
  else if normalized = "filed" then ("Filed", "received")
  else ("Received", "pending")

/-- The classes `is-complete` and `is-active` of one step of the timeline. -/
structure StepMarks where
  isComplete : Bool
  isActive : Bool
  deriving DecidableEq, Repr

/-- What `setReviewStatus` shows of the status: the text and the class of the
badge, and the marks of the elements `.timeline-step`, in document order. -/
structure ReviewDisplay where
  badgeText : String
  badgeClass : String
  steps : List StepMarks
  deriving DecidableEq, Repr

/-- The function `setReviewStatus` on a page whose timeline has `steps`
elements `.timeline-step`, as far as the badge and the timeline go; `none` when
the badge or the timeline is missing and the function returns at once. -/
def setReviewStatus (hasBadge hasTimeline : Bool) (steps : Nat) (status : JsValue) :
    Option ReviewDisplay :=
  if !hasBadge || !hasTimeline then none
  else
    let normalized := normalizedStatus status
    some
      { badgeText := (badgeOf normalized).1,
        badgeClass := "status-badge " ++ (badgeOf normalized).2,
        steps := (List.range steps).map fun index =>
          { isComplete := decide (index < activeIndex status),
            isActive := decide (index = activeIndex status) } }

end Vault

/-! ### `app.js` -/

namespace App

open UploadSecurity Upload

/-- An element of the list handed to `uploadIntakeDocuments`: a file and the
label of the form field it was selected in. -/
structure UploadItem where
  file : UploadFile
  label : String
  deriving DecidableEq, Repr

/-- The object returned by `uploadIntakeDocuments`:
`{ ok: true, uploaded, dlpHits }` or `{ ok: false, message }`. -/
inductive UploadOutcome
  | done (uploaded dlpHits : Nat)
  | failed (message : String)
  deriving DecidableEq, Repr

/-- A run of `uploadIntakeDocuments`: what it leaves stored, and the object it
returns or the exception it throws. -/
structure UploadRun where
  stored : Stored
  outcome : Except JsError UploadOutcome
  deriving DecidableEq, Repr

/-- The upload loop of `uploadIntakeDocuments` over the items not yet uploaded;
`counter` items were uploaded before. Returns what is stored and the message of
the failure that ended the loop, if any. -/
def uploadLoop (env : UploadEnv) (context : UploadContext) (userId : String) (total : Nat)
    (results : List ScanEntry) : List UploadItem → Nat → Stored → Stored × Option String
  | [], _, stored => (stored, none)
  | item :: rest, counter, stored =>
    let index := counter
    let counter := counter + 1
    let path := storagePath env context total counter item.file.name
    match env.storageError path item.file with
    | some _ =>
      (stored, some ("Document upload failed for " ++ item.file.name ++
        ". Please retry in the dashboard."))
    | none =>
      let stored := { stored with objects := stored.objects ++ [(path, item.file)] }
      let info := scanInfoOf results index
      let stored := recordUpload env
        { client_user_id := some userId,
          client_username := context.username,
          file_name := item.file.name, storage_path := path, file_size := item.file.size,
          file_type := item.file.type, category := "documents",
          document_label := some item.label,
          scan_status := info.1, scan_notes := info.2.1, dlp_hits := info.2.2 } stored
      uploadLoop env context userId total results rest counter stored

/-- The function `uploadIntakeDocuments` of the intake form. In `app.js` the
client `supabase` exists exactly when storage is enabled. The status element
only displays progress and is left out. -/
def uploadIntakeDocuments (env : UploadEnv) (context : UploadContext)
    (files : List UploadItem) (stored : Stored) : UploadRun :=
  if files.isEmpty then { stored := stored, outcome := .ok (.done 0 0) }
  else if !env.supabase then
    { stored := stored,
      outcome := .ok (.failed
        "Document upload is unavailable. Please upload files in the client dashboard.") }
  else
    match context.user with
    | none =>
      { stored := stored,
        outcome := .ok (.failed "Session expired. Please sign in again to upload documents.") }
    | some userId =>
      if context.usernameKey = "" then
        { stored := stored,
          outcome := .ok (.failed
            "Username missing. Please complete account setup before uploading documents.") }
      else
        match files.find? (fun item =>
            !env.allowedTypes.contains item.file.type ||
              decide (item.file.size > env.maxUploadSize)) with
        | some invalid =>
          { stored := stored,
            outcome := .ok (.failed ("Unsupported file or size too large: " ++ invalid.file.name)) }
        | none =>
          match (scanFiles (files.map fun item => item.file)).outcome with
          | .error err => { stored := stored, outcome := .error err }
          | .ok (.blocked message _) =>
            { stored := stored,
              outcome := .ok (.failed
                (if message = "" then "Document upload blocked by security screening."
                 else message)) }
          | .ok (.passed dlpHits _ results) =>
            match uploadLoop env context userId files.length results files 0 stored with
            | (stored, some message) => { stored := stored, outcome := .ok (.failed message) }
            | (stored, none) => { stored := stored, outcome := .ok (.done files.length dlpHits) }

/-- What the submit handler of the intake form reads for the SSN and the IP
PIN: the variables `editingIntakeId` and `rawSsn`, and the values of the inputs
`ssn` and `ip_pin` (both inputs exist). -/
structure SensitiveInputs where
  editingIntakeId : Option Int
  rawSsn : String
  ssnValue : String
  ipPinValue : String
  deriving DecidableEq, Repr

/-- The truth value of `editingIntakeId`. -/
def SensitiveInputs.editing (form : SensitiveInputs) : Bool :=
  match form.editingIntakeId with
  | some id => id != 0
  | none => false

/-- The constant `ipPinValue` of the submit handler:
`ipPinInput.value.replace(/\D/g, "").slice(0, 6)`. -/
def SensitiveInputs.ipPinDigits (form : SensitiveInputs) : String :=
  String.mk ((form.ipPinValue.data.filter isDigit).take 6)

/-- The errors that the submit handler of the intake form pushes for the SSN
and the IP PIN. -/
def sensitiveErrors (form : SensitiveInputs) : List String :=
  (if form.rawSsn.length != 0 && form.rawSsn.length != 9 then ["Enter a valid 9-digit SSN."]
   else if !form.editing && form.rawSsn.length != 9 then ["Enter a valid 9-digit SSN."]
   else []) ++
  (if form.ipPinDigits.length != 0 && form.ipPinDigits.length != 6 then
     ["Enter the 6-digit IRS IP PIN."]
   else if !form.editing && form.ipPinDigits.length != 6 then ["Enter the 6-digit IRS IP PIN."]
   else [])

/-- The properties `ssn` and `ip_pin` of the payload built by the submit
handler: the values of the inputs, as `FormData` gives them, replaced by
`rawSsn` and by the digits of the IP PIN when these are not empty. -/
def sensitivePayload (form : SensitiveInputs) : JsValue × JsValue :=
  (if form.rawSsn.length != 0 then .str form.rawSsn else .str form.ssnValue,
   if form.ipPinDigits.length != 0 then .str form.ipPinDigits else .str form.ipPinValue)

/-- The form after `loadIntakeForEdit`: `populateIntakeForm` empties `rawSsn`
and `setEditingState(true)` shows the masks `*********` and `••••••`. -/
def editUntouched (intakeId : Int) : SensitiveInputs :=
  { editingIntakeId := some intakeId, rawSsn := "", ssnValue := "*********",
    ipPinValue := "••••••" }

/-! The naming policy of the intake form. -/

/-- A value of the object `fileNameRules`; `exampleName` is its property
`example`. -/
structure FileNameRule where
  label : String
  tokens : List String
  display : List String
  exampleName : String
  deriving DecidableEq, Repr

/-- What the property read `fileNameRules[name]` can yield: one of the three
rules of the object literal, or a member that every object literal inherits
from `Object.prototype`, which is truthy and has no property `tokens`. -/
inductive RuleValue
  | rule (value : FileNameRule)
  | inherited
  deriving DecidableEq, Repr

/-- The property read `fileNameRules[name]`; `none` is `undefined`. -/
def fileNameRules (name : String) : Option RuleValue :=
  if name = "w2_upload" then
    some (.rule { label := "W-2 or 1099 forms", tokens := ["w2", "w-2", "1099"],
                  display := ["W-2", "1099"], exampleName := "W-2_2025.pdf" })
  else if name = "mortgage_upload" then
    some (.rule { label := "1098 mortgage statement", tokens := ["1098", "mortgage"],
                  display := ["1098", "Mortgage"], exampleName := "1098_Mortgage_2025.pdf" })
  else if name = "id_upload" then
    some (.rule { label := "Photo ID",
                  tokens := ["photoid", "photo", "id", "passport", "driverlicense", "driver",
                             "license"],
                  display := ["Photo ID", "Passport", "Driver_License"],
                  exampleName := "Photo_ID.pdf" })
  else if ["__proto__", "constructor", "hasOwnProperty", "isPrototypeOf", "propertyIsEnumerable",
           "toLocaleString", "toString", "valueOf", "__defineGetter__", "__defineSetter__",
           "__lookupGetter__", "__lookupSetter__"].contains name then
    some .inherited
  else none

/-- The function `normalizeFileName` of `app.js`: lower-case, then drop every
character outside `a-z0-9`. -/
def normalizeFileName (value : String) : String :=
  String.mk ((toLowerCase value).data.filter fun c => c.isLower || c.isDigit)

/-- The function `matchesFileNameTokens` on an array of tokens. -/
def matchesFileNameTokens (fileName : String) (tokens : List String) : Bool :=
  tokens.any fun token => includes (normalizeFileName fileName) (normalizeFileName token)

/-- An `input` element as `getFileNameError` reads it: its type, its name and
the files selected in it. -/
structure FileInput where
  type : String
  name : String
  files : List UploadFile
  deriving DecidableEq, Repr

/-- The function `getFileNameError`; `none` is a missing element and the empty
string is "no violation". For a rule without `tokens` the callback of
`files.find` calls `tokens.some` on `undefined` at the first file. -/
def getFileNameError (input : Option FileInput) : Except JsError String :=
  match input with
  | none => .ok ""
  | some input =>
    if input.type ≠ "file" then .ok ""
    else
      match fileNameRules input.name with
      | none => .ok ""
      | some value =>
        if input.files.isEmpty then .ok ""
        else
          match value with
          | .inherited =>
            .error (.typeError "Cannot read properties of undefined (reading 'some')")
          | .rule rule =>
            match input.files.find? (fun file => !matchesFileNameTokens file.name rule.tokens) with
            | none => .ok ""
            | some _ =>
              .ok ("Rename the " ++ rule.label ++ " file to include " ++
                " or ".intercalate rule.display ++ ". Example: " ++ rule.exampleName ++ ".")

/-- One character of a file name is an ASCII character that is neither a
letter nor a digit. -/
def isPunctuation (c : Char) : Bool :=
  decide (c.toNat < 128) && !c.isAlphanum

/-- The second name is the first one after a change of letter case or of
punctuation: ASCII letters may change case, and ASCII characters that are
neither letters nor digits may be removed or inserted. -/
inductive CaseOrPunctuationChange : List Char → List Char → Prop
  | done : CaseOrPunctuationChange [] []
  | keep (c : Char) {a b : List Char} :
      CaseOrPunctuationChange a b → CaseOrPunctuationChange (c :: a) (c :: b)
  | recase (c d : Char) {a b : List Char} :
      c.isAlpha = true → d.isAlpha = true → c.toLower = d.toLower →
      CaseOrPunctuationChange a b → CaseOrPunctuationChange (c :: a) (d :: b)
  | remove (c : Char) {a b : List Char} :
      isPunctuation c = true → CaseOrPunctuationChange a b → CaseOrPunctuationChange (c :: a) b
  | insert (c : Char) {a b : List Char} :
      isPunctuation c = true → CaseOrPunctuationChange a b → CaseOrPunctuationChange a (c :: b)

/-- The file with another name. -/
def renamed (file : UploadFile) (name : String) : UploadFile :=
  { file with name := name }

/-- An input for the W-2 category with one file selected. -/
def sampleW2Input (name : String) : FileInput :=
  { type := "file", name := "w2_upload",
    files := [{ name := name, type := "application/pdf", bytes := [] }] }

end App

/-! ## `server.js` -/

namespace Server

/-! ### Conversions of request values -/

/-- The function `cleanText`; `none` is `null`. -/
def cleanText (value : JsValue) : Option String :=
  match value with
  | .str s => if (trim s).isEmpty then none else some (trim s)
  | _ => none

/-- The function `toNullableInt`; `none` is `null`. -/
def toNullableInt (value : JsValue) : Option Int :=
  match value with
  | .undefined => none
  | .null => none
  | .str "" => none
  | other => parseInt other.toText

/-- The value of a digit of the given radix, letters of either case included. -/
def radixDigit (radix : Nat) (c : Char) : Option Nat :=
  let v :=
    if isDigit c then c.toNat - 48
    else if 'a' ≤ c ∧ c ≤ 'f' then c.toNat - 87
    else if 'A' ≤ c ∧ c ≤ 'F' then c.toNat - 55
    else radix
  if v < radix then some v else none

/-- The value of a non-empty run of digits of the given radix. -/
def radixValue (radix : Nat) (cs : List Char) : Option Nat :=
  if cs.isEmpty then none
  else cs.foldl
    (fun acc c =>
      match acc, radixDigit radix c with
      | some a, some v => some (a * radix + v)
      | _, _ => none)
    (some 0)

/-- The rounding of a rational to a double, where the double is finite; `none`
stands for `Infinity` and `-Infinity`. The integers up to `2 ^ 53` in absolute
value are doubles; the double `-0` is the rational `0`. -/
def roundToDouble (q : ℚ) : Option ℚ :=
  if q.den = 1 ∧ q.num.natAbs ≤ 9007199254740992 then some q
  else
    let m := (nearestDouble q.num.natAbs q.den).1
    let s := (nearestDouble q.num.natAbs q.den).2
    let v : ℚ :=
      if 0 ≤ s then ((m * 2 ^ s.toNat : Nat) : ℚ) else (m : ℚ) / ((2 ^ (-s).toNat : Nat) : ℚ)
    if (doubleOverflow : ℚ) ≤ v then none
    else some (if q < 0 then -v else v)

/-- An unsigned decimal literal of the grammar of `Number(string)`: digits with
an optional fraction and an optional exponent. The value is the exact decimal,
before its rounding to a double. -/
def unsignedDecimal (cs : List Char) : Option ℚ :=
  let whole := cs.takeWhile isDigit
  let afterWhole := cs.dropWhile isDigit
  let (fraction, afterFraction) :=
    match afterWhole with
    | '.' :: rest => (rest.takeWhile isDigit, rest.dropWhile isDigit)
    | _ => ([], afterWhole)
  if whole.isEmpty && fraction.isEmpty then none
  else
    let mantissa : ℚ := (digitsValue (whole ++ fraction) : ℚ) / (10 : ℚ) ^ fraction.length
    match afterFraction with
    | [] => some mantissa
    | e :: rest =>
      if e = 'e' ∨ e = 'E' then
        let (negative, ds) :=
          match rest with
          | '-' :: ds => (true, ds)
          | '+' :: ds => (false, ds)
          | _ => (false, rest)
        if ds.isEmpty || !ds.all isDigit then none
        else if negative then some (mantissa / (10 : ℚ) ^ digitsValue ds)
        else some (mantissa * (10 : ℚ) ^ digitsValue ds)
      else none

/-- The conversion `Number(text)` of a string where its result is finite: the
double nearest to the value of the literal; `none` stands for `NaN`, `Infinity`
and `-Infinity`. -/
def stringToNumber (text : String) : Option ℚ :=
  let cs := (trim text).data
  let value : Option ℚ :=
    match cs with
    | [] => some 0
    | '0' :: 'x' :: rest => (radixValue 16 rest).map fun n => (n : ℚ)
    | '0' :: 'X' :: rest => (radixValue 16 rest).map fun n => (n : ℚ)
    | '0' :: 'o' :: rest => (radixValue 8 rest).map fun n => (n : ℚ)
    | '0' :: 'O' :: rest => (radixValue 8 rest).map fun n => (n : ℚ)
    | '0' :: 'b' :: rest => (radixValue 2 rest).map fun n => (n : ℚ)
    | '0' :: 'B' :: rest => (radixValue 2 rest).map fun n => (n : ℚ)
    | '-' :: rest => (unsignedDecimal rest).map fun q => -q
    | '+' :: rest => unsignedDecimal rest
    | _ => unsignedDecimal cs
  value.bind roundToDouble

/-- The function `toNullableNumber`; `none` is `null`. A number is a double
already: the rounding leaves it as it is, and gives the number that the parser
of the body has made of an integer literal that no double holds. -/
def toNullableNumber (value : JsValue) : Option ℚ :=
  match value with
  | .undefined => none
  | .null => none
  | .str "" => none
  | .bool b => some (if b then 1 else 0)
  | .num n => roundToDouble (n : ℚ)
  | .str s => stringToNumber s
  | .object text => stringToNumber text

/-- The replacement `value.replace(/\D/g, "")`. -/
def digitsOnly (value : String) : String :=
  String.mk (value.data.filter isDigit)

/-- The function `normalizeSsn`. -/
def normalizeSsn (value : JsValue) : String :=
  match value with
  | .str s => String.mk ((digitsOnly s).data.take 9)
  | _ => ""

/-- The function `normalizeIpPin`. -/
def normalizeIpPin (value : JsValue) : String :=
  match value with
  | .str s => String.mk ((digitsOnly s).data.take 6)
  | _ => ""

/-- The function `normalizeEmail` on a string. -/
def normalizeEmail (value : String) : String :=
  if value = "" then "" else toLowerCase (trim value)

/-- The test `data.consent === true || data.consent === "true" || data.consent === "on"`. -/
def consentGiven (value : JsValue) : Bool :=
  value == .bool true || value == .str "true" || value == .str "on"

/-! ### Configuration, identity provider and access guard -/

/-- The user object returned by the identity provider; an absent `id` or
`email` is the empty string. -/
structure SupabaseUser where
  id : String
  email : String
  deriving DecidableEq, Repr

/-- The five figures of an estimate snapshot. -/
structure Estimate where
  estimated_income : ℚ
  estimated_taxable : ℚ
  estimated_tax : ℚ
  estimated_withholding : ℚ
  estimated_refund : ℚ
  deriving DecidableEq, Repr

/-- The fields of `req.body` that the intake endpoints read. -/
structure RequestBody where
  intake_id : JsValue := .undefined
  ssn : JsValue := .undefined
  ip_pin : JsValue := .undefined
  first_name : JsValue := .undefined
  last_name : JsValue := .undefined
  dob : JsValue := .undefined
  email : JsValue := .undefined
  phone : JsValue := .undefined
  filing_status : JsValue := .undefined
  filing_year : JsValue := .undefined
  consent : JsValue := .undefined
  dependents : JsValue := .undefined
  client_user_id : JsValue := .undefined
  client_username : JsValue := .undefined
  employer : JsValue := .undefined
  wages : JsValue := .undefined
  federal_withholding : JsValue := .undefined
  income_1099 : JsValue := .undefined
  investment_income : JsValue := .undefined
  retirement : JsValue := .undefined
  other_income : JsValue := .undefined
  mortgage : JsValue := .undefined
  charity : JsValue := .undefined
  student_loan : JsValue := .undefined
  hsa : JsValue := .undefined
  other_deductions : JsValue := .undefined
  filing_method : JsValue := .undefined
  contact_method : JsValue := .undefined
  notes : JsValue := .undefined
  review_status : JsValue := .undefined
  review_notes : JsValue := .undefined
  deriving DecidableEq, Repr

/-- The process configuration and the services the server calls:
the variables `PREPARER_EMAIL_DOMAIN` and `PREPARER_EMAILS` (empty when unset),
the constant `hasPreparerAuth`, the answer of the identity provider to a token
(the user, or the message of the error), the function `computeEstimate`
(floating-point arithmetic over the tax tables, taken as given: it returns an
estimate, `null`, or throws), and the cipher of `encryptSensitive` as a
function of the random nonce and of the plain text. -/
structure Env where
  preparerEmailDomain : String
  preparerEmailList : String
  hasPreparerAuth : Bool
  identityProvider : String → Except String SupabaseUser
  computeEstimate : Int → String → RequestBody → Except JsError (Option Estimate)
  cipher : List Nat → String → String

/-- The email domain the process is configured with, as `isPreparerAllowed`
reads it: trimmed, lower-cased, without one leading `@`. -/
def configuredDomain (env : Env) : String :=
  match (toLowerCase (trim env.preparerEmailDomain)).data with
  | '@' :: rest => String.mk rest
  | cs => String.mk cs

/-- The allow-list the process is configured with, as `isPreparerAllowed` reads
it: the entries between commas and white space, trimmed and lower-cased, the
empty ones dropped. -/
def configuredAllowList (env : Env) : List String :=
  ((splitRuns (fun c => c == ',' || isJsSpace c) env.preparerEmailList.data false []).map
    fun value => toLowerCase (trim value)).filter fun value => value != ""

/-- The function `isPreparerAllowed`. -/
def isPreparerAllowed (env : Env) (email : String) : Bool :=
  let normalized := normalizeEmail email
  if normalized = "" then false
  else
    let domain := configuredDomain env
    if domain ≠ "" then endsWith normalized ("@" ++ domain)
    else
      let allowed := configuredAllowList env
      if allowed.isEmpty then false
      else allowed.contains normalized

/-- An HTTP response: the status code and the JSON body. -/
inductive ResponseBody
  | error (message : String)
  | okId (id : Option Int)
  deriving DecidableEq, Repr

structure Response where
  status : Nat
  body : ResponseBody
  deriving DecidableEq, Repr

/-- The function `fetchSupabaseUser`: the user, or the message of the error
thrown. -/
def fetchSupabaseUser (env : Env) (token : String) : Except String SupabaseUser :=
  if !env.hasPreparerAuth then .error "Preparer auth not configured."
  else env.identityProvider token

/-- The steps shared by `requireSupabaseAuth` and `requirePreparerAuth`: the
bearer token is read from the `Authorization` header (empty when absent) and
exchanged for a user with an email; otherwise the 401 response is returned. -/
def authenticate (env : Env) (authorization : String) : Except Response SupabaseUser :=
  if !startsWith authorization "Bearer " then
    .error { status := 401, body := .error "Missing authorization." }
  else
    let token := trim (String.mk (authorization.data.drop 7))
    if token = "" then .error { status := 401, body := .error "Missing authorization." }
    else
      match fetchSupabaseUser env token with
      | .error message =>
        .error { status := 401,
                 body := .error (if message = "" then "Unauthorized." else message) }
      | .ok user =>
        if user.email = "" then .error { status := 401, body := .error "Invalid user session." }
        else .ok user

/-- The middleware `requireSupabaseAuth`: the user set on the request, or the
response sent instead of calling `next`. -/
def requireSupabaseAuth (env : Env) (authorization : String) : Except Response SupabaseUser :=
  authenticate env authorization

/-- The middleware `requirePreparerAuth`. -/
def requirePreparerAuth (env : Env) (authorization : String) : Except Response SupabaseUser :=
  match authenticate env authorization with
  | .error response => .error response
  | .ok user =>
    if !isPreparerAllowed env user.email then
      .error { status := 403, body := .error "Access restricted." }
    else .ok user

/-! ### The relational store -/

/-- A row of the table `intake_submissions`; `none` is `NULL`. The five
`estimated_*` columns are `NULL` together and form one field. -/
structure IntakeRow where
  id : Int
  first_name : Option String
  last_name : Option String
  ssn_encrypted : Option String
  ip_pin_encrypted : Option String
  filing_year : Option Int
  dob : Option String
  email : Option String
  phone : Option String
  employer : Option String
  wages : Option ℚ
  federal_withholding : Option ℚ
  income_1099 : Option ℚ
  investment_income : Option ℚ
  retirement : Option ℚ
  other_income : Option String
  mortgage : Option ℚ
  charity : Option ℚ
  student_loan : Option ℚ
  dependents : Option Int
  hsa : Option ℚ
  other_deductions : Option String
  filing_status : Option String
  filing_method : Option String
  contact_method : Option String
  notes : Option String
  consent : Bool
  client_user_id : Option String
  client_username : Option String
  estimate : Option Estimate
  review_status : Option String
  review_notes : Option String
  review_updated_at : Option Nat
  created_at : Nat
  deriving DecidableEq, Repr

/-- A row of the table `audit_events`. -/
structure AuditEvent where
  actor_user_id : Option String
  actor_email : Option String
  actor_role : Option String
  action_type : Option String
  target_user_id : Option String
  target_email : Option String
  target_username : Option String
  metadata : List (String × JsValue)
  created_at : Nat
  deriving DecidableEq, Repr

/-- The state of the relational store: the intake rows, the identifier the
store gives to the next inserted intake, and the audit log. -/
structure Store where
  intakes : List IntakeRow
  nextId : Int
  audit : List AuditEvent
  deriving DecidableEq, Repr

/-- What the outside world supplies while one request is handled: the time,
the bytes returned by the `n`-th call of `crypto.randomBytes(12)`, whether the
store answers queries, whether the schema of the store (which is not part of
the sources) accepts an intake row, and whether the audit insert succeeds. -/
structure Moment where
  now : Nat
  randomBytes : Nat → List Nat
  storeUp : Bool
  storeAccepts : IntakeRow → Bool
  auditAccepted : Bool

/-- The expression `value || null` on a nullable string. -/
def orNull (value : Option String) : Option String :=
  value.filter fun v => v != ""

/-- The function `logAuditEvent`: a failed insert is caught and only logged. -/
def logAuditEvent (moment : Moment) (event : AuditEvent) (store : Store) : Store :=
  if moment.storeUp && moment.auditAccepted then
    { store with audit := store.audit ++ [{ event with
        actor_user_id := orNull event.actor_user_id,
        actor_email := orNull event.actor_email,
        actor_role := orNull event.actor_role,
        action_type := orNull event.action_type,
        target_user_id := orNull event.target_user_id,
        target_email := orNull event.target_email,
        target_username := orNull event.target_username,
        created_at := moment.now }] }
  else store

/-- The function `encryptSensitive`, with the nonce drawn for this call. -/
def encryptSensitive (env : Env) (iv : List Nat) (value : String) : String :=
  env.cipher iv value

/-- The response of the `catch` block of a handler. -/
def serverError : Response :=
  { status := 500, body := .error "Server error." }

/-- A 400 response with the given message. -/
def badRequest (message : String) : Response :=
  { status := 400, body := .error message }

/-! ### `POST /api/intake` -/

/-- The body of the `try` block of `POST /api/intake`. The identifier
`uploaderRole` is declared nowhere in the scope of this handler: the right
operand of `cleanText(data.client_user_id) || (uploaderRole === "client" ? … : null)`
throws a `ReferenceError` whenever it is evaluated. -/
def postIntakeTry (env : Env) (moment : Moment) (body : RequestBody) (store : Store) :
    Except JsError (Store × Response) := do
  let ssn := normalizeSsn body.ssn
  let ipPin := normalizeIpPin body.ip_pin
  let firstName := cleanText body.first_name
  let lastName := cleanText body.last_name
  let dob := cleanText body.dob
  let email := cleanText body.email
  let phone := cleanText body.phone
  let filingStatus := cleanText body.filing_status
  let filingYear := toNullableInt body.filing_year
  let consent := consentGiven body.consent
  let dependents := toNullableInt body.dependents
  let clientUserId ←
    match cleanText body.client_user_id with
    | some id => pure (some id)
    | none => throw (JsError.referenceError "uploaderRole is not defined")
  let clientUsername := cleanText body.client_username
  if firstName.isNone || lastName.isNone || dob.isNone || email.isNone || phone.isNone ||
      filingStatus.isNone || !consent then
    return (store, badRequest "Missing or invalid required fields.")
  if ssn.length != 0 && ssn.length != 9 then
    return (store, badRequest "Invalid SSN.")
  if ipPin.length != 0 && ipPin.length != 6 then
    return (store, badRequest "Invalid IP PIN.")
  if filingYear.isNone || filingYear == some 0 || decide (filingYear.getD 0 < 2000) ||
      decide (filingYear.getD 0 > 2100) then
    return (store, badRequest "Invalid filing year.")
  if dependents.isSome && (decide (dependents.getD 0 < 0) || decide (dependents.getD 0 > 20)) then
    return (store, badRequest "Dependents must be between 0 and 20.")
  let estimate ← env.computeEstimate (filingYear.getD 0) (filingStatus.getD "") body
  let ssnEncrypted :=
    if ssn.length = 9 then some (encryptSensitive env (moment.randomBytes 0) ssn) else none
  let ipPinEncrypted :=
    if ipPin.length = 6 then
      some (encryptSensitive env (moment.randomBytes (if ssn.length = 9 then 1 else 0)) ipPin)
    else none
  let row : IntakeRow :=
    { id := store.nextId,
      first_name := firstName,
      last_name := lastName,
      ssn_encrypted := ssnEncrypted,
      ip_pin_encrypted := ipPinEncrypted,
      filing_year := filingYear,
      dob := dob,
      email := email,
      phone := phone,
      employer := cleanText body.employer,
      wages := toNullableNumber body.wages,
      federal_withholding := toNullableNumber body.federal_withholding,
      income_1099 := toNullableNumber body.income_1099,
      investment_income := toNullableNumber body.investment_income,
      retirement := toNullableNumber body.retirement,
      other_income := cleanText body.other_income,
      mortgage := toNullableNumber body.mortgage,
      charity := toNullableNumber body.charity,
      student_loan := toNullableNumber body.student_loan,
      dependents := dependents,
      hsa := toNullableNumber body.hsa,
      other_deductions := cleanText body.other_deductions,
      filing_status := filingStatus,
      filing_method := cleanText body.filing_method,
      contact_method := cleanText body.contact_method,
      notes := cleanText body.notes,
      consent := consent,
      client_user_id := clientUserId,
      client_username := clientUsername,
      estimate := estimate,
      review_status := some "received",
      review_notes := none,
      review_updated_at := some moment.now,
      created_at := moment.now }
  if !moment.storeUp || !moment.storeAccepts row then
    throw (JsError.error "query failed")
  let store := { store with intakes := store.intakes ++ [row], nextId := store.nextId + 1 }
  let store := logAuditEvent moment
    { actor_user_id := clientUserId, actor_email := email, actor_role := some "client",
      action_type := some "intake_submitted", target_user_id := clientUserId,
      target_email := email, target_username := clientUsername,
      metadata := [("filing_year", .num (filingYear.getD 0)),
                   ("filing_status", .str (filingStatus.getD ""))],
      created_at := moment.now } store
  return (store, { status := 200, body := .okId (some row.id) })

/-- The handler of `POST /api/intake`: an exception of the `try` block is
answered with the 500 response. -/
def postIntake (env : Env) (moment : Moment) (body : RequestBody) (store : Store) :
    Store × Response :=
  match postIntakeTry env moment body store with
  | .ok result => result
  | .error _ => (store, serverError)

/-! ### `PATCH /api/intake` -/

/-- The truth value `!!value` of a nullable string. -/
def truthy (value : Option String) : Bool :=
  match value with
  | some v => v != ""
  | none => false

/-- The `WHERE` clause of the update:
`id = $34 AND (client_user_id = $35 OR (client_user_id IS NULL AND email = $36))`. -/
def ownedBy (intakeId : Int) (clientUserId : Option String) (email : String)
    (row : IntakeRow) : Bool :=
  row.id == intakeId &&
    ((clientUserId.isSome && row.client_user_id == clientUserId) ||
      (row.client_user_id.isNone && row.email == some email))

/-- The body of the `try` block of `PATCH /api/intake`, for the user that
`requireSupabaseAuth` has set on the request. -/
def patchIntakeTry (env : Env) (moment : Moment) (user : SupabaseUser) (body : RequestBody)
    (store : Store) : Except JsError (Store × Response) := do
  let intakeId := toNullableInt body.intake_id
  if intakeId.isNone || intakeId == some 0 then
    return (store, badRequest "Missing intake identifier.")
  let intakeId := intakeId.getD 0
  let clientUserId := cleanText (.str user.id)
  let email := normalizeEmail user.email
  if !moment.storeUp then
    throw (JsError.error "query failed")
  match store.intakes.find? (fun row => row.id == intakeId) with
  | none => return (store, { status := 404, body := .error "Intake record not found." })
  | some existingRow =>
    let existingEmail := normalizeEmail (existingRow.email.getD "")
    if truthy existingRow.client_user_id && existingRow.client_user_id != clientUserId then
      return (store, { status := 403, body := .error "Unauthorized update." })
    if !truthy existingRow.client_user_id && existingEmail != "" && existingEmail != email then
      return (store, { status := 403, body := .error "Unauthorized update." })
    let ssn := normalizeSsn body.ssn
    let ipPin := normalizeIpPin body.ip_pin
    let firstName := cleanText body.first_name
    let lastName := cleanText body.last_name
    let dob := cleanText body.dob
    let phone := cleanText body.phone
    let filingStatus := cleanText body.filing_status
    let filingYear := toNullableInt body.filing_year
    let consent := consentGiven body.consent
    let dependents := toNullableInt body.dependents
    let clientUsername := cleanText body.client_username
    if firstName.isNone || lastName.isNone || dob.isNone || email == "" || phone.isNone ||
        filingStatus.isNone || !consent then
      return (store, badRequest "Missing or invalid required fields.")
    if ssn.length != 9 then
      return (store, badRequest "Invalid SSN.")
    if ipPin.length != 6 then
      return (store, badRequest "Invalid IP PIN.")
    if filingYear.isNone || filingYear == some 0 || decide (filingYear.getD 0 < 2000) ||
        decide (filingYear.getD 0 > 2100) then
      return (store, badRequest "Invalid filing year.")
    if dependents.isSome &&
        (decide (dependents.getD 0 < 0) || decide (dependents.getD 0 > 20)) then
      return (store, badRequest "Dependents must be between 0 and 20.")
    let estimate ← env.computeEstimate (filingYear.getD 0) (filingStatus.getD "") body
    let ssnEncrypted := encryptSensitive env (moment.randomBytes 0) ssn
    let ipPinEncrypted := encryptSensitive env (moment.randomBytes 1) ipPin
    let update : IntakeRow → IntakeRow := fun row =>
      { row with
        first_name := firstName,
        last_name := lastName,
        ssn_encrypted := some ssnEncrypted,
        ip_pin_encrypted := some ipPinEncrypted,
        filing_year := filingYear,
        dob := dob,
        email := some email,
        phone := phone,
        employer := cleanText body.employer,
        wages := toNullableNumber body.wages,
        federal_withholding := toNullableNumber body.federal_withholding,
        income_1099 := toNullableNumber body.income_1099,
        investment_income := toNullableNumber body.investment_income,
        retirement := toNullableNumber body.retirement,
        other_income := cleanText body.other_income,
        mortgage := toNullableNumber body.mortgage,
        charity := toNullableNumber body.charity,
        student_loan := toNullableNumber body.student_loan,
        dependents := dependents,
        hsa := toNullableNumber body.hsa,
        other_deductions := cleanText body.other_deductions,
        filing_status := filingStatus,
        filing_method := cleanText body.filing_method,
        contact_method := cleanText body.contact_method,
        notes := cleanText body.notes,
        consent := consent,
        client_user_id := clientUserId,
        client_username := clientUsername,
        estimate := estimate,
        review_status := some "received",
        review_notes := none,
        review_updated_at := some moment.now }
    let targets := store.intakes.filter (ownedBy intakeId clientUserId email)
    if targets.any (fun row => !moment.storeAccepts (update row)) then
      throw (JsError.error "query failed")
    let store := { store with
      intakes := store.intakes.map fun row =>
        if ownedBy intakeId clientUserId email row then update row else row }
    match targets.head? with
    | none => return (store, { status := 404, body := .error "Intake record not found." })
    | some target =>
      let store := logAuditEvent moment
        { actor_user_id := clientUserId, actor_email := some email, actor_role := some "client",
          action_type := some "intake_updated", target_user_id := clientUserId,
          target_email := some email, target_username := clientUsername,
          metadata := [("filing_year", .num (filingYear.getD 0)),
                       ("filing_status", .str (filingStatus.getD ""))],
          created_at := moment.now } store
      return (store, { status := 200, body := .okId (some target.id) })

/-- The handler of `PATCH /api/intake`. -/
def patchIntake (env : Env) (moment : Moment) (user : SupabaseUser) (body : RequestBody)
    (store : Store) : Store × Response :=
  match patchIntakeTry env moment user body store with
  | .ok result => result
  | .error _ => (store, serverError)

/-- The route `PATCH /api/intake`: `requireSupabaseAuth`, then the handler, for
a request that the rate limiters pass on. -/
def patchIntakeRoute (env : Env) (moment : Moment) (authorization : String)
    (body : RequestBody) (store : Store) : Store × Response :=
  match requireSupabaseAuth env authorization with
  | .error response => (store, response)
  | .ok user => patchIntake env moment user body store

/-! ### `PATCH /api/intake/status` -/

def reviewStatuses : List String :=
  ["received", "in_review", "awaiting_documents", "awaiting_authorization", "ready_to_file",
   "filed"]

/-- The row selected by `ORDER BY created_at DESC LIMIT 1` among the rows that
satisfy the clause: a row with the greatest `created_at`, the first one in the
order of the store when several rows share it. -/
def latestWhere (clause : IntakeRow → Bool) (rows : List IntakeRow) : Option IntakeRow :=
  (rows.filter clause).foldl
    (fun best row =>
      match best with
      | none => some row
      | some b => if b.created_at < row.created_at then some row else some b)
    none

/-- The body of the `try` block of `PATCH /api/intake/status`, for the user
that `requirePreparerAuth` has set on the request. -/
def patchIntakeStatusTry (moment : Moment) (preparer : SupabaseUser) (body : RequestBody)
    (store : Store) : Except JsError (Store × Response) := do
  let intakeId := toNullableInt body.intake_id
  let clientUserId := cleanText body.client_user_id
  let email := cleanText body.email
  let reviewStatus := cleanText body.review_status
  let reviewNotes := cleanText body.review_notes
  if reviewStatus.isNone || !reviewStatuses.contains (reviewStatus.getD "") then
    return (store, badRequest "Invalid review status.")
  if (intakeId.isNone || intakeId == some 0) && clientUserId.isNone && email.isNone then
    return (store, badRequest "Missing intake identifier.")
  if !moment.storeUp then
    throw (JsError.error "query failed")
  let targetIds : List Int :=
    if !(intakeId.isNone || intakeId == some 0) then
      (store.intakes.filter fun row => row.id == intakeId.getD 0).map fun row => row.id
    else
      let target :=
        match clientUserId with
        | some identifier => latestWhere (fun row => row.client_user_id == some identifier)
            store.intakes
        | none => latestWhere (fun row => row.email == email) store.intakes
      match target with
      | some row => (store.intakes.filter fun r => r.id == row.id).map fun r => r.id
      | none => []
  let update : IntakeRow → IntakeRow := fun row =>
    { row with review_status := reviewStatus, review_notes := reviewNotes,
               review_updated_at := some moment.now }
  if (store.intakes.filter fun row => targetIds.contains row.id).any
      (fun row => !moment.storeAccepts (update row)) then
    throw (JsError.error "query failed")
  let store := { store with
    intakes := store.intakes.map fun row => if targetIds.contains row.id then update row else row }
  match targetIds.head? with
  | none => return (store, { status := 404, body := .error "Intake submission not found." })
  | some id =>
    let store := logAuditEvent moment
      { actor_user_id := orNull (some preparer.id), actor_email := orNull (some preparer.email),
        actor_role := some "preparer", action_type := some "intake_status_updated",
        target_user_id := clientUserId, target_email := email, target_username := none,
        metadata := [("review_status", .str (reviewStatus.getD "")),
                     ("review_notes", .str (reviewNotes.getD "")),
                     ("intake_id", match intakeId with
                                   | some n => if n = 0 then .null else .num n
                                   | none => .null)],
        created_at := moment.now } store
    return (store, { status := 200, body := .okId (some id) })

/-- The handler of `PATCH /api/intake/status`. -/
def patchIntakeStatus (moment : Moment) (preparer : SupabaseUser) (body : RequestBody)
    (store : Store) : Store × Response :=
  match patchIntakeStatusTry moment preparer body store with
  | .ok result => result
  | .error _ => (store, serverError)

/-- The route `PATCH /api/intake/status`: `requirePreparerAuth`, then the
handler, for a request that the rate limiters pass on. -/
def patchIntakeStatusRoute (env : Env) (moment : Moment) (authorization : String)
    (body : RequestBody) (store : Store) : Store × Response :=
  match requirePreparerAuth env authorization with
  | .error response => (store, response)
  | .ok user => patchIntakeStatus moment user body store

/-! ### The intake handlers with the calls of the codec -/

/-- A run of an intake handler: the store it leaves, the response it sends, and
the plain texts it hands to `encryptSensitive`, in the order of the calls. -/
structure HandlerRun where
  store : Store
  response : Response
  encrypted : List String
  deriving DecidableEq, Repr

/-- The array `values` of `POST /api/intake` as the row it inserts. -/
def submittedRow (env : Env) (moment : Moment) (body : RequestBody) (store : Store)
    (clientUserId : Option String) (estimate : Option Estimate) : IntakeRow :=
  { id := store.nextId,
    first_name := cleanText body.first_name,
    last_name := cleanText body.last_name,
    ssn_encrypted :=
      if (normalizeSsn body.ssn).length = 9 then
        some (encryptSensitive env (moment.randomBytes 0) (normalizeSsn body.ssn))
      else none,
    ip_pin_encrypted :=
      if (normalizeIpPin body.ip_pin).length = 6 then
        some (encryptSensitive env
          (moment.randomBytes (if (normalizeSsn body.ssn).length = 9 then 1 else 0))
          (normalizeIpPin body.ip_pin))
      else none,
    filing_year := toNullableInt body.filing_year,
    dob := cleanText body.dob,
    email := cleanText body.email,
    phone := cleanText body.phone,
    employer := cleanText body.employer,
    wages := toNullableNumber body.wages,
    federal_withholding := toNullableNumber body.federal_withholding,
    income_1099 := toNullableNumber body.income_1099,
    investment_income := toNullableNumber body.investment_income,
    retirement := toNullableNumber body.retirement,
    other_income := cleanText body.other_income,
    mortgage := toNullableNumber body.mortgage,
    charity := toNullableNumber body.charity,
    student_loan := toNullableNumber body.student_loan,
    dependents := toNullableInt body.dependents,
    hsa := toNullableNumber body.hsa,
    other_deductions := cleanText body.other_deductions,
    filing_status := cleanText body.filing_status,
    filing_method := cleanText body.filing_method,
    contact_method := cleanText body.contact_method,
    notes := cleanText body.notes,
    consent := consentGiven body.consent,
    client_user_id := clientUserId,
    client_username := cleanText body.client_username,
    estimate := estimate,
    review_status := some "received",
    review_notes := none,
    review_updated_at := some moment.now,
    created_at := moment.now }

/-- The audit event written by `POST /api/intake`. -/
def submittedEvent (moment : Moment) (body : RequestBody) (clientUserId : Option String) :
    AuditEvent :=
  { actor_user_id := clientUserId, actor_email := cleanText body.email,
    actor_role := some "client", action_type := some "intake_submitted",
    target_user_id := clientUserId, target_email := cleanText body.email,
    target_username := cleanText body.client_username,
    metadata := [("filing_year", .num ((toNullableInt body.filing_year).getD 0)),
                 ("filing_status", .str ((cleanText body.filing_status).getD ""))],
    created_at := moment.now }

/-- The handler of `POST /api/intake`, statement by statement, with the calls
of `encryptSensitive` it makes. An exception ends the run in the `catch` block
with the 500 response. -/
def postIntakeRun (env : Env) (moment : Moment) (body : RequestBody) (store : Store) :
    HandlerRun :=
  let ssn := normalizeSsn body.ssn
  let ipPin := normalizeIpPin body.ip_pin
  let filingYear := toNullableInt body.filing_year
  let dependents := toNullableInt body.dependents
  match cleanText body.client_user_id with
  | none => { store := store, response := serverError, encrypted := [] }
  | some id =>
    if (cleanText body.first_name).isNone || (cleanText body.last_name).isNone ||
        (cleanText body.dob).isNone || (cleanText body.email).isNone ||
        (cleanText body.phone).isNone || (cleanText body.filing_status).isNone ||
        !consentGiven body.consent then
      { store := store, response := badRequest "Missing or invalid required fields.",
        encrypted := [] }
    else if ssn.length != 0 && ssn.length != 9 then
      { store := store, response := badRequest "Invalid SSN.", encrypted := [] }
    else if ipPin.length != 0 && ipPin.length != 6 then
      { store := store, response := badRequest "Invalid IP PIN.", encrypted := [] }
    else if filingYear.isNone || filingYear == some 0 || decide (filingYear.getD 0 < 2000) ||
        decide (filingYear.getD 0 > 2100) then
      { store := store, response := badRequest "Invalid filing year.", encrypted := [] }
    else if dependents.isSome &&
        (decide (dependents.getD 0 < 0) || decide (dependents.getD 0 > 20)) then
      { store := store, response := badRequest "Dependents must be between 0 and 20.",
        encrypted := [] }
    else
      match env.computeEstimate (filingYear.getD 0) ((cleanText body.filing_status).getD "")
          body with
      | .error _ => { store := store, response := serverError, encrypted := [] }
      | .ok estimate =>
        let encrypted :=
          (if ssn.length = 9 then [ssn] else []) ++ (if ipPin.length = 6 then [ipPin] else [])
        let row := submittedRow env moment body store (some id) estimate
        if !moment.storeUp || !moment.storeAccepts row then
          { store := store, response := serverError, encrypted := encrypted }
        else
          { store := logAuditEvent moment (submittedEvent moment body (some id))
              { store with intakes := store.intakes ++ [row], nextId := store.nextId + 1 },
            response := { status := 200, body := .okId (some row.id) },
            encrypted := encrypted }

/-- The `SET` list of the `UPDATE` of `PATCH /api/intake` applied to a row, for
the tokens and the estimate computed by the handler. -/
def updatedRow (moment : Moment) (user : SupabaseUser) (body : RequestBody)
    (ssnEncrypted ipPinEncrypted : String) (estimate : Option Estimate) (row : IntakeRow) :
    IntakeRow :=
  { row with
    first_name := cleanText body.first_name,
    last_name := cleanText body.last_name,
    ssn_encrypted := some ssnEncrypted,
    ip_pin_encrypted := some ipPinEncrypted,
    filing_year := toNullableInt body.filing_year,
    dob := cleanText body.dob,
    email := some (normalizeEmail user.email),
    phone := cleanText body.phone,
    employer := cleanText body.employer,
    wages := toNullableNumber body.wages,
    federal_withholding := toNullableNumber body.federal_withholding,
    income_1099 := toNullableNumber body.income_1099,
    investment_income := toNullableNumber body.investment_income,
    retirement := toNullableNumber body.retirement,
    other_income := cleanText body.other_income,
    mortgage := toNullableNumber body.mortgage,
    charity := toNullableNumber body.charity,
    student_loan := toNullableNumber body.student_loan,
    dependents := toNullableInt body.dependents,
    hsa := toNullableNumber body.hsa,
    other_deductions := cleanText body.other_deductions,
    filing_status := cleanText body.filing_status,
    filing_method := cleanText body.filing_method,
    contact_method := cleanText body.contact_method,
    notes := cleanText body.notes,
    consent := consentGiven body.consent,
    client_user_id := cleanText (.str user.id),
    client_username := cleanText body.client_username,
    estimate := estimate,
    review_status := some "received",
    review_notes := none,
    review_updated_at := some moment.now }

/-- The audit event written by `PATCH /api/intake`. -/
def updatedEvent (moment : Moment) (user : SupabaseUser) (body : RequestBody) : AuditEvent :=
  { actor_user_id := cleanText (.str user.id), actor_email := some (normalizeEmail user.email),
    actor_role := some "client", action_type := some "intake_updated",
    target_user_id := cleanText (.str user.id),
    target_email := some (normalizeEmail user.email),
    target_username := cleanText body.client_username,
    metadata := [("filing_year", .num ((toNullableInt body.filing_year).getD 0)),
                 ("filing_status", .str ((cleanText body.filing_status).getD ""))],
    created_at := moment.now }

/-- The statements of `PATCH /api/intake` that follow the two ownership tests,
with the calls of `encryptSensitive` they make. -/
def patchIntakeApply (env : Env) (moment : Moment) (user : SupabaseUser) (body : RequestBody)
    (store : Store) (intakeId : Int) : HandlerRun :=
  let clientUserId := cleanText (.str user.id)
  let email := normalizeEmail user.email
  let ssn := normalizeSsn body.ssn
  let ipPin := normalizeIpPin body.ip_pin
  let filingYear := toNullableInt body.filing_year
  let dependents := toNullableInt body.dependents
  if (cleanText body.first_name).isNone || (cleanText body.last_name).isNone ||
      (cleanText body.dob).isNone || email == "" || (cleanText body.phone).isNone ||
      (cleanText body.filing_status).isNone || !consentGiven body.consent then
    { store := store, response := badRequest "Missing or invalid required fields.",
      encrypted := [] }
  else if ssn.length != 9 then
    { store := store, response := badRequest "Invalid SSN.", encrypted := [] }
  else if ipPin.length != 6 then
    { store := store, response := badRequest "Invalid IP PIN.", encrypted := [] }
  else if filingYear.isNone || filingYear == some 0 || decide (filingYear.getD 0 < 2000) ||
      decide (filingYear.getD 0 > 2100) then
    { store := store, response := badRequest "Invalid filing year.", encrypted := [] }
  else if dependents.isSome &&
      (decide (dependents.getD 0 < 0) || decide (dependents.getD 0 > 20)) then
    { store := store, response := badRequest "Dependents must be between 0 and 20.",
      encrypted := [] }
  else
    match env.computeEstimate (filingYear.getD 0) ((cleanText body.filing_status).getD "")
        body with
    | .error _ => { store := store, response := serverError, encrypted := [] }
    | .ok estimate =>
      let update := updatedRow moment user body
        (encryptSensitive env (moment.randomBytes 0) ssn)
        (encryptSensitive env (moment.randomBytes 1) ipPin) estimate
      let targets := store.intakes.filter (ownedBy intakeId clientUserId email)
      if targets.any (fun row => !moment.storeAccepts (update row)) then
        { store := store, response := serverError, encrypted := [ssn, ipPin] }
      else
        let updated := { store with
          intakes := store.intakes.map fun row =>
            if ownedBy intakeId clientUserId email row then update row else row }
        match targets.head? with
        | none =>
          { store := updated,
            response := { status := 404, body := .error "Intake record not found." },
            encrypted := [ssn, ipPin] }
        | some target =>
          { store := logAuditEvent moment (updatedEvent moment user body) updated,
            response := { status := 200, body := .okId (some target.id) },
            encrypted := [ssn, ipPin] }

/-- The handler of `PATCH /api/intake`, statement by statement, with the calls
of `encryptSensitive` it makes, for the user that `requireSupabaseAuth` has set
on the request. -/
def patchIntakeRun (env : Env) (moment : Moment) (user : SupabaseUser) (body : RequestBody)
    (store : Store) : HandlerRun :=
  let intakeId := toNullableInt body.intake_id
  if intakeId.isNone || intakeId == some 0 then
    { store := store, response := badRequest "Missing intake identifier.", encrypted := [] }
  else if !moment.storeUp then
    { store := store, response := serverError, encrypted := [] }
  else
    match store.intakes.find? (fun row => row.id == intakeId.getD 0) with
    | none =>
      { store := store,
        response := { status := 404, body := .error "Intake record not found." },
        encrypted := [] }
    | some existingRow =>
      let existingEmail := normalizeEmail (existingRow.email.getD "")
      if truthy existingRow.client_user_id &&
          existingRow.client_user_id != cleanText (.str user.id) then
        { store := store,
          response := { status := 403, body := .error "Unauthorized update." },
          encrypted := [] }
      else if !truthy existingRow.client_user_id && existingEmail != "" &&
          existingEmail != normalizeEmail user.email then
        { store := store,
          response := { status := 403, body := .error "Unauthorized update." },
          encrypted := [] }
      else patchIntakeApply env moment user body store (intakeId.getD 0)

/-- A run that ends in a validation error (400) has called the codec on nothing
and has left the store as it was. -/
def QuietOnValidationError (store : Store) (run : HandlerRun) : Prop :=
  run.response.status = 400 → run.encrypted = [] ∧ run.store = store

/-- The text is a string of exactly `n` decimal digits. -/
def IsDigits (n : Nat) (text : String) : Prop :=
  text.length = n ∧ ∀ c ∈ text.data, isDigit c = true

/-- Every plain text the run handed to the codec is the normalised SSN of the
body, nine digits long, or its normalised IP PIN, six digits long. -/
def EncryptsOnlyDigits (body : RequestBody) (run : HandlerRun) : Prop :=
  ∀ text ∈ run.encrypted,
    (text = normalizeSsn body.ssn ∧ IsDigits 9 text) ∨
      (text = normalizeIpPin body.ip_pin ∧ IsDigits 6 text)

/-- What a run of `POST /api/intake` leaves in the store: the store as it was,
or the store with the submitted row appended and the audit event logged. -/
def SubmitOutcome (env : Env) (moment : Moment) (body : RequestBody) (store : Store)
    (run : HandlerRun) : Prop :=
  (run.store = store ∧ run.response.status ≠ 200) ∨
    ∃ id estimate,
      cleanText body.client_user_id = some id ∧
      run.response = { status := 200, body := .okId (some store.nextId) } ∧
      run.store = logAuditEvent moment (submittedEvent moment body (some id))
        { store with
          intakes := store.intakes ++ [submittedRow env moment body store (some id) estimate],
          nextId := store.nextId + 1 }

/-- What a run of `PATCH /api/intake` leaves in the store: the store as it was,
or the store in which the rows of the `WHERE` clause are replaced by their
update, with the audit event logged when a row was updated. -/
def UpdateOutcome (env : Env) (moment : Moment) (user : SupabaseUser) (body : RequestBody)
    (store : Store) (intakeId : Int) (run : HandlerRun) : Prop :=
  (run.store = store ∧ run.response.status ≠ 200) ∨
    ∃ estimate,
      (normalizeSsn body.ssn).length = 9 ∧ (normalizeIpPin body.ip_pin).length = 6 ∧
      run.store.intakes = store.intakes.map (fun row =>
        if ownedBy intakeId (cleanText (.str user.id)) (normalizeEmail user.email) row then
          updatedRow moment user body
            (encryptSensitive env (moment.randomBytes 0) (normalizeSsn body.ssn))
            (encryptSensitive env (moment.randomBytes 1) (normalizeIpPin body.ip_pin))
            estimate row
        else row) ∧
      run.store.nextId = store.nextId ∧
      (run.response.status = 200 ↔
        ∃ target ∈ store.intakes,
          ownedBy intakeId (cleanText (.str user.id)) (normalizeEmail user.email) target = true)

/-! ### `GET /api/intake/latest` and `GET /api/intake/status` -/

/-- The columns that `GET /api/intake/latest` selects: the object `intake` of
its response. -/
structure IntakeView where
  id : Int
  first_name : Option String
  last_name : Option String
  filing_year : Option Int
  filing_status : Option String
  dob : Option String
  email : Option String
  phone : Option String
  employer : Option String
  wages : Option ℚ
  federal_withholding : Option ℚ
  income_1099 : Option ℚ
  investment_income : Option ℚ
  retirement : Option ℚ
  other_income : Option String
  mortgage : Option ℚ
  charity : Option ℚ
  student_loan : Option ℚ
  dependents : Option Int
  hsa : Option ℚ
  other_deductions : Option String
  filing_method : Option String
  contact_method : Option String
  notes : Option String
  consent : Bool
  client_username : Option String
  deriving DecidableEq, Repr

/-- The `SELECT` list of `GET /api/intake/latest` applied to a row. -/
def IntakeRow.view (row : IntakeRow) : IntakeView :=
  { id := row.id, first_name := row.first_name, last_name := row.last_name,
    filing_year := row.filing_year, filing_status := row.filing_status, dob := row.dob,
    email := row.email, phone := row.phone, employer := row.employer, wages := row.wages,
    federal_withholding := row.federal_withholding, income_1099 := row.income_1099,
    investment_income := row.investment_income, retirement := row.retirement,
    other_income := row.other_income, mortgage := row.mortgage, charity := row.charity,
    student_loan := row.student_loan, dependents := row.dependents, hsa := row.hsa,
    other_deductions := row.other_deductions, filing_method := row.filing_method,
    contact_method := row.contact_method, notes := row.notes, consent := row.consent,
    client_username := row.client_username }

/-- The JSON body of a response of `GET /api/intake/latest`. -/
inductive LatestBody
  | error (message : String)
  | notFound
  | found (intake : IntakeView)
  deriving DecidableEq, Repr

structure LatestResponse where
  status : Nat
  body : LatestBody
  deriving DecidableEq, Repr

/-- The handler of `GET /api/intake/latest`, for the user that
`requireSupabaseAuth` has set on the request: the latest row
`WHERE client_user_id = $1 OR email = $2`. -/
def getIntakeLatest (moment : Moment) (user : SupabaseUser) (store : Store) : LatestResponse :=
  let clientUserId := cleanText (.str user.id)
  let email := normalizeEmail user.email
  if !moment.storeUp then { status := 500, body := .error "Server error." }
  else
    match latestWhere
        (fun row => (clientUserId.isSome && row.client_user_id == clientUserId) ||
          row.email == some email) store.intakes with
    | none => { status := 200, body := .notFound }
    | some row => { status := 200, body := .found row.view }

/-- The object `detailMap` of `GET /api/intake/status` read at a stored status,
with the fall-back `|| detailMap.received`. A status that names a method
inherited from `Object.prototype` reads a function, which `JSON.stringify`
leaves out of the body (`undefined`); the status `__proto__` reads the
prototype itself, an object without own properties. -/
def reviewDetail (status : Option String) : JsValue :=
  match status with
  | some "received" => .str "Intake received. Your preparer will begin review shortly."
  | some "in_review" =>
    .str "Your preparer is validating documents and confirming filing details."
  | some "awaiting_documents" =>
    .str "Additional documents requested. Upload via the client dashboard."
  | some "awaiting_authorization" => .str "Form 8879 is required before e-file can proceed."
  | some "ready_to_file" => .str "All items verified. Your return is queued for e-file."
  | some "filed" => .str "Return transmitted to the IRS. Confirmation pending."
  | some "__proto__" => .object "[object Object]"
  | some key =>
    if ["constructor", "hasOwnProperty", "isPrototypeOf", "propertyIsEnumerable",
        "toLocaleString", "toString", "valueOf", "__defineGetter__", "__defineSetter__",
        "__lookupGetter__", "__lookupSetter__"].contains key then .undefined
    else .str "Intake received. Your preparer will begin review shortly."
  | none => .str "Intake received. Your preparer will begin review shortly."

/-- The object sent by `GET /api/intake/status` when a row is found. -/
structure StatusView where
  review_status : String
  review_notes : String
  review_updated_at : Option Nat
  review_detail : JsValue
  filing_year : Option Int
  estimated_refund : Option ℚ
  estimated_tax : Option ℚ
  estimated_withholding : Option ℚ
  estimated_taxable : Option ℚ
  created_at : Nat
  deriving DecidableEq, Repr

/-- The JSON body of a response of `GET /api/intake/status`. -/
inductive StatusBody
  | error (message : String)
  | notFound
  | found (view : StatusView)
  deriving DecidableEq, Repr

structure StatusResponse where
  status : Nat
  body : StatusBody
  deriving DecidableEq, Repr

/-- The object sent for a row by `GET /api/intake/status`; without the
`estimated_*` columns the fall-back query is run and the four figures are
`null`. -/
def statusView (estimateColumns : Bool) (row : IntakeRow) : StatusView :=
  { review_status := match row.review_status with
      | some status => if status = "" then "received" else status
      | none => "received",
    review_notes := row.review_notes.getD "",
    review_updated_at := row.review_updated_at,
    review_detail := reviewDetail row.review_status,
    filing_year := row.filing_year,
    estimated_refund :=
      if estimateColumns then row.estimate.map fun e => e.estimated_refund else none,
    estimated_tax := if estimateColumns then row.estimate.map fun e => e.estimated_tax else none,
    estimated_withholding :=
      if estimateColumns then row.estimate.map fun e => e.estimated_withholding else none,
    estimated_taxable :=
      if estimateColumns then row.estimate.map fun e => e.estimated_taxable else none,
    created_at := row.created_at }

/-- The handler of `GET /api/intake/status` for the query parameters
`client_user_id` and `email`; `estimateColumns` tells whether the table has the
`estimated_*` columns (otherwise the first query fails with the code 42703 and
the fall-back query is run). -/
def getIntakeStatus (moment : Moment) (estimateColumns : Bool)
    (queryClientUserId queryEmail : JsValue) (store : Store) : StatusResponse :=
  let clientUserId := cleanText queryClientUserId
  let email := cleanText queryEmail
  if clientUserId.isNone && email.isNone then
    { status := 400, body := .error "Missing client identifier." }
  else if !moment.storeUp then { status := 500, body := .error "Server error." }
  else
    let found :=
      match clientUserId with
      | some id => latestWhere (fun row => row.client_user_id == some id) store.intakes
      | none => latestWhere (fun row => row.email == email) store.intakes
    match found with
    | none => { status := 200, body := .notFound }
    | some row => { status := 200, body := .found (statusView estimateColumns row) }

/-! ### Vocabulary of the confidentiality property -/

/-- A row without its two encrypted tokens. -/
def eraseTokens (row : IntakeRow) : IntakeRow :=
  { row with ssn_encrypted := none, ip_pin_encrypted := none }

/-- Two rows that differ only in their encrypted tokens. -/
def TokenTwin (r₁ r₂ : IntakeRow) : Prop :=
  eraseTokens r₁ = eraseTokens r₂

/-- Two stores that differ only in the encrypted tokens of their rows. -/
def SameUpToTokens (s₁ s₂ : Store) : Prop :=
  List.Forall₂ TokenTwin s₁.intakes s₂.intakes ∧ s₁.nextId = s₂.nextId ∧ s₁.audit = s₂.audit

/-- The body with the given values for `ssn` and `ip_pin`. -/
def withSensitive (body : RequestBody) (ssn ipPin : JsValue) : RequestBody :=
  { body with ssn := ssn, ip_pin := ipPin }

/-- The values are a valid SSN and a valid IP PIN: nine and six digits once
normalised. -/
def ValidSensitive (ssn ipPin : JsValue) : Prop :=
  (normalizeSsn ssn).length = 9 ∧ (normalizeIpPin ipPin).length = 6

/-- The function `computeEstimate` reads the eleven fields it is called with:
its result does not depend on the `ssn` and `ip_pin` of the body. -/
def EstimateIgnoresSensitive (env : Env) : Prop :=
  ∀ year status body ssn ipPin,
    env.computeEstimate year status (withSensitive body ssn ipPin)
      = env.computeEstimate year status body

/-- Two moments at which the store behaves alike and gives the same verdict on
two rows that differ only in their tokens; the random bytes may differ. -/
def SameStoreBehaviour (m₁ m₂ : Moment) : Prop :=
  m₁.now = m₂.now ∧ m₁.storeUp = m₂.storeUp ∧ m₁.auditAccepted = m₂.auditAccepted ∧
    ∀ r₁ r₂, TokenTwin r₁ r₂ → m₁.storeAccepts r₁ = m₂.storeAccepts r₂

/-! ### `POST /api/uploads/record` -/

/-- The function `normalizeUsername` on a string: trimmed, lower-cased, every
UTF-16 unit outside `a-z0-9._-` replaced by an underscore. -/
def normalizeUsername (value : String) : String :=
  String.mk ((toLowerCase (trim value)).data.flatMap fun c =>
    if c.isLower || c.isDigit || c == '.' || c == '_' || c == '-' then [c]
    else if c.toNat < 0x10000 then ['_']
    else ['_', '_'])

/-- The result of `detectDocumentType`. -/
structure DetectedType where
  label : String
  requirement : String
  deriving DecidableEq, Repr

/-- The function `detectDocumentType`. -/
def detectDocumentType (name : String) (category : String) : DetectedType :=
  if name = "" then { label := "Document", requirement := "other" }
  else if category = "authorization" then { label := "Form 8879", requirement := "auth" }
  else
    let strip : String → String := fun text =>
      String.mk ((toLowerCase text).data.filter fun c => c.isLower || c.isDigit)
    let normalized := strip name
    let matchesToken : String → Bool := fun token => includes normalized (strip token)
    if matchesToken "w2" || matchesToken "w-2" || matchesToken "w_2" then
      { label := "W-2", requirement := "income" }
    else if matchesToken "1099" then { label := "1099", requirement := "income" }
    else if matchesToken "1098" then { label := "1098", requirement := "mortgage" }
    else if matchesToken "photoid" || matchesToken "passport" || matchesToken "driverlicense" ||
        matchesToken "license" || matchesToken "idcard" || matchesToken "id" then
      { label := "Photo ID", requirement := "identity" }
    else if matchesToken "k1" || matchesToken "k-1" || matchesToken "schedulek1" then
      { label := "Schedule K-1", requirement := "income" }
    else { label := "Document", requirement := "other" }

/-- The fields of the JSON body that `POST /api/uploads/record` reads. -/
structure UploadRecordBody where
  client_user_id : JsValue := .undefined
  client_username : JsValue := .undefined
  file_name : JsValue := .undefined
  storage_path : JsValue := .undefined
  category : JsValue := .undefined
  file_type : JsValue := .undefined
  file_size : JsValue := .undefined
  dlp_hits : JsValue := .undefined
  scan_status : JsValue := .undefined
  scan_notes : JsValue := .undefined
  deriving DecidableEq, Repr

/-- The thirteen parameters of the `INSERT INTO upload_records`, under the names
of the columns they are meant for. -/
structure UploadRecord where
  client_user_id : Option String
  client_username : Option String
  uploader_user_id : Option String
  uploader_role : String
  category : String
  document_type : String
  scan_status : String
  scan_notes : Option String
  dlp_hits : Int
  file_name : String
  storage_path : String
  file_size : Option ℚ
  file_type : Option String
  deriving DecidableEq, Repr

/-- A row of the table `client_profiles`, as far as the handler reads it. -/
structure ClientProfile where
  username : Option String
  supabase_user_id : Option String
  deriving DecidableEq, Repr

/-- The tables `client_profiles` and `upload_records`. -/
structure UploadTables where
  profiles : List ClientProfile
  records : List UploadRecord
  deriving DecidableEq, Repr

/-- A run of `POST /api/uploads/record`: the tables and the store it leaves, the
response, and the parameters it has handed to the `INSERT`, if it got there. -/
structure UploadRecordRun where
  tables : UploadTables
  store : Store
  response : Response
  submitted : Option UploadRecord
  deriving DecidableEq, Repr

/-- The audit event written by `POST /api/uploads/record`. -/
def uploadRecordedEvent (moment : Moment) (user : SupabaseUser) (record : UploadRecord) :
    AuditEvent :=
  { actor_user_id := orNull (some user.id), actor_email := some user.email,
    actor_role := some record.uploader_role, action_type := some "upload_recorded",
    target_user_id := record.client_user_id, target_email := none,
    target_username := record.client_username,
    metadata := [("file_name", .str record.file_name), ("category", .str record.category),
                 ("document_type", .str record.document_type),
                 ("scan_status", .str record.scan_status), ("dlp_hits", .num record.dlp_hits)],
    created_at := moment.now }

/-- The target columns of the `INSERT INTO upload_records` of
`POST /api/uploads/record`, as the statement lists them. -/
def uploadInsertColumns : List String :=
  ["client_user_id", "client_username", "uploader_user_id", "uploader_role", "category",
   "document_type", "scan_status", "scan_notes", "dlp_hits", "file_name", "storage_path",
   "file_size", "file_type", "created_at"]

/-- The expressions of the `VALUES` row of that statement. -/
def uploadInsertValues : List String :=
  ["$1", "$2", "$3", "$4", "$5", "$6", "$7", "$8", "$9", "$10", "$11", "$12", "NOW()"]

/-- The relational store takes an `INSERT` with a column list only when the
`VALUES` row has one expression for each target column; PostgreSQL rejects any
other statement when it analyses it, whatever the parameters. -/
def insertTaken (columns values : List String) : Bool :=
  columns.length == values.length

/-- The statements of `POST /api/uploads/record` from `detectDocumentType` on,
for the owner the handler has resolved. The `INSERT` names fourteen columns for
thirteen values, so the store rejects it and the `catch` block answers. -/
def postUploadsRecordInsert (env : Env) (moment : Moment)
    (user : SupabaseUser) (data : UploadRecordBody) (tables : UploadTables) (store : Store)
    (resolvedClientUserId : Option String) : UploadRecordRun :=
  let category := (cleanText data.category).getD "documents"
  let dlpHits := (toNullableInt data.dlp_hits).getD 0
  let fileName := (cleanText data.file_name).getD ""
  let record : UploadRecord :=
    { client_user_id := resolvedClientUserId,
      client_username := cleanText data.client_username,
      uploader_user_id := orNull (some user.id),
      uploader_role := if isPreparerAllowed env user.email then "preparer" else "client",
      category := category,
      document_type :=
        (detectDocumentType fileName
          (if category = "authorizations" then "authorization" else "documents")).label,
      scan_status :=
        (cleanText data.scan_status).getD (if dlpHits ≠ 0 then "flagged" else "clean"),
      scan_notes := cleanText data.scan_notes,
      dlp_hits := dlpHits,
      file_name := fileName,
      storage_path := (cleanText data.storage_path).getD "",
      file_size := toNullableNumber data.file_size,
      file_type := cleanText data.file_type }
  if !moment.storeUp || !insertTaken uploadInsertColumns uploadInsertValues then
    { tables := tables, store := store, response := serverError, submitted := some record }
  else
    { tables := { tables with records := tables.records ++ [record] },
      store := logAuditEvent moment (uploadRecordedEvent moment user record) store,
      response := { status := 200, body := .okId none },
      submitted := some record }

/-- The handler of `POST /api/uploads/record`, for the user that
`requireSupabaseAuth` has set on the request; `{ok: true}` is `okId none`. -/
def postUploadsRecord (env : Env) (moment : Moment)
    (user : SupabaseUser) (data : UploadRecordBody) (tables : UploadTables) (store : Store) :
    UploadRecordRun :=
  let clientUserId := cleanText data.client_user_id
  if (cleanText data.file_name).isNone || (cleanText data.storage_path).isNone then
    { tables := tables, store := store, response := badRequest "Missing upload metadata.",
      submitted := none }
  else
    match isPreparerAllowed env user.email, cleanText data.client_username with
    | true, some clientUsername =>
      if !moment.storeUp then
        { tables := tables, store := store, response := serverError, submitted := none }
      else
        match tables.profiles.find? fun profile =>
            profile.username.map toLowerCase == some (normalizeUsername clientUsername) with
        | none =>
          { tables := tables, store := store,
            response := { status := 404, body := .error "Client not found." },
            submitted := none }
        | some profile =>
          postUploadsRecordInsert env moment user data tables store
            (if clientUserId.isNone then orNull profile.supabase_user_id else clientUserId)
    | _, _ =>
      postUploadsRecordInsert env moment user data tables store clientUserId

/-! ### The amounts of a stored intake -/

/-- The nine financial amounts of the row are the values that
`toNullableNumber` gives for the fields of the body. -/
def AmountsAsSent (body : RequestBody) (row : IntakeRow) : Prop :=
  row.wages = toNullableNumber body.wages ∧
  row.federal_withholding = toNullableNumber body.federal_withholding ∧
  row.income_1099 = toNullableNumber body.income_1099 ∧
  row.investment_income = toNullableNumber body.investment_income ∧
  row.retirement = toNullableNumber body.retirement ∧
  row.mortgage = toNullableNumber body.mortgage ∧
  row.charity = toNullableNumber body.charity ∧
  row.student_loan = toNullableNumber body.student_loan ∧
  row.hsa = toNullableNumber body.hsa

/-! ### The rate limiter -/

/-- The argument of `rateLimit`. -/
structure RateConfig where
  windowMs : Int
  max : Int
  message : String
  deriving DecidableEq, Repr

/-- A value of the map `hits`. -/
structure RateEntry where
  count : Nat
  start : Int
  deriving DecidableEq, Repr

/-- The key of a request: `req.ip || req.connection?.remoteAddress || "unknown"`. -/
def callerKey (ip remoteAddress : Option String) : String :=
  ((orNull ip).orElse fun _ => orNull remoteAddress).getD "unknown"

/-- One call of the middleware made by `rateLimit(config)`, at the time `now`
for the caller `key`, on the map `hits` (read as `hits.get`): the map it leaves,
and the 429 response it sends, `none` when it calls `next()`. -/
def rateLimit (config : RateConfig) (hits : String → Option RateEntry) (now : Int)
    (key : String) : (String → Option RateEntry) × Option Response :=
  let entry := (hits key).getD { count := 0, start := now }
  let entry := if now - entry.start > config.windowMs then { count := 0, start := now } else entry
  let entry := { entry with count := entry.count + 1 }
  let hits := fun k => if k = key then some entry else hits k
  if (entry.count : Int) > config.max then
    (hits, some { status := 429, body := .error config.message })
  else (hits, none)

/-- The requests of a sequence, each with its arrival time and its caller key,
through one limiter: for each request, whether it is passed on. -/
def rateLimitRun (config : RateConfig) :
    (String → Option RateEntry) → List (Int × String) → List Bool
  | _, [] => []
  | hits, (now, key) :: rest =>
    (rateLimit config hits now key).2.isNone ::
      rateLimitRun config (rateLimit config hits now key).1 rest

/-- The verdicts of the requests of one caller key, in order. -/
def verdictsFor (key : String) (requests : List (Int × String)) (verdicts : List Bool) :
    List Bool :=
  ((requests.zip verdicts).filter fun pair => pair.1.2 == key).map fun pair => pair.2

/-- The number of requests of one caller key. -/
def requestsOf (key : String) (requests : List (Int × String)) : Nat :=
  (requests.filter fun request => request.2 == key).length

/-- The limiter of `/api/intake`: eight requests in five minutes. -/
def intakeLimiter : RateConfig :=
  { windowMs := 5 * 60 * 1000, max := 8,
    message := "Too many intake submissions. Please wait a few minutes and try again." }

/-- The limiter of `/api`: 120 requests in fifteen minutes. -/
def apiLimiter : RateConfig :=
  { windowMs := 15 * 60 * 1000, max := 120,
    message := "Too many requests. Please try again later." }

/-! Sample data for the concrete cases below. -/

/-- A configuration without preparers whose identity provider knows the token
`client-token`, whose estimate is never available and whose cipher tags the
plain text with the nonce. -/
def sampleEnv : Env where
  preparerEmailDomain := ""
  preparerEmailList := ""
  hasPreparerAuth := true
  identityProvider := fun token =>
    if token = "client-token" then .ok { id := "user-1", email := "ada@example.com" }
    else .error "Invalid auth token."
  computeEstimate := fun _ _ _ => .ok none
  cipher := fun iv value => toString iv ++ ":" ++ value

/-- A moment at which the store answers and accepts every row. -/
def sampleMoment : Moment where
  now := 1000
  randomBytes := fun n => [n]
  storeUp := true
  storeAccepts := fun _ => true
  auditAccepted := true

/-- The submission of the scenario of the specification: filing year 2025,
filing status `single`, SSN `123456789`, IP PIN `000000`, consent given; the
body carries no `client_user_id`. -/
def sampleSubmission : RequestBody :=
  { first_name := .str "Ada", last_name := .str "Lovelace", dob := .str "1990-01-01",
    email := .str "ada@example.com", phone := .str "555-0100", filing_status := .str "single",
    filing_year := .str "2025", consent := .bool true, ssn := .str "123456789",
    ip_pin := .str "000000" }

/-- The empty store. -/
def emptyStore : Store :=
  { intakes := [], nextId := 1, audit := [] }

/-- An intake row that holds nothing but its identifier and its creation time. -/
def blankRow (id : Int) : IntakeRow :=
  { id := id, first_name := none, last_name := none, ssn_encrypted := none,
    ip_pin_encrypted := none, filing_year := none, dob := none, email := none, phone := none,
    employer := none, wages := none, federal_withholding := none, income_1099 := none,
    investment_income := none, retirement := none, other_income := none, mortgage := none,
    charity := none, student_loan := none, dependents := none, hsa := none,
    other_deductions := none, filing_status := none, filing_method := none,
    contact_method := none, notes := none, consent := false, client_user_id := none,
    client_username := none, estimate := none, review_status := some "received",
    review_notes := none, review_updated_at := none, created_at := 0 }

/-- A filed intake of the user `user-1` with stored tokens and review notes. -/
def sampleFiledRow : IntakeRow :=
  { blankRow 1 with
    client_user_id := some "user-1", email := some "ada@example.com",
    ssn_encrypted := some "old-ssn-token", ip_pin_encrypted := some "old-pin-token",
    review_status := some "filed", review_notes := some "Filed on time." }

/-- A store that holds the filed intake of `user-1`. -/
def sampleFiledStore : Store :=
  { intakes := [sampleFiledRow], nextId := 2, audit := [] }

/-- The signed-in user `user-1`. -/
def sampleUser : SupabaseUser :=
  { id := "user-1", email := "ada@example.com" }

/-- An update of intake 1 with every field valid and a new SSN and IP PIN. -/
def sampleUpdate : RequestBody :=
  { sampleSubmission with intake_id := .num 1, ssn := .str "987654321", ip_pin := .str "111111" }

/-- A configuration in which the addresses of `example.com` are preparers. -/
def samplePreparerEnv : Env :=
  { sampleEnv with preparerEmailDomain := "example.com" }

/-- An update of intake 1 whose body also names its owner, so that it is a
valid submission as well. -/
def sampleOwnedUpdate : RequestBody :=
  { sampleUpdate with client_user_id := .str "user-1" }

/-- The sample moment with other random bytes. -/
def sampleOtherMoment : Moment :=
  { sampleMoment with randomBytes := fun n => [n + 7] }

/-- The store of the filed intake with other tokens in its row. -/
def sampleRetokenedStore : Store :=
  { intakes := [{ sampleFiledRow with
      ssn_encrypted := some "other-ssn-token", ip_pin_encrypted := some "other-pin-token" }],
    nextId := 2, audit := [] }

/-! ### The review status over the life of the store -/

/-- The `SET` list of the `UPDATE` of `PATCH /api/intake/status` applied to a
row. -/
def reviewedRow (moment : Moment) (status notes : Option String) (row : IntakeRow) :
    IntakeRow :=
  { row with review_status := status, review_notes := notes,
             review_updated_at := some moment.now }

/-- The identifiers of the rows that the `UPDATE` of `PATCH /api/intake/status`
addresses: the rows with the identifier of the request, or else the rows with
the identifier of the latest intake of the client named by the request. -/
def statusTargetIds (body : RequestBody) (store : Store) : List Int :=
  let intakeId := toNullableInt body.intake_id
  if !(intakeId.isNone || intakeId == some 0) then
    (store.intakes.filter fun row => row.id == intakeId.getD 0).map fun row => row.id
  else
    let target :=
      match cleanText body.client_user_id with
      | some identifier => latestWhere (fun row => row.client_user_id == some identifier)
          store.intakes
      | none => latestWhere (fun row => row.email == cleanText body.email) store.intakes
    match target with
    | some row => (store.intakes.filter fun r => r.id == row.id).map fun r => r.id
    | none => []

/-- The audit event written by `PATCH /api/intake/status`. -/
def reviewedEvent (moment : Moment) (preparer : SupabaseUser) (body : RequestBody) :
    AuditEvent :=
  { actor_user_id := orNull (some preparer.id), actor_email := orNull (some preparer.email),
    actor_role := some "preparer", action_type := some "intake_status_updated",
    target_user_id := cleanText body.client_user_id, target_email := cleanText body.email,
    target_username := none,
    metadata := [("review_status", .str ((cleanText body.review_status).getD "")),
                 ("review_notes", .str ((cleanText body.review_notes).getD "")),
                 ("intake_id", match toNullableInt body.intake_id with
                               | some n => if n = 0 then .null else .num n
                               | none => .null)],
    created_at := moment.now }

/-- The handler of `PATCH /api/intake/status`, statement by statement; an
exception ends the run in the `catch` block with the 500 response. -/
def patchIntakeStatusRun (moment : Moment) (preparer : SupabaseUser) (body : RequestBody)
    (store : Store) : Store × Response :=
  let intakeId := toNullableInt body.intake_id
  let reviewStatus := cleanText body.review_status
  if reviewStatus.isNone || !reviewStatuses.contains (reviewStatus.getD "") then
    (store, badRequest "Invalid review status.")
  else if (intakeId.isNone || intakeId == some 0) && (cleanText body.client_user_id).isNone &&
      (cleanText body.email).isNone then
    (store, badRequest "Missing intake identifier.")
  else if !moment.storeUp then (store, serverError)
  else
    let targetIds := statusTargetIds body store
    let update := reviewedRow moment reviewStatus (cleanText body.review_notes)
    if (store.intakes.filter fun row => targetIds.contains row.id).any
        (fun row => !moment.storeAccepts (update row)) then
      (store, serverError)
    else
      let updated := { store with
        intakes := store.intakes.map fun row =>
          if targetIds.contains row.id then update row else row }
      match targetIds.head? with
      | none => (updated, { status := 404, body := .error "Intake submission not found." })
      | some id =>
        (logAuditEvent moment (reviewedEvent moment preparer body) updated,
         { status := 200, body := .okId (some id) })

/-- Every record of the store has one of the six review statuses. -/
def StatusesValid (store : Store) : Prop :=
  ∀ row ∈ store.intakes, ∃ s ∈ reviewStatuses, row.review_status = some s

/-- The stores that the three handlers that write the review status produce,
starting from the empty store: submit, update by a signed-in user, and status
change by a preparer, each with any request at any moment. -/
inductive Reachable : Store → Prop
  | empty : Reachable emptyStore
  | submit (env : Env) (moment : Moment) (body : RequestBody) (store : Store) :
      Reachable store → Reachable (postIntake env moment body store).1
  | update (env : Env) (moment : Moment) (user : SupabaseUser) (body : RequestBody)
      (store : Store) :
      Reachable store → Reachable (patchIntake env moment user body store).1
  | review (moment : Moment) (preparer : SupabaseUser) (body : RequestBody) (store : Store) :
      Reachable store → Reachable (patchIntakeStatus moment preparer body store).1

/-- The store after `user-1` has submitted the sample intake. -/
def sampleSubmittedStore : Store :=
  (postIntake sampleEnv sampleMoment { sampleSubmission with client_user_id := .str "user-1" }
    emptyStore).1

/-- The store after a preparer has then set the status of that intake to
`filed`. -/
def sampleReviewedStore : Store :=
  (patchIntakeStatus sampleMoment sampleUser
    { review_status := .str "filed", intake_id := .num 1 } sampleSubmittedStore).1

/-- The metadata of a W-2 that the client `user-1` has stored under its own
folder and names itself the owner of. -/
def sampleOwnUpload : UploadRecordBody :=
  { client_user_id := .str "user-1", file_name := .str "w2.pdf",
    storage_path := .str "user-1/w2.pdf" }

/-- The upload tables without a row. -/
def emptyUploadTables : UploadTables :=
  { profiles := [], records := [] }

/-- Ten requests of the caller `10.0.0.1` that follow the one at time 0, all
within five minutes of it, and one request of another caller among them. -/
def sampleBurst : List (Int × String) :=
  [(1000, "10.0.0.1"), (2000, "10.0.0.1"), (2500, "10.0.0.2"), (3000, "10.0.0.1"),
   (4000, "10.0.0.1"), (5000, "10.0.0.1"), (6000, "10.0.0.1"), (7000, "10.0.0.1"),
   (8000, "10.0.0.1"), (9000, "10.0.0.1"), (300000, "10.0.0.1")]

end Server

end TaxAgent
namespace TaxAgent

namespace UploadSecurity

/-! ## Properties of the document screener -/

theorem everyFrom_iff (bytes : List Nat) :
    ∀ (sig : List Nat) (index : Nat),
      everyFrom bytes sig index = true ↔ (bytes.drop index).take sig.length = sig := by
  intro sig
  induction sig with
  | nil => intro index; simp [everyFrom]
  | cons value rest ih =>
    intro index
    simp only [everyFrom, Bool.and_eq_true, beq_iff_eq, ih, List.length_cons]
    cases h : bytes.drop index with
    | nil =>
      have hlen : bytes.length ≤ index := by
        simpa using List.drop_eq_nil_iff.mp h
      have h1 : bytes[index]? = none := List.getElem?_eq_none hlen
      simp [h1]
    | cons b tail =>
      have h1 : bytes[index]? = some b := by
        have := congrArg List.head? h
        simpa [List.head?_drop] using this
      have h2 : bytes.drop (index + 1) = tail := by
        have := congrArg List.tail h
        simpa [List.tail_drop] using this
      simp [h1, h2]

theorem expected_array_cases (file : UploadFile) (e : Expected) (sig : List Nat)
    (hexp : getExpectedSignature file = some e) (hsig : e.signature = .array sig) :
    sig = [0x25, 0x50, 0x44, 0x46] ∨ sig = [0x89, 0x50, 0x4e, 0x47] ∨ sig = [0xff, 0xd8, 0xff] := by
  unfold getExpectedSignature at hexp
  split at hexp
  · rename_i value hval
    cases hexp
    simp only at hsig
    subst hsig
    unfold SIGNATURES at hval
    repeat' split at hval
    all_goals simp_all
  · simp only at hexp
    repeat' split at hexp
    all_goals simp_all
    all_goals (subst hexp; simp_all)

theorem name_infix_message (before name after : String) :
    name.data <:+: (before ++ name ++ after).data := by
  refine ⟨before.data, after.data, ?_⟩
  simp [String.data_append]

theorem matchesSignature_array_false (file : UploadFile) (sig : List Nat)
    (hlen : sig.length ≤ MAX_SCAN_BYTES) (hne : file.bytes.take sig.length ≠ sig) :
    matchesSignature (readSample file) (.array sig) = .ok false := by
  unfold matchesSignature
  simp only
  split
  · rfl
  · have hfalse : everyFrom (readSample file) sig 0 = false := by
      rw [Bool.eq_false_iff]
      intro h
      rw [everyFrom_iff] at h
      apply hne
      rw [← h]
      simp [readSample, List.take_take, Nat.min_eq_left hlen]
    rw [hfalse]

theorem scanFile_of_mismatch (file : UploadFile) (e : Expected) (sig : List Nat)
    (hexp : getExpectedSignature file = some e) (hsig : e.signature = .array sig)
    (hne : file.bytes.take sig.length ≠ sig) :
    scanFile file = .ok (ScanResult.mk false true false
        ("File signature mismatch detected in " ++ file.name ++ ".")) := by
  have hlen : sig.length ≤ MAX_SCAN_BYTES := by
    rcases expected_array_cases file e sig hexp hsig with h | h | h <;> subst h <;> decide
  have hm := matchesSignature_array_false file sig hlen hne
  unfold scanFile
  simp only [hexp, hsig, hm, Except.map]
  rfl

/-- C1: a file for which a magic-byte signature is expected (from the declared
type, or else from the extension) and whose leading bytes are not that
signature, a file shorter than the signature included, is rejected by
`scanFile` with `ok = false`, `malware = true`, `dlp = false` and a message
that names the file, whatever the rest of its content is. -/
theorem scanFile_rejects_signature_mismatch (file : UploadFile) (e : Expected) (sig : List Nat)
    (hexp : getExpectedSignature file = some e) (hsig : e.signature = .array sig)
    (hne : file.bytes.take sig.length ≠ sig) :
    scanFile file = .ok (ScanResult.mk false true false
        ("File signature mismatch detected in " ++ file.name ++ ".")) ∧
      file.name.data <:+: ("File signature mismatch detected in " ++ file.name ++ ".").data := by
  exact ⟨scanFile_of_mismatch file e sig hexp hsig hne, name_infix_message _ _ _⟩

/-- Witness for C1: an executable renamed to `w2.pdf` and declared as PDF, whose
content holds the antivirus test string and an SSN-shaped text. -/
theorem scanFile_rejects_signature_mismatch_witness :
    getExpectedSignature
        { name := "w2.pdf", type := "application/pdf",
          bytes := [0x4d, 0x5a] ++
            ("EICAR-STANDARD-ANTIVIRUS-TEST-FILE 123-45-6789".data.map Char.toNat) }
      = some { type := "application/pdf", signature := .array [0x25, 0x50, 0x44, 0x46] } ∧
    scanFile
        { name := "w2.pdf", type := "application/pdf",
          bytes := [0x4d, 0x5a] ++
            ("EICAR-STANDARD-ANTIVIRUS-TEST-FILE 123-45-6789".data.map Char.toNat) }
      = .ok (ScanResult.mk false true false "File signature mismatch detected in w2.pdf.") :=
  ⟨rfl,
   (scanFile_rejects_signature_mismatch
      { name := "w2.pdf", type := "application/pdf",
        bytes := [0x4d, 0x5a] ++
          ("EICAR-STANDARD-ANTIVIRUS-TEST-FILE 123-45-6789".data.map Char.toNat) }
      { type := "application/pdf", signature := .array [0x25, 0x50, 0x44, 0x46] }
      [0x25, 0x50, 0x44, 0x46] rfl rfl (by decide)).1⟩

/-! ### The sensitive-data heuristic -/

theorem digits_append (n : Nat) :
    ∀ (a rest : List Char), a.length = n → (∀ x ∈ a, isDigit x = true) →
      digits n (a ++ rest) = some rest := by
  induction n with
  | zero =>
    intro a rest hlen _
    have : a = [] := List.length_eq_zero.mp hlen
    subst this
    cases rest <;> rfl
  | succ n ih =>
    intro a rest hlen hdig
    cases a with
    | nil => simp at hlen
    | cons x xs =>
      have hx : isDigit x = true := hdig x (List.mem_cons_self _ _)
      have hxs : ∀ y ∈ xs, isDigit y = true := fun y hy => hdig y (List.mem_cons_of_mem _ hy)
      simp only [List.cons_append, digits, hx, if_true]
      exact ih xs rest (by simpa using hlen) hxs

theorem notBeforeDigit_of_delimited (after : List Char)
    (h : after = [] ∨ ∃ c tail, after = c :: tail ∧ isDigit c = false) :
    notBeforeDigit after = true := by
  rcases h with h | ⟨c, tail, h, hc⟩
  · subst h; rfl
  · subst h; simp [notBeforeDigit, hc]

theorem ssnLast_of_digits (c after : List Char) (hlen : c.length = 4)
    (hdig : ∀ x ∈ c, isDigit x = true) (hafter : notBeforeDigit after = true) :
    ssnLast (c ++ after) = true := by
  simp [ssnLast, digits_append 4 c after hlen hdig, hafter]

theorem ssnMiddle_of_shape (b h₂ c after : List Char) (hb : b.length = 2)
    (hbd : ∀ x ∈ b, isDigit x = true) (hh : h₂ = [] ∨ h₂ = ['-'])
    (hc : c.length = 4) (hcd : ∀ x ∈ c, isDigit x = true)
    (hafter : notBeforeDigit after = true) :
    ssnMiddle (b ++ (h₂ ++ (c ++ after))) = true := by
  have hlast := ssnLast_of_digits c after hc hcd hafter
  unfold ssnMiddle
  rw [digits_append 2 b _ hb hbd]
  rcases hh with h | h
  · subst h
    simp only [List.nil_append, hlast, Bool.or_true]
  · subst h
    simp [hlast]

theorem ssnBody_of_shape (mid after : List Char) (hmid : SsnShaped mid)
    (hafter : notBeforeDigit after = true) :
    ssnBody (mid ++ after) = true := by
  obtain ⟨a, h₁, b, h₂, c, rfl, ha, had, hh, hb, hbd, hh₂, hc, hcd⟩ := hmid
  have hm := ssnMiddle_of_shape b h₂ c after hb hbd hh₂ hc hcd hafter
  have hre : a ++ h₁ ++ b ++ h₂ ++ c ++ after = a ++ (h₁ ++ (b ++ (h₂ ++ (c ++ after)))) := by
    simp [List.append_assoc]
  rw [hre]
  unfold ssnBody
  rw [digits_append 3 a _ ha had]
  rcases hh with h | h
  · subst h
    simp only [List.nil_append, hm, Bool.or_true]
  · subst h
    simp [hm]

theorem ssnSearch_after_nondigit (s : List Char) (hs : ssnBody s = true) (c : Char)
    (hc : isDigit c = false) :
    ∀ (init : List Char) (atStart : Bool), ssnSearch atStart (init ++ c :: s) = true := by
  intro init
  induction init with
  | nil =>
    intro atStart
    simp [ssnSearch, ssnAt, hs, hc]
  | cons x xs ih =>
    intro atStart
    simp [ssnSearch, ih false]

theorem ssnSearch_at_start (s : List Char) (hs : ssnBody s = true) :
    ssnSearch true s = true := by
  cases s with
  | nil => simp [ssnSearch, ssnAt, hs]
  | cons x xs => simp [ssnSearch, ssnAt, hs]

theorem SSN_PATTERN_test_of_delimited (text : String) (h : ContainsDelimitedSsn text) :
    SSN_PATTERN_test text = true := by
  obtain ⟨before, mid, after, htext, hmid, hbefore, hafter⟩ := h
  have hbody := ssnBody_of_shape mid after hmid (notBeforeDigit_of_delimited after hafter)
  unfold SSN_PATTERN_test
  rw [htext, List.append_assoc]
  rcases hbefore with h | ⟨init, c, h, hc⟩
  · subst h
    simpa using ssnSearch_at_start _ hbody
  · subst h
    simpa using ssnSearch_after_nondigit _ hbody c hc init true

theorem scanFile_of_passes (file : UploadFile) (h : PassesContainer file) :
    scanFile file =
      if includes (decodeSample (readSample file)) EICAR_SIGNATURE then
        .ok (ScanResult.mk false true false
          ("Malware test signature detected in " ++ file.name ++ "."))
      else
        .ok (ScanResult.mk true false (SSN_PATTERN_test (decodeSample (readSample file)))
          (if SSN_PATTERN_test (decodeSample (readSample file))
            then "Sensitive data detected in " ++ file.name ++ "." else "")) := by
  unfold scanFile
  rcases h with h | ⟨e, he, hm⟩
  · simp only [h]
  · simp only [he, hm, Except.map, Bool.not_true]

/-- C2, as the claim states it, fails: the PDF whose text is `1234567890` passes
container verification, holds no malware test string and contains `123456789`,
a match of `\d{3}-?\d{2}-?\d{4}`, yet `scanFile` accepts it with `dlp = false`,
because the digit that follows the nine digits stops `SSN_PATTERN`. -/
theorem scanFile_ssn_shape_not_flagged :
    ¬ ∀ file : UploadFile, PassesContainer file →
        includes (decodeSample (readSample file)) EICAR_SIGNATURE = false →
        ContainsSsnShape (decodeSample (readSample file)) →
        ∃ r, scanFile file = .ok r ∧ r.ok = true ∧ r.dlp = true := by
  intro hall
  have hpass : PassesContainer
      { name := "w2.pdf", type := "application/pdf",
        bytes := [0x25, 0x50, 0x44, 0x46, 49, 50, 51, 52, 53, 54, 55, 56, 57, 48] } :=
    Or.inr ⟨{ type := "application/pdf", signature := .array [0x25, 0x50, 0x44, 0x46] }, rfl, rfl⟩
  have hshape : ContainsSsnShape (decodeSample (readSample
      { name := "w2.pdf", type := "application/pdf",
        bytes := [0x25, 0x50, 0x44, 0x46, 49, 50, 51, 52, 53, 54, 55, 56, 57, 48] })) :=
    ⟨['%', 'P', 'D', 'F'], ['1', '2', '3', '4', '5', '6', '7', '8', '9'], ['0'], rfl,
      ['1', '2', '3'], [], ['4', '5'], [], ['6', '7', '8', '9'], rfl, rfl, by decide,
      Or.inl rfl, rfl, by decide, Or.inl rfl, rfl, by decide⟩
  obtain ⟨r, hr, _, hdlp⟩ := hall _ hpass rfl hshape
  have hrun : scanFile
      { name := "w2.pdf", type := "application/pdf",
        bytes := [0x25, 0x50, 0x44, 0x46, 49, 50, 51, 52, 53, 54, 55, 56, 57, 48] }
      = .ok (ScanResult.mk true false false "") := rfl
  rw [hrun] at hr
  cases hr
  exact absurd hdlp (by decide)

/-- A match of `\d{3}-?\d{2}-?\d{4}` that follows a digit is not flagged either:
the PDF whose text is `0123-45-6789` is accepted with `dlp = false`. -/
theorem scanFile_ssn_after_digit_not_flagged :
    scanFile
        { name := "w2.pdf", type := "application/pdf",
          bytes := [0x25, 0x50, 0x44, 0x46] ++ ("0123-45-6789".data.map Char.toNat) }
      = .ok (ScanResult.mk true false false "") :=
  rfl

/-- C2, amended: a file that passes container verification and holds no malware
test string, and whose decoded text contains a match of
`\d{3}-?\d{2}-?\d{4}` that starts the text or follows a non-digit and that no
digit follows, is accepted by `scanFile` (`ok = true`) with `dlp = true`. -/
theorem scanFile_flags_delimited_ssn (file : UploadFile) (hpass : PassesContainer file)
    (hclean : includes (decodeSample (readSample file)) EICAR_SIGNATURE = false)
    (hssn : ContainsDelimitedSsn (decodeSample (readSample file))) :
    scanFile file = .ok (ScanResult.mk true false true
      ("Sensitive data detected in " ++ file.name ++ ".")) := by
  rw [scanFile_of_passes file hpass, hclean, SSN_PATTERN_test_of_delimited _ hssn]
  rfl

/-- Witness for C2, amended: a PDF whose text is ` 123-45-6789 `. -/
theorem scanFile_flags_delimited_ssn_witness :
    PassesContainer
        { name := "w2.pdf", type := "application/pdf",
          bytes := [0x25, 0x50, 0x44, 0x46] ++ (" 123-45-6789 ".data.map Char.toNat) } ∧
    scanFile
        { name := "w2.pdf", type := "application/pdf",
          bytes := [0x25, 0x50, 0x44, 0x46] ++ (" 123-45-6789 ".data.map Char.toNat) }
      = .ok (ScanResult.mk true false true "Sensitive data detected in w2.pdf.") :=
  ⟨Or.inr ⟨{ type := "application/pdf", signature := .array [0x25, 0x50, 0x44, 0x46] }, rfl, rfl⟩,
   scanFile_flags_delimited_ssn
      { name := "w2.pdf", type := "application/pdf",
        bytes := [0x25, 0x50, 0x44, 0x46] ++ (" 123-45-6789 ".data.map Char.toNat) }
      (Or.inr ⟨{ type := "application/pdf", signature := .array [0x25, 0x50, 0x44, 0x46] },
        rfl, rfl⟩)
      rfl
      ⟨['%', 'P', 'D', 'F', ' '], ['1', '2', '3', '-', '4', '5', '-', '6', '7', '8', '9'], [' '],
        rfl, ⟨['1', '2', '3'], ['-'], ['4', '5'], ['-'], ['6', '7', '8', '9'], rfl, rfl,
        by decide, Or.inr rfl, rfl, by decide, Or.inr rfl, rfl, by decide⟩,
        Or.inr ⟨['%', 'P', 'D', 'F'], ' ', rfl, rfl⟩, Or.inr ⟨' ', [], rfl, rfl⟩⟩⟩

/-- C3: a file that passes container verification and whose decoded text holds
the string `EICAR-STANDARD-ANTIVIRUS-TEST-FILE` is rejected by `scanFile` with
`ok = false`, `malware = true` and `dlp = false`, whatever else the text holds
(an SSN-shaped pattern included); the message names the file. -/
theorem scanFile_rejects_malware_test (file : UploadFile) (hpass : PassesContainer file)
    (hhit : includes (decodeSample (readSample file)) EICAR_SIGNATURE = true) :
    scanFile file = .ok (ScanResult.mk false true false
        ("Malware test signature detected in " ++ file.name ++ ".")) ∧
      file.name.data <:+: ("Malware test signature detected in " ++ file.name ++ ".").data := by
  refine ⟨?_, name_infix_message _ _ _⟩
  rw [scanFile_of_passes file hpass, hhit]
  rfl

/-- Witness for C3: a PDF whose text holds an SSN and the test string. -/
theorem scanFile_rejects_malware_test_witness :
    PassesContainer
        { name := "w2.pdf", type := "application/pdf",
          bytes := [0x25, 0x50, 0x44, 0x46] ++
            (" 123-45-6789 EICAR-STANDARD-ANTIVIRUS-TEST-FILE".data.map Char.toNat) } ∧
    SSN_PATTERN_test (decodeSample (readSample
        { name := "w2.pdf", type := "application/pdf",
          bytes := [0x25, 0x50, 0x44, 0x46] ++
            (" 123-45-6789 EICAR-STANDARD-ANTIVIRUS-TEST-FILE".data.map Char.toNat) })) = true ∧
    scanFile
        { name := "w2.pdf", type := "application/pdf",
          bytes := [0x25, 0x50, 0x44, 0x46] ++
            (" 123-45-6789 EICAR-STANDARD-ANTIVIRUS-TEST-FILE".data.map Char.toNat) }
      = .ok (ScanResult.mk false true false "Malware test signature detected in w2.pdf.") :=
  ⟨Or.inr ⟨{ type := "application/pdf", signature := .array [0x25, 0x50, 0x44, 0x46] }, rfl, rfl⟩,
   rfl,
   (scanFile_rejects_malware_test
      { name := "w2.pdf", type := "application/pdf",
        bytes := [0x25, 0x50, 0x44, 0x46] ++
          (" 123-45-6789 EICAR-STANDARD-ANTIVIRUS-TEST-FILE".data.map Char.toNat) }
      (Or.inr ⟨{ type := "application/pdf", signature := .array [0x25, 0x50, 0x44, 0x46] },
        rfl, rfl⟩)
      rfl).1⟩

/-! ### Batches -/

theorem string_append_ne_empty (a b : String) (ha : a ≠ "") : a ++ b ≠ "" := by
  intro h
  apply ha
  have hd := congrArg String.data h
  rw [String.data_append] at hd
  have : a.data = [] := (List.append_eq_nil.mp hd).1
  exact String.ext this

theorem rejected_message (file : UploadFile) (r : ScanResult)
    (hr : scanFile file = .ok r) (hrej : r.ok = false) :
    r.message = "File signature mismatch detected in " ++ file.name ++ "." ∨
      r.message = "Malware test signature detected in " ++ file.name ++ "." := by
  unfold scanFile at hr
  simp only at hr
  split at hr
  · cases hr
  · cases hr; exact Or.inl rfl
  · split at hr
    · cases hr; exact Or.inr rfl
    · cases hr; simp at hrej

theorem rejected_message_ne_empty (file : UploadFile) (r : ScanResult)
    (hr : scanFile file = .ok r) (hrej : r.ok = false) : r.message ≠ "" := by
  rcases rejected_message file r hr hrej with h | h <;> rw [h, String.append_assoc] <;>
    exact string_append_ne_empty _ _ (by decide)

theorem rejected_message_names_file (file : UploadFile) (r : ScanResult)
    (hr : scanFile file = .ok r) (hrej : r.ok = false) : file.name.data <:+: r.message.data := by
  rcases rejected_message file r hr hrej with h | h <;> rw [h] <;>
    exact name_infix_message _ _ _

theorem scanLoop_blocked (total : Nat) (file : UploadFile) (after : List UploadFile)
    (r : ScanResult) (hr : scanFile file = .ok r) (hrej : r.ok = false) :
    ∀ (before : List UploadFile), (∀ g ∈ before, Accepted g) →
      ∀ (index dlpHits : Nat) (warnings : List String) (results : List ScanEntry)
        (progress : List String) (sampled : List UploadFile),
        (scanLoop total (before ++ file :: after) index dlpHits warnings results progress
            sampled).outcome
          = .ok (.blocked r.message (results ++ before.map entryOf ++ [entryOf file])) ∧
        (scanLoop total (before ++ file :: after) index dlpHits warnings results progress
            sampled).sampled = sampled ++ before ++ [file] := by
  intro before
  induction before with
  | nil =>
    intro _ index dlpHits warnings results progress sampled
    have hne := rejected_message_ne_empty file r hr hrej
    simp [scanLoop, hr, hrej, hne, entryOf]
  | cons g rest ih =>
    intro hacc index dlpHits warnings results progress sampled
    obtain ⟨rg, hg, hok⟩ := hacc g (List.mem_cons_self _ _)
    have hrest : ∀ x ∈ rest, Accepted x := fun x hx => hacc x (List.mem_cons_of_mem _ hx)
    have hentry : entryOf g = { name := g.name, ok := rg.ok, dlp := rg.dlp, message := rg.message } := by
      simp [entryOf, hg]
    simp only [List.cons_append, scanLoop, hg, hok, Bool.not_true, Bool.false_eq_true, if_false]
    split
    · have := ih hrest (index + 1) (dlpHits + 1) (warnings ++ [rg.message])
        (results ++ [{ name := g.name, ok := true, dlp := rg.dlp, message := rg.message }])
        (progress ++ ["Screening " ++ g.name ++ " (" ++ toString (index + 1) ++ " of " ++
            toString total ++ ")..."])
        (sampled ++ [g])
      simpa [hentry, hok, List.append_assoc] using this
    · have := ih hrest (index + 1) dlpHits warnings
        (results ++ [{ name := g.name, ok := true, dlp := rg.dlp, message := rg.message }])
        (progress ++ ["Screening " ++ g.name ++ " (" ++ toString (index + 1) ++ " of " ++
            toString total ++ ")..."])
        (sampled ++ [g])
      simpa [hentry, hok, List.append_assoc] using this

theorem entryOf_name (file : UploadFile) : (entryOf file).name = file.name := by
  unfold entryOf
  split <;> rfl

theorem entryOf_ok_of_accepted (file : UploadFile) (h : Accepted file) :
    (entryOf file).ok = true := by
  obtain ⟨r, hr, hok⟩ := h
  simp [entryOf, hr, hok]

theorem scanFiles_blocked (before : List UploadFile) (file : UploadFile)
    (after : List UploadFile) (r : ScanResult)
    (hbefore : ∀ g ∈ before, Accepted g) (hr : scanFile file = .ok r) (hrej : r.ok = false) :
    (scanFiles (before ++ file :: after)).outcome
        = .ok (.blocked r.message (before.map entryOf ++ [entryOf file])) ∧
      (scanFiles (before ++ file :: after)).sampled = before ++ [file] := by
  have hloop := scanLoop_blocked (before ++ file :: after).length file after r hr hrej before
    hbefore 0 0 [] [] [] []
  have hne : (before ++ file :: after).isEmpty = false := by
    cases before <;> rfl
  constructor
  · simpa [scanFiles, hne] using hloop.1
  · simpa [scanFiles, hne] using hloop.2

/-- C4: in a batch whose first rejected file is at position `k` (the files
before it are accepted), `scanFiles` returns `ok = false`; `results` has one
entry per file of the positions `1..k`, in the order of the input; the first
`k - 1` entries have `ok = true` and the last has `ok = false`; no file after
position `k` is read; the message returned is the message of the rejected file,
and it contains the name of that file. -/
theorem scanFiles_stops_at_first_rejection (before : List UploadFile) (file : UploadFile)
    (after : List UploadFile) (r : ScanResult)
    (hbefore : ∀ g ∈ before, Accepted g) (hr : scanFile file = .ok r) (hrej : r.ok = false) :
    ∃ results,
      (scanFiles (before ++ file :: after)).outcome = .ok (.blocked r.message results) ∧
      (ScanBatch.blocked r.message results).ok = false ∧
      results.length = before.length + 1 ∧
      results.map (fun e => e.name) = (before ++ [file]).map (fun f => f.name) ∧
      (∀ e ∈ results.take before.length, e.ok = true) ∧
      (results.drop before.length).map (fun e => e.ok) = [false] ∧
      (scanFiles (before ++ file :: after)).sampled = before ++ [file] ∧
      file.name.data <:+: r.message.data := by
  have hblocked := scanFiles_blocked before file after r hbefore hr hrej
  have hfile : (entryOf file).ok = false := by simp [entryOf, hr, hrej]
  refine ⟨before.map entryOf ++ [entryOf file], hblocked.1, rfl, ?_, ?_, ?_, ?_, hblocked.2,
    rejected_message_names_file file r hr hrej⟩
  · simp
  · simp [entryOf_name, Function.comp_def]
  · intro e he
    rw [List.take_append_of_le_length (by simp)] at he
    have he' : e ∈ before.map entryOf := by
      have := List.mem_of_mem_take he
      exact this
    obtain ⟨g, hg, rfl⟩ := List.mem_map.mp he'
    exact entryOf_ok_of_accepted g (hbefore g hg)
  · have hlen : before.length = (before.map entryOf).length := by simp
    rw [hlen, List.drop_left]
    simp [hfile]

/-- Witness for C4: a batch of three PDF files of which the second is not a PDF. -/
theorem scanFiles_stops_at_first_rejection_witness :
    (scanFiles
      [{ name := "w2.pdf", type := "application/pdf", bytes := [0x25, 0x50, 0x44, 0x46] },
       { name := "1099.pdf", type := "application/pdf", bytes := [0x4d, 0x5a] },
       { name := "id.pdf", type := "application/pdf", bytes := [0x25, 0x50, 0x44, 0x46] }]).sampled
      = [{ name := "w2.pdf", type := "application/pdf", bytes := [0x25, 0x50, 0x44, 0x46] },
         { name := "1099.pdf", type := "application/pdf", bytes := [0x4d, 0x5a] }] := by
  obtain ⟨_, _, _, _, _, _, _, h, _⟩ := scanFiles_stops_at_first_rejection
    [{ name := "w2.pdf", type := "application/pdf", bytes := [0x25, 0x50, 0x44, 0x46] }]
    { name := "1099.pdf", type := "application/pdf", bytes := [0x4d, 0x5a] }
    [{ name := "id.pdf", type := "application/pdf", bytes := [0x25, 0x50, 0x44, 0x46] }]
    (ScanResult.mk false true false "File signature mismatch detected in 1099.pdf.")
    (by
      intro g hg
      rw [List.mem_singleton] at hg
      subst hg
      exact ⟨ScanResult.mk true false false "", rfl, rfl⟩)
    rfl rfl
  exact h

end UploadSecurity
end TaxAgent

namespace TaxAgent

/-! ## Properties of the batch uploads -/

namespace Upload

open UploadSecurity

theorem scanLoop_not_passed (total : Nat) :
    ∀ (files : List UploadFile), (∃ f ∈ files, Rejected f) →
      ∀ (index dlpHits : Nat) (warnings : List String) (results : List ScanEntry)
        (progress : List String) (sampled : List UploadFile) (d : Nat) (w : List String)
        (rs : List ScanEntry),
        (scanLoop total files index dlpHits warnings results progress sampled).outcome
          ≠ .ok (.passed d w rs) := by
  intro files
  induction files with
  | nil => intro h; obtain ⟨f, hf, _⟩ := h; cases hf
  | cons g rest ih =>
    intro h index dlpHits warnings results progress sampled d w rs
    unfold scanLoop
    simp only
    cases hg : scanFile g with
    | error err => simp
    | ok rg =>
      simp only
      cases hok : rg.ok with
      | false => simp
      | true =>
        have hrest : ∃ f ∈ rest, Rejected f := by
          obtain ⟨f, hf, r, hr, hrej⟩ := h
          rcases List.mem_cons.mp hf with heq | hmem
          · subst heq
            rw [hg] at hr
            cases hr
            rw [hok] at hrej
            cases hrej
          · exact ⟨f, hmem, r, hr, hrej⟩
        simp only [Bool.not_true, Bool.false_eq_true, if_false]
        split
        · exact ih hrest _ _ _ _ _ _ d w rs
        · exact ih hrest _ _ _ _ _ _ d w rs

theorem scanFiles_not_passed (files : List UploadFile) (h : ∃ f ∈ files, Rejected f)
    (d : Nat) (w : List String) (rs : List ScanEntry) :
    (scanFiles files).outcome ≠ .ok (.passed d w rs) := by
  unfold scanFiles
  split
  · rename_i hempty
    obtain ⟨f, hf, _⟩ := h
    have : files = [] := List.isEmpty_iff.mp hempty
    subst this
    cases hf
  · exact scanLoop_not_passed _ files h _ _ _ _ _ _ d w rs

end Upload

namespace Vault

open UploadSecurity Upload

theorem uploadFiles_stored_of_not_passed (env : UploadEnv) (hasMessageElement : Bool)
    (context : UploadContext) (files : List UploadFile) (page : Page)
    (h : ∀ d w rs, (scanFiles files).outcome ≠ .ok (.passed d w rs)) :
    (uploadFiles env hasMessageElement context files page).page.stored = page.stored := by
  cases hout : (scanFiles files).outcome with
  | error err =>
    unfold uploadFiles
    simp only [hout]
    repeat' split
    all_goals rfl
  | ok batch =>
    cases batch with
    | blocked message results =>
      unfold uploadFiles
      simp only [hout]
      repeat' split
      all_goals rfl
    | passed d w rs => exact absurd hout (h d w rs)

theorem uploadFiles_blocked_message (env : UploadEnv) (context : UploadContext)
    (files : List UploadFile) (page : Page) (message : String) (results : List ScanEntry)
    (hkey : context.usernameKey ≠ "")
    (hnames : ∀ f ∈ files, getDocumentNameError f = "")
    (hallowed : ∀ f ∈ files, env.allowedTypes.contains f.type = true ∧ f.size ≤ env.maxUploadSize)
    (hscan : (scanFiles files).outcome = .ok (.blocked message results))
    (hmsg : message ≠ "") :
    (uploadFiles env true context files page).page.message = (message, "error") ∧
      (uploadFiles env true context files page).thrown = none := by
  have hnonempty : files.isEmpty = false := by
    cases files with
    | nil => simp [scanFiles] at hscan
    | cons _ _ => rfl
  have hfind1 : files.find? (fun file => getDocumentNameError file != "") = none := by
    rw [List.find?_eq_none]
    intro f hf
    simp [hnames f hf]
  have hfind2 : files.find? (fun file =>
      !env.allowedTypes.contains file.type || decide (file.size > env.maxUploadSize)) = none := by
    rw [List.find?_eq_none]
    intro f hf
    have := hallowed f hf
    have hmem : f.type ∈ env.allowedTypes := by simpa using this.1
    simp [hmem, Nat.not_lt.mpr this.2]
  unfold uploadFiles
  simp only [Bool.not_true, Bool.false_eq_true, if_false, hkey, hnonempty, hfind1, hfind2,
    hscan, hmsg]
  simp

end Vault

namespace App

open UploadSecurity Upload

theorem uploadIntakeDocuments_stored_of_not_passed (env : UploadEnv) (context : UploadContext)
    (files : List UploadItem) (stored : Stored)
    (h : ∀ d w rs, (scanFiles (files.map fun item => item.file)).outcome ≠ .ok (.passed d w rs)) :
    (uploadIntakeDocuments env context files stored).stored = stored := by
  cases hout : (scanFiles (files.map fun item => item.file)).outcome with
  | error err =>
    unfold uploadIntakeDocuments
    simp only [hout]
    repeat' split
    all_goals rfl
  | ok batch =>
    cases batch with
    | blocked message results =>
      unfold uploadIntakeDocuments
      simp only [hout]
      repeat' split
      all_goals rfl
    | passed d w rs => exact absurd hout (h d w rs)

theorem uploadIntakeDocuments_blocked_message (env : UploadEnv) (context : UploadContext)
    (userId : String) (files : List UploadItem) (stored : Stored) (message : String)
    (results : List ScanEntry)
    (hsupabase : env.supabase = true) (huser : context.user = some userId)
    (hkey : context.usernameKey ≠ "")
    (hallowed : ∀ i ∈ files,
      env.allowedTypes.contains i.file.type = true ∧ i.file.size ≤ env.maxUploadSize)
    (hscan : (scanFiles (files.map fun item => item.file)).outcome
      = .ok (.blocked message results))
    (hmsg : message ≠ "") :
    (uploadIntakeDocuments env context files stored).outcome = .ok (.failed message) := by
  have hnonempty : files.isEmpty = false := by
    cases files with
    | nil => simp [scanFiles] at hscan
    | cons _ _ => rfl
  have hfind : files.find? (fun item =>
      !env.allowedTypes.contains item.file.type ||
        decide (item.file.size > env.maxUploadSize)) = none := by
    rw [List.find?_eq_none]
    intro i hi
    have := hallowed i hi
    have hmem : i.file.type ∈ env.allowedTypes := by simpa using this.1
    simp [hmem, Nat.not_lt.mpr this.2]
  unfold uploadIntakeDocuments
  simp only [hnonempty, Bool.false_eq_true, if_false, hsupabase, Bool.not_true, huser, hkey,
    hfind, hscan, hmsg]

end App

namespace Upload

open UploadSecurity

/-- C5: when some file of a batch is rejected by screening, `uploadFiles` (client
vault) and `uploadIntakeDocuments` (intake form) write no file of the batch to
the object store and request no upload record: what is stored is what was
stored before, the files scanned with success before the rejected one included. -/
theorem rejected_batch_stores_nothing (env : UploadEnv) (context : UploadContext) :
    (∀ (files : List UploadFile) (hasMessageElement : Bool) (page : Vault.Page),
      (∃ f ∈ files, Rejected f) →
      (Vault.uploadFiles env hasMessageElement context files page).page.stored = page.stored) ∧
    (∀ (items : List App.UploadItem) (stored : Stored),
      (∃ i ∈ items, Rejected i.file) →
      (App.uploadIntakeDocuments env context items stored).stored = stored) := by
  constructor
  · intro files hasMessageElement page h
    exact Vault.uploadFiles_stored_of_not_passed env hasMessageElement context files page
      (scanFiles_not_passed files h)
  · intro items stored h
    apply App.uploadIntakeDocuments_stored_of_not_passed
    apply scanFiles_not_passed
    obtain ⟨i, hi, hrej⟩ := h
    exact ⟨i.file, List.mem_map.mpr ⟨i, hi, rfl⟩, hrej⟩

/-- Witness for C5: a batch of three files whose second file is a spoofed PDF. -/
theorem rejected_batch_stores_nothing_witness :
    Rejected sampleSpoofed ∧
    (Vault.uploadFiles sampleEnv true sampleContext [sampleW2, sampleSpoofed, sampleId]
      { stored := { objects := [], records := [] }, message := ("", ""), progress := "" }).page.stored
      = { objects := [], records := [] } ∧
    (App.uploadIntakeDocuments sampleEnv sampleContext
      [{ file := sampleW2, label := "W-2" }, { file := sampleSpoofed, label := "1099" }]
      { objects := [], records := [] }).stored = { objects := [], records := [] } :=
  ⟨⟨_, rfl, rfl⟩,
   (rejected_batch_stores_nothing sampleEnv sampleContext).1
      [sampleW2, sampleSpoofed, sampleId] true
      { stored := { objects := [], records := [] }, message := ("", ""), progress := "" }
      ⟨sampleSpoofed, by simp, _, rfl, rfl⟩,
   (rejected_batch_stores_nothing sampleEnv sampleContext).2
      [{ file := sampleW2, label := "W-2" }, { file := sampleSpoofed, label := "1099" }]
      { objects := [], records := [] }
      ⟨{ file := sampleSpoofed, label := "1099" }, by simp, _, rfl, rfl⟩⟩

/-- C6, as the claim states it, fails: in the batch of three files whose second
file fails signature verification, the first file is accepted and the second is
the first to fail, the message shown names the second file, yet the first file
is neither stored nor recorded: nothing is. -/
theorem batch_upload_not_partial :
    Accepted sampleW2 ∧ SignatureMismatch sampleSpoofed ∧
    (Vault.uploadFiles sampleEnv true sampleContext [sampleW2, sampleSpoofed, sampleId]
      { stored := { objects := [], records := [] }, message := ("", ""), progress := "" }).page
      = { stored := { objects := [], records := [] },
          message := ("File signature mismatch detected in 1099.pdf.", "error"),
          progress := "" } ∧
    ¬ ((Vault.uploadFiles sampleEnv true sampleContext [sampleW2, sampleSpoofed, sampleId]
      { stored := { objects := [], records := [] }, message := ("", ""),
        progress := "" }).page.stored.objects.map Prod.snd = [sampleW2]) := by
  refine ⟨⟨_, rfl, rfl⟩, ⟨_, _, rfl, rfl, by decide⟩, rfl, ?_⟩
  decide

theorem scanFile_of_signatureMismatch (file : UploadFile) (h : SignatureMismatch file) :
    scanFile file = .ok (ScanResult.mk false true false
      ("File signature mismatch detected in " ++ file.name ++ ".")) := by
  obtain ⟨e, sig, hexp, hsig, hne⟩ := h
  exact scanFile_of_mismatch file e sig hexp hsig hne

/-- C6, amended: in a batch upload in which file `k` is the first file to fail
signature verification, no file of the batch is stored or recorded, neither the
`k - 1` files before it nor file `k` nor a later file; when the batch reaches
screening, the message reported is the signature-mismatch message of file `k`,
which contains its name (for a batch of 3 with file 2 failing: nothing is
recorded and the message names file 2). -/
theorem signature_failure_stores_nothing (env : UploadEnv) (context : UploadContext)
    (before : List UploadFile) (file : UploadFile) (after : List UploadFile)
    (hbefore : ∀ g ∈ before, Accepted g) (hfile : SignatureMismatch file) :
    (∀ (hasMessageElement : Bool) (page : Vault.Page),
      (Vault.uploadFiles env hasMessageElement context (before ++ file :: after) page).page.stored
        = page.stored) ∧
    (∀ (items : List App.UploadItem) (stored : Stored),
      items.map (fun item => item.file) = before ++ file :: after →
      (App.uploadIntakeDocuments env context items stored).stored = stored) ∧
    (∀ (page : Vault.Page), context.usernameKey ≠ "" →
      (∀ f ∈ before ++ file :: after, Vault.getDocumentNameError f = "") →
      (∀ f ∈ before ++ file :: after,
        env.allowedTypes.contains f.type = true ∧ f.size ≤ env.maxUploadSize) →
      (Vault.uploadFiles env true context (before ++ file :: after) page).page.message
        = ("File signature mismatch detected in " ++ file.name ++ ".", "error")) ∧
    (∀ (items : List App.UploadItem) (stored : Stored) (userId : String),
      items.map (fun item => item.file) = before ++ file :: after →
      env.supabase = true → context.user = some userId → context.usernameKey ≠ "" →
      (∀ i ∈ items, env.allowedTypes.contains i.file.type = true ∧
        i.file.size ≤ env.maxUploadSize) →
      (App.uploadIntakeDocuments env context items stored).outcome
        = .ok (.failed ("File signature mismatch detected in " ++ file.name ++ "."))) ∧
    file.name.data <:+: ("File signature mismatch detected in " ++ file.name ++ ".").data := by
  have hscan := scanFile_of_signatureMismatch file hfile
  have hrej : ∃ f ∈ before ++ file :: after, Rejected f :=
    ⟨file, by simp, _, hscan, rfl⟩
  have hblocked := (scanFiles_blocked before file after _ hbefore hscan rfl).1
  have hmsg : "File signature mismatch detected in " ++ file.name ++ "." ≠ "" := by
    rw [String.append_assoc]
    exact string_append_ne_empty _ _ (by decide)
  refine ⟨?_, ?_, ?_, ?_, name_infix_message _ _ _⟩
  · intro hasMessageElement page
    exact Vault.uploadFiles_stored_of_not_passed env hasMessageElement context _ page
      (scanFiles_not_passed _ hrej)
  · intro items stored hitems
    apply App.uploadIntakeDocuments_stored_of_not_passed
    rw [hitems]
    exact scanFiles_not_passed _ hrej
  · intro page hkey hnames hallowed
    exact (Vault.uploadFiles_blocked_message env context _ page _ _ hkey hnames hallowed
      hblocked hmsg).1
  · intro items stored userId hitems hsupabase huser hkey hallowed
    exact App.uploadIntakeDocuments_blocked_message env context userId items stored _ _
      hsupabase huser hkey hallowed (by rw [hitems]; exact hblocked) hmsg

/-- Witness for C6, amended: the batch of three files whose second file is a
spoofed PDF. -/
theorem signature_failure_stores_nothing_witness :
    (∀ g ∈ [sampleW2], Accepted g) ∧ SignatureMismatch sampleSpoofed ∧
    (Vault.uploadFiles sampleEnv true sampleContext ([sampleW2] ++ sampleSpoofed :: [sampleId])
      { stored := { objects := [], records := [] }, message := ("", ""), progress := "" }).page.stored
      = { objects := [], records := [] } :=
  ⟨by intro g hg; rw [List.mem_singleton] at hg; subst hg; exact ⟨_, rfl, rfl⟩,
   ⟨_, _, rfl, rfl, by decide⟩,
   (signature_failure_stores_nothing sampleEnv sampleContext [sampleW2] sampleSpoofed [sampleId]
      (by intro g hg; rw [List.mem_singleton] at hg; subst hg; exact ⟨_, rfl, rfl⟩)
      ⟨_, _, rfl, rfl, by decide⟩).1 true
      { stored := { objects := [], records := [] }, message := ("", ""), progress := "" }⟩

end Upload

end TaxAgent

namespace TaxAgent

/-! ## Properties of the intake endpoints -/

namespace Server

/-- C8: a status change (`PATCH /api/intake/status`) attempted by an
authenticated identity that is not an authorised preparer is answered with 403
and leaves the store as it was: the review status and the review notes of every
record are unchanged. -/
theorem status_change_requires_preparer (env : Env) (moment : Moment) (authorization : String)
    (body : RequestBody) (store : Store) (user : SupabaseUser)
    (hauth : authenticate env authorization = .ok user)
    (hnot : isPreparerAllowed env user.email = false) :
    patchIntakeStatusRoute env moment authorization body store
      = (store, { status := 403, body := .error "Access restricted." }) := by
  have hguard : requirePreparerAuth env authorization
      = .error { status := 403, body := .error "Access restricted." } := by
    unfold requirePreparerAuth
    rw [hauth]
    simp [hnot]
  unfold patchIntakeStatusRoute
  rw [hguard]

/-- Witness for C8: a signed-in client asks for the status `filed`. -/
theorem status_change_requires_preparer_witness :
    authenticate sampleEnv "Bearer client-token"
      = .ok { id := "user-1", email := "ada@example.com" } ∧
    isPreparerAllowed sampleEnv "ada@example.com" = false ∧
    patchIntakeStatusRoute sampleEnv sampleMoment "Bearer client-token"
        { review_status := .str "filed", intake_id := .num 1 }
        { emptyStore with intakes := [blankRow 1] }
      = ({ emptyStore with intakes := [blankRow 1] },
         { status := 403, body := .error "Access restricted." }) :=
  ⟨rfl, rfl,
   status_change_requires_preparer sampleEnv sampleMoment "Bearer client-token"
     { review_status := .str "filed", intake_id := .num 1 }
     { emptyStore with intakes := [blankRow 1] }
     { id := "user-1", email := "ada@example.com" } rfl rfl⟩

theorem postIntake_without_client_user_id (env : Env) (moment : Moment) (body : RequestBody)
    (store : Store) (h : cleanText body.client_user_id = none) :
    postIntake env moment body store = (store, serverError) := by
  simp [postIntake, postIntakeTry, h, bind, Except.bind, throw, throwThe, MonadExceptOf.throw]

theorem postIntake_persists (env : Env) (moment : Moment) (body : RequestBody) (store : Store)
    (uid fn ln dob email phone fs : String) (y : Int) (est : Option Estimate)
    (hid : cleanText body.client_user_id = some uid)
    (hfn : cleanText body.first_name = some fn) (hln : cleanText body.last_name = some ln)
    (hdob : cleanText body.dob = some dob) (hemail : cleanText body.email = some email)
    (hphone : cleanText body.phone = some phone)
    (hfs : cleanText body.filing_status = some fs)
    (hconsent : consentGiven body.consent = true)
    (hssn : (normalizeSsn body.ssn).length = 0 ∨ (normalizeSsn body.ssn).length = 9)
    (hpin : (normalizeIpPin body.ip_pin).length = 0 ∨ (normalizeIpPin body.ip_pin).length = 6)
    (hyear : toNullableInt body.filing_year = some y) (hlo : 2000 ≤ y) (hhi : y ≤ 2100)
    (hdep : toNullableInt body.dependents = none ∨
      ∃ d, toNullableInt body.dependents = some d ∧ 0 ≤ d ∧ d ≤ 20)
    (hest : env.computeEstimate y fs body = .ok est)
    (hup : moment.storeUp = true) (hacc : ∀ row, moment.storeAccepts row = true) :
    ∃ row, (postIntake env moment body store).1.intakes = store.intakes ++ [row] ∧
      row.id = store.nextId ∧ row.review_status = some "received" ∧
      row.client_user_id = some uid ∧ row.email = some email ∧
      (postIntake env moment body store).2
        = { status := 200, body := .okId (some store.nextId) } := by
  have hy0 : (some y == some (0 : Int)) = false := by
    have : y ≠ 0 := by omega
    simp [this]
  have hylo : decide (y < 2000) = false := by simp; omega
  have hyhi : decide (y > 2100) = false := by simp; omega
  have hs : ((normalizeSsn body.ssn).length != 0 && (normalizeSsn body.ssn).length != 9) = false := by
    rcases hssn with h | h <;> simp [h]
  have hp : ((normalizeIpPin body.ip_pin).length != 0 && (normalizeIpPin body.ip_pin).length != 6) = false := by
    rcases hpin with h | h <;> simp [h]
  have hd : ((toNullableInt body.dependents).isSome &&
      (decide ((toNullableInt body.dependents).getD 0 < 0) ||
        decide ((toNullableInt body.dependents).getD 0 > 20))) = false := by
    rcases hdep with h | ⟨d, h, h0, h20⟩
    · simp [h]
    · simp [h]; omega
  unfold postIntake postIntakeTry
  simp only [hid, hfn, hln, hdob, hemail, hphone, hfs, hconsent, hs, hp, hd, hyear, hy0, hylo, hyhi,
    hest, hup, hacc, bind, Except.bind, pure, Except.pure, Option.isNone_some, Bool.or_false,
    Bool.not_true, Bool.false_eq_true, if_false, Option.getD_some, Bool.or_self]
  simp [logAuditEvent]
  split <;> simp

/-- C10, where the code departs from the specification: a submission whose
body carries no usable `client_user_id` is answered with 500 `Server error.` and
nothing is persisted, whatever its other fields are, because the handler reads
the undeclared identifier `uploaderRole`; the specification promises
`{ok: true, id}` and one stored record for every valid submission, with or
without a `client_user_id`. -/
theorem submit_without_client_user_id_fails (env : Env) (moment : Moment) (body : RequestBody)
    (store : Store) (h : cleanText body.client_user_id = none) :
    postIntake env moment body store
      = (store, { status := 500, body := .error "Server error." }) :=
  postIntake_without_client_user_id env moment body store h

/-- Witness for C10: the valid submission of the scenario of the specification
is answered with 500 and nothing is stored; the same body with a
`client_user_id` is stored with the status `received` and answered with its
identifier. -/
theorem submit_without_client_user_id_fails_witness :
    cleanText sampleSubmission.client_user_id = none ∧
    postIntake sampleEnv sampleMoment sampleSubmission emptyStore
      = (emptyStore, { status := 500, body := .error "Server error." }) ∧
    (postIntake sampleEnv sampleMoment
      { sampleSubmission with client_user_id := .str "user-1" } emptyStore).2
      = { status := 200, body := .okId (some 1) } ∧
    (postIntake sampleEnv sampleMoment
      { sampleSubmission with client_user_id := .str "user-1" } emptyStore).1.intakes.map
        (fun row => row.review_status) = [some "received"] :=
  ⟨rfl,
   submit_without_client_user_id_fails sampleEnv sampleMoment sampleSubmission emptyStore rfl,
   rfl, rfl⟩

/-! ### The preparer check -/

set_option maxRecDepth 20000 in
theorem toLowerCase_beyond_ascii :
    toLowerCase "ÀDA@X.COM" = "àda@x.com" ∧ toLowerCase "ΟΔΟΣ ΣΟΦΙΑ" = "οδος σοφια" ∧
    toLowerCase "İstanbul" = "i̇stanbul" :=
  ⟨by decide, by decide, by decide⟩

theorem normalizeEmail_beyond_ascii :
    normalizeEmail " ÀDA@X.COM " = normalizeEmail "àda@x.com" := by
  decide


theorem normalizeEmail_eq (email : String) : normalizeEmail email = toLowerCase (trim email) := by
  unfold normalizeEmail
  split
  · rename_i h
    subst h
    rfl
  · rfl

theorem endsWith_empty (ending : String) (h : ending ≠ "") : endsWith "" ending = false := by
  unfold endsWith
  have hd : ending.data ≠ [] := fun hnil => h (String.ext hnil)
  cases hdata : ending.data with
  | nil => exact absurd hdata hd
  | cons c cs =>
    rw [Bool.eq_false_iff]
    intro hs
    have := List.isSuffixOf_iff_suffix.mp hs
    have hlen := this.length_le
    simp at hlen

theorem at_domain_ne_empty (domain : String) : "@" ++ domain ≠ "" :=
  UploadSecurity.string_append_ne_empty _ _ (by decide)

theorem not_mem_configuredAllowList_empty (env : Env) : "" ∉ configuredAllowList env := by
  unfold configuredAllowList
  intro h
  have := (List.mem_filter.mp h).2
  simp at this

theorem isPreparerAllowed_of_domain (env : Env) (email : String)
    (hdomain : configuredDomain env ≠ "") :
    isPreparerAllowed env email
      = endsWith (toLowerCase (trim email)) ("@" ++ configuredDomain env) := by
  unfold isPreparerAllowed
  simp only [normalizeEmail_eq, hdomain, ne_eq, not_false_eq_true, if_true]
  split
  · rename_i h
    rw [h, endsWith_empty _ (at_domain_ne_empty _)]
  · rfl

theorem isPreparerAllowed_of_list (env : Env) (email : String)
    (hdomain : configuredDomain env = "") :
    isPreparerAllowed env email = true ↔ toLowerCase (trim email) ∈ configuredAllowList env := by
  unfold isPreparerAllowed
  simp only [normalizeEmail_eq, hdomain, ne_eq, not_true_eq_false, if_false]
  split
  · rename_i h
    rw [h]
    simp [not_mem_configuredAllowList_empty env]
  · split
    · rename_i hempty
      have : configuredAllowList env = [] := List.isEmpty_iff.mp hempty
      simp [this]
    · simp

/-- C9: `isPreparerAllowed` never allows an email that is empty once trimmed
and lower-cased; when an email domain is configured, it allows exactly the
identities whose trimmed, lower-cased email ends with `@` followed by that
domain, and the allow-list plays no part; when no domain is configured, it
allows exactly the identities whose normalised email is a member of the
allow-list; with neither configured it allows nobody. -/
theorem isPreparerAllowed_decision (env : Env) (email : String) :
    (toLowerCase (trim email) = "" → isPreparerAllowed env email = false) ∧
    (configuredDomain env ≠ "" →
      (isPreparerAllowed env email = true ↔
        endsWith (toLowerCase (trim email)) ("@" ++ configuredDomain env) = true)) ∧
    (configuredDomain env ≠ "" → ∀ list : String,
      isPreparerAllowed { env with preparerEmailList := list } email
        = isPreparerAllowed env email) ∧
    (configuredDomain env = "" →
      (isPreparerAllowed env email = true ↔
        toLowerCase (trim email) ∈ configuredAllowList env)) ∧
    (configuredDomain env = "" → configuredAllowList env = [] →
      isPreparerAllowed env email = false) := by
  refine ⟨?_, ?_, ?_, ?_, ?_⟩
  · intro h
    unfold isPreparerAllowed
    simp [normalizeEmail_eq, h]
  · intro hdomain
    rw [isPreparerAllowed_of_domain env email hdomain]
  · intro hdomain list
    have hsame : configuredDomain { env with preparerEmailList := list } = configuredDomain env :=
      rfl
    rw [isPreparerAllowed_of_domain env email hdomain,
      isPreparerAllowed_of_domain _ email (by rw [hsame]; exact hdomain), hsame]
  · intro hdomain
    exact isPreparerAllowed_of_list env email hdomain
  · intro hdomain hlist
    rw [Bool.eq_false_iff]
    intro h
    have := (isPreparerAllowed_of_list env email hdomain).mp h
    rw [hlist] at this
    cases this

/-- Witness for C9: with the domain `@Example.com` configured, an address of
that domain is allowed although the allow-list does not hold it, and an address
of the allow-list is refused; with the list alone, its member is allowed, in
whatever case its letters are written, the letters beyond ASCII included. -/
theorem isPreparerAllowed_decision_witness :
    configuredDomain { sampleEnv with preparerEmailDomain := "@Example.com",
                                      preparerEmailList := "bob@other.org" } = "example.com" ∧
    isPreparerAllowed { sampleEnv with preparerEmailDomain := "@Example.com",
                                       preparerEmailList := "bob@other.org" }
      " Ada@EXAMPLE.com " = true ∧
    isPreparerAllowed { sampleEnv with preparerEmailDomain := "@Example.com",
                                       preparerEmailList := "bob@other.org" }
      "bob@other.org" = false ∧
    isPreparerAllowed { sampleEnv with preparerEmailList := "bob@other.org" }
      "Bob@Other.org" = true ∧
    isPreparerAllowed { sampleEnv with preparerEmailList := "ÀDA@x.com" }
      "àda@x.com" = true :=
  ⟨rfl,
   ((isPreparerAllowed_decision
      { sampleEnv with preparerEmailDomain := "@Example.com", preparerEmailList := "bob@other.org" }
      " Ada@EXAMPLE.com ").2.1 (by decide)).mpr rfl,
   rfl,
   ((isPreparerAllowed_decision { sampleEnv with preparerEmailList := "bob@other.org" }
      "Bob@Other.org").2.2.2.1 rfl).mpr (by decide),
   ((isPreparerAllowed_decision { sampleEnv with preparerEmailList := "ÀDA@x.com" }
      "àda@x.com").2.2.2.1 rfl).mpr (by decide)⟩

/-! ### Ownership of an update -/

theorem patchIntake_forbidden (env : Env) (moment : Moment) (user : SupabaseUser)
    (body : RequestBody) (store : Store) (intakeId : Int) (row : IntakeRow)
    (hid : toNullableInt body.intake_id = some intakeId) (hnz : intakeId ≠ 0)
    (hup : moment.storeUp = true)
    (hrow : store.intakes.find? (fun r => r.id == intakeId) = some row)
    (hmismatch :
      (truthy row.client_user_id = true ∧ row.client_user_id ≠ cleanText (.str user.id)) ∨
      (truthy row.client_user_id = false ∧ normalizeEmail (row.email.getD "") ≠ "" ∧
        normalizeEmail (row.email.getD "") ≠ normalizeEmail user.email)) :
    patchIntake env moment user body store
      = (store, { status := 403, body := .error "Unauthorized update." }) := by
  have hnz' : (some intakeId == some (0 : Int)) = false := by
    simp [hnz]
  unfold patchIntake patchIntakeTry
  simp only [hid, Option.isNone_some, hnz', Bool.or_false, Bool.false_eq_true, if_false,
    Option.getD_some, hup, Bool.not_true, hrow]
  rcases hmismatch with ⟨h1, h2⟩ | ⟨h1, h2, h3⟩
  · simp [h1, h2, bind, Except.bind, pure, Except.pure]
  · simp [h1, h2, h3, bind, Except.bind, pure, Except.pure]

/-- C7, as the claim states it, fails: the record has no owning user id and no
email, so that its normalised email (empty) differs from the normalised email
of the requester; the request of the signed-in client is not answered with 403
but, its fields being valid, with 404, and the record is unchanged. -/
theorem update_without_owner_email_not_forbidden :
    requireSupabaseAuth sampleEnv "Bearer client-token"
      = .ok { id := "user-1", email := "ada@example.com" } ∧
    truthy (blankRow 1).client_user_id = false ∧
    normalizeEmail ((blankRow 1).email.getD "") ≠ normalizeEmail "ada@example.com" ∧
    patchIntakeRoute sampleEnv sampleMoment "Bearer client-token"
        { sampleSubmission with intake_id := .num 1 }
        { emptyStore with intakes := [blankRow 1] }
      = ({ emptyStore with intakes := [blankRow 1] },
         { status := 404, body := .error "Intake record not found." }) := by
  refine ⟨rfl, rfl, by decide, rfl⟩

/-- C7, amended: for every update request (`PATCH /api/intake`) on an existing
record, if the record has an owning user id that differs from the user id of
the requester, or the record has no owning user id and its normalised email is
not empty and differs from the normalised email of the requester, the response
is 403 and the store is left as it was: no field of the record is changed. -/
theorem update_by_other_identity_forbidden (env : Env) (moment : Moment)
    (authorization : String) (user : SupabaseUser) (body : RequestBody) (store : Store)
    (intakeId : Int) (row : IntakeRow)
    (hauth : requireSupabaseAuth env authorization = .ok user)
    (hid : toNullableInt body.intake_id = some intakeId) (hnz : intakeId ≠ 0)
    (hup : moment.storeUp = true)
    (hrow : store.intakes.find? (fun r => r.id == intakeId) = some row)
    (hmismatch :
      (truthy row.client_user_id = true ∧ row.client_user_id ≠ cleanText (.str user.id)) ∨
      (truthy row.client_user_id = false ∧ normalizeEmail (row.email.getD "") ≠ "" ∧
        normalizeEmail (row.email.getD "") ≠ normalizeEmail user.email)) :
    patchIntakeRoute env moment authorization body store
      = (store, { status := 403, body := .error "Unauthorized update." }) := by
  unfold patchIntakeRoute
  rw [hauth]
  exact patchIntake_forbidden env moment user body store intakeId row hid hnz hup hrow hmismatch

/-- Witness for C7, amended: a record owned by the email `bob@example.com` and a
record owned by the user `user-2`, each updated by the signed-in `user-1`. -/
theorem update_by_other_identity_forbidden_witness :
    patchIntakeRoute sampleEnv sampleMoment "Bearer client-token"
        { sampleSubmission with intake_id := .num 1 }
        { emptyStore with intakes := [{ blankRow 1 with email := some "Bob@example.com" }] }
      = ({ emptyStore with intakes := [{ blankRow 1 with email := some "Bob@example.com" }] },
         { status := 403, body := .error "Unauthorized update." }) ∧
    patchIntakeRoute sampleEnv sampleMoment "Bearer client-token"
        { sampleSubmission with intake_id := .num 1 }
        { emptyStore with intakes := [{ blankRow 1 with client_user_id := some "user-2",
                                                        email := some "ada@example.com" }] }
      = ({ emptyStore with intakes := [{ blankRow 1 with client_user_id := some "user-2",
                                                         email := some "ada@example.com" }] },
         { status := 403, body := .error "Unauthorized update." }) :=
  ⟨update_by_other_identity_forbidden sampleEnv sampleMoment "Bearer client-token"
      { id := "user-1", email := "ada@example.com" }
      { sampleSubmission with intake_id := .num 1 }
      { emptyStore with intakes := [{ blankRow 1 with email := some "Bob@example.com" }] }
      1 { blankRow 1 with email := some "Bob@example.com" }
      rfl rfl (by decide) rfl rfl (Or.inr ⟨rfl, by decide, by decide⟩),
   update_by_other_identity_forbidden sampleEnv sampleMoment "Bearer client-token"
      { id := "user-1", email := "ada@example.com" }
      { sampleSubmission with intake_id := .num 1 }
      { emptyStore with intakes := [{ blankRow 1 with client_user_id := some "user-2",
                                                      email := some "ada@example.com" }] }
      1 { blankRow 1 with client_user_id := some "user-2", email := some "ada@example.com" }
      rfl rfl (by decide) rfl rfl (Or.inl ⟨rfl, by decide⟩)⟩

set_option maxRecDepth 20000 in
theorem update_by_owner_in_other_case :
    normalizeEmail "ÀDA@X.COM" = "àda@x.com" ∧
    (patchIntakeRoute
        { sampleEnv with
          identityProvider := fun _ => .ok { id := "user-1", email := "ÀDA@X.COM" } }
        sampleMoment "Bearer client-token" sampleUpdate
        { emptyStore with intakes := [{ blankRow 1 with email := some "àda@x.com" }] }).2
      = { status := 200, body := .okId (some 1) } :=
  ⟨by decide, by decide⟩

end Server

end TaxAgent

namespace TaxAgent

/-! ## The intake handlers and the codec -/

namespace Server

theorem postIntake_eq_run (env : Env) (moment : Moment) (body : RequestBody) (store : Store) :
    postIntake env moment body store
      = ((postIntakeRun env moment body store).store,
         (postIntakeRun env moment body store).response) := by
  unfold postIntake postIntakeTry postIntakeRun
  cases hid : cleanText body.client_user_id with
  | none => simp [bind, Except.bind, throw, throwThe, MonadExceptOf.throw]
  | some id =>
    simp only [bind, Except.bind, pure, Except.pure]
    repeat' split
    all_goals simp_all [submittedRow, submittedEvent, bind, Except.bind, pure, Except.pure, throw,
      throwThe, MonadExceptOf.throw]

theorem patchIntake_eq_run (env : Env) (moment : Moment) (user : SupabaseUser)
    (body : RequestBody) (store : Store) :
    patchIntake env moment user body store
      = ((patchIntakeRun env moment user body store).store,
         (patchIntakeRun env moment user body store).response) := by
  unfold patchIntake patchIntakeTry patchIntakeRun patchIntakeApply
  simp only [bind, Except.bind, pure, Except.pure]
  cases h1 : ((toNullableInt body.intake_id).isNone || toNullableInt body.intake_id == some 0)
  case true => simp
  simp only [Bool.false_eq_true, if_false]
  cases h2 : moment.storeUp
  case false => simp [throw, throwThe, MonadExceptOf.throw]
  simp only [Bool.not_true, Bool.false_eq_true, if_false]
  cases h3 : List.find? (fun row => row.id == (toNullableInt body.intake_id).getD 0) store.intakes
  case none => simp
  rename_i existingRow
  simp only
  cases h4 : (truthy existingRow.client_user_id &&
    existingRow.client_user_id != cleanText (JsValue.str user.id))
  case true => simp
  simp only [Bool.false_eq_true, if_false]
  cases h5 : (!truthy existingRow.client_user_id && normalizeEmail (existingRow.email.getD "") != "" &&
    normalizeEmail (existingRow.email.getD "") != normalizeEmail user.email)
  case true => simp
  simp only [Bool.false_eq_true, if_false]
  cases h6 : ((cleanText body.first_name).isNone || (cleanText body.last_name).isNone ||
    (cleanText body.dob).isNone || normalizeEmail user.email == "" ||
    (cleanText body.phone).isNone || (cleanText body.filing_status).isNone ||
    !consentGiven body.consent)
  case true => simp
  simp only [Bool.false_eq_true, if_false]
  cases h7 : ((normalizeSsn body.ssn).length != 9)
  case true => simp
  simp only [Bool.false_eq_true, if_false]
  cases h8 : ((normalizeIpPin body.ip_pin).length != 6)
  case true => simp
  simp only [Bool.false_eq_true, if_false]
  cases h9 : ((toNullableInt body.filing_year).isNone || toNullableInt body.filing_year == some 0 ||
    decide ((toNullableInt body.filing_year).getD 0 < 2000) ||
    decide ((toNullableInt body.filing_year).getD 0 > 2100))
  case true => simp
  simp only [Bool.false_eq_true, if_false]
  cases h10 : ((toNullableInt body.dependents).isSome &&
    (decide ((toNullableInt body.dependents).getD 0 < 0) ||
      decide ((toNullableInt body.dependents).getD 0 > 20)))
  case true => simp
  simp only [Bool.false_eq_true, if_false]
  cases h11 : env.computeEstimate ((toNullableInt body.filing_year).getD 0)
    ((cleanText body.filing_status).getD "") body
  case error err => simp
  rename_i estimate
  simp only [updatedRow, updatedEvent]
  cases h12 : (List.filter (ownedBy ((toNullableInt body.intake_id).getD 0)
    (cleanText (JsValue.str user.id)) (normalizeEmail user.email)) store.intakes).head? <;>
  split_ifs <;> simp [throw, throwThe, MonadExceptOf.throw]

theorem postIntakeRun_quiet (env : Env) (moment : Moment) (body : RequestBody) (store : Store) :
    QuietOnValidationError store (postIntakeRun env moment body store) := by
  unfold postIntakeRun
  simp only
  repeat' split
  all_goals simp [QuietOnValidationError, serverError]

theorem patchIntakeApply_quiet (env : Env) (moment : Moment) (user : SupabaseUser)
    (body : RequestBody) (store : Store) (intakeId : Int) :
    QuietOnValidationError store (patchIntakeApply env moment user body store intakeId) := by
  unfold patchIntakeApply
  simp only
  repeat' split
  all_goals simp [QuietOnValidationError, serverError]

theorem patchIntakeRun_quiet (env : Env) (moment : Moment) (user : SupabaseUser)
    (body : RequestBody) (store : Store) :
    QuietOnValidationError store (patchIntakeRun env moment user body store) := by
  unfold patchIntakeRun
  simp only
  repeat' split
  all_goals first
    | exact patchIntakeApply_quiet env moment user body store _
    | simp [QuietOnValidationError, serverError]

theorem logAuditEvent_intakes (moment : Moment) (event : AuditEvent) (store : Store) :
    (logAuditEvent moment event store).intakes = store.intakes := by
  unfold logAuditEvent
  split <;> rfl

theorem logAuditEvent_nextId (moment : Moment) (event : AuditEvent) (store : Store) :
    (logAuditEvent moment event store).nextId = store.nextId := by
  unfold logAuditEvent
  split <;> rfl

theorem digitsOnly_isDigit (s : String) : ∀ c ∈ (digitsOnly s).data, isDigit c = true := by
  intro c hc
  simp only [digitsOnly] at hc
  exact (List.mem_filter.mp hc).2

theorem normalizeSsn_isDigit (value : JsValue) :
    ∀ c ∈ (normalizeSsn value).data, isDigit c = true := by
  intro c hc
  unfold normalizeSsn at hc
  split at hc
  · exact digitsOnly_isDigit _ c (List.mem_of_mem_take hc)
  · cases hc

theorem normalizeIpPin_isDigit (value : JsValue) :
    ∀ c ∈ (normalizeIpPin value).data, isDigit c = true := by
  intro c hc
  unfold normalizeIpPin at hc
  split at hc
  · exact digitsOnly_isDigit _ c (List.mem_of_mem_take hc)
  · cases hc

theorem postIntakeRun_encrypts (env : Env) (moment : Moment) (body : RequestBody)
    (store : Store) : EncryptsOnlyDigits body (postIntakeRun env moment body store) := by
  have hs := normalizeSsn_isDigit body.ssn
  have hp := normalizeIpPin_isDigit body.ip_pin
  unfold postIntakeRun
  simp only
  repeat' split
  all_goals simp_all [EncryptsOnlyDigits, IsDigits]

theorem patchIntakeApply_encrypts (env : Env) (moment : Moment) (user : SupabaseUser)
    (body : RequestBody) (store : Store) (intakeId : Int) :
    EncryptsOnlyDigits body (patchIntakeApply env moment user body store intakeId) := by
  have hs := normalizeSsn_isDigit body.ssn
  have hp := normalizeIpPin_isDigit body.ip_pin
  unfold patchIntakeApply
  simp only
  repeat' split
  all_goals simp_all [EncryptsOnlyDigits, IsDigits]

theorem patchIntakeRun_encrypts (env : Env) (moment : Moment) (user : SupabaseUser)
    (body : RequestBody) (store : Store) :
    EncryptsOnlyDigits body (patchIntakeRun env moment user body store) := by
  unfold patchIntakeRun
  simp only
  repeat' split
  all_goals first
    | exact patchIntakeApply_encrypts env moment user body store _
    | simp [EncryptsOnlyDigits]

theorem postIntakeRun_outcome (env : Env) (moment : Moment) (body : RequestBody)
    (store : Store) : SubmitOutcome env moment body store (postIntakeRun env moment body store) := by
  unfold postIntakeRun
  simp only
  repeat' split
  all_goals first
    | exact Or.inl ⟨rfl, by simp [serverError, badRequest]⟩
    | exact Or.inr ⟨_, _, by assumption, rfl, rfl⟩

theorem head?_filter_eq_none {α : Type} (p : α → Bool) (l : List α)
    (h : (l.filter p).head? = none) : ¬ ∃ t ∈ l, p t = true := by
  rintro ⟨t, ht, hp⟩
  have hmem : t ∈ l.filter p := List.mem_filter.mpr ⟨ht, hp⟩
  cases hf : l.filter p with
  | nil => rw [hf] at hmem; cases hmem
  | cons a as => rw [hf] at h; cases h

theorem head?_filter_eq_some {α : Type} (p : α → Bool) (l : List α) (t : α)
    (h : (l.filter p).head? = some t) : ∃ t ∈ l, p t = true := by
  have hmem : t ∈ l.filter p := List.mem_of_mem_head? h
  exact ⟨t, (List.mem_filter.mp hmem).1, (List.mem_filter.mp hmem).2⟩

theorem patchIntakeApply_outcome (env : Env) (moment : Moment) (user : SupabaseUser)
    (body : RequestBody) (store : Store) (intakeId : Int) :
    UpdateOutcome env moment user body store intakeId
      (patchIntakeApply env moment user body store intakeId) := by
  unfold patchIntakeApply
  simp only
  repeat' split
  all_goals first
    | exact Or.inl ⟨rfl, by simp [serverError, badRequest]⟩
    | (refine Or.inr ⟨‹Option Estimate›, ?_, ?_, ?_, ?_, ?_⟩
       · simp_all
       · simp_all
       · simp [logAuditEvent_intakes]
       · simp [logAuditEvent_nextId]
       · first
           | (have hnone := head?_filter_eq_none _ _ ‹_ = none›
              simp only [hnone, iff_false]
              decide)
           | (have hsome := head?_filter_eq_some _ _ _ ‹_ = some _›
              simp only [hsome, iff_true]))

theorem patchIntakeRun_outcome (env : Env) (moment : Moment) (user : SupabaseUser)
    (body : RequestBody) (store : Store) :
    UpdateOutcome env moment user body store ((toNullableInt body.intake_id).getD 0)
      (patchIntakeRun env moment user body store) := by
  unfold patchIntakeRun
  simp only
  repeat' split
  all_goals first
    | exact patchIntakeApply_outcome env moment user body store _
    | exact Or.inl ⟨rfl, by simp [serverError, badRequest]⟩

/-- C11: a submit or update request that is answered with a validation error
(400) has called `encryptSensitive` on nothing and has left the store as it
was: no intake row is inserted or changed and no audit event is written. -/
theorem validation_error_before_effects (env : Env) (moment : Moment) (user : SupabaseUser)
    (body : RequestBody) (store : Store) :
    ((postIntakeRun env moment body store).response.status = 400 →
      (postIntakeRun env moment body store).encrypted = [] ∧
        (postIntakeRun env moment body store).store = store) ∧
    ((patchIntakeRun env moment user body store).response.status = 400 →
      (patchIntakeRun env moment user body store).encrypted = [] ∧
        (patchIntakeRun env moment user body store).store = store) :=
  ⟨postIntakeRun_quiet env moment body store, patchIntakeRun_quiet env moment user body store⟩

/-- Witness for C11: a submission with a three-digit SSN and an update with a
five-digit IP PIN. -/
theorem validation_error_before_effects_witness :
    (postIntakeRun sampleEnv sampleMoment
        { sampleSubmission with client_user_id := .str "user-1", ssn := .str "123" }
        emptyStore).response = badRequest "Invalid SSN." ∧
    (postIntakeRun sampleEnv sampleMoment
        { sampleSubmission with client_user_id := .str "user-1", ssn := .str "123" }
        emptyStore).store = emptyStore ∧
    (patchIntakeRun sampleEnv sampleMoment sampleUser
        { sampleUpdate with ip_pin := .str "12345" } sampleFiledStore).response
      = badRequest "Invalid IP PIN." ∧
    (patchIntakeRun sampleEnv sampleMoment sampleUser
        { sampleUpdate with ip_pin := .str "12345" } sampleFiledStore).encrypted = [] :=
  ⟨rfl,
   ((validation_error_before_effects sampleEnv sampleMoment sampleUser
      { sampleSubmission with client_user_id := .str "user-1", ssn := .str "123" }
      emptyStore).1 rfl).2,
   rfl,
   ((validation_error_before_effects sampleEnv sampleMoment sampleUser
      { sampleUpdate with ip_pin := .str "12345" } sampleFiledStore).2 rfl).1⟩

theorem submitted_tokens (env : Env) (moment : Moment) (body : RequestBody) (store : Store)
    (row : IntakeRow)
    (hrow : (postIntakeRun env moment body store).store.intakes = store.intakes ++ [row]) :
    (normalizeSsn body.ssn = "" → row.ssn_encrypted = none) ∧
      (normalizeIpPin body.ip_pin = "" → row.ip_pin_encrypted = none) := by
  rcases postIntakeRun_outcome env moment body store with ⟨hsame, _⟩ | ⟨id, estimate, _, _, hstore⟩
  · rw [hsame] at hrow
    have := congrArg List.length hrow
    simp at this
  · rw [hstore, logAuditEvent_intakes] at hrow
    have heq := List.append_cancel_left hrow
    have hr : row = submittedRow env moment body store (some id) estimate := by
      simpa using heq.symm
    subst hr
    constructor
    · intro h
      simp [submittedRow, h]
    · intro h
      simp [submittedRow, h]

/-- C13: in submit and in update, every plain text handed to `encryptSensitive`
is the normalised SSN, a string of exactly 9 decimal digits, or the normalised
IP PIN, a string of exactly 6 decimal digits; the empty string is never handed
to it; and on submit the stored token of an SSN or IP PIN that is empty or
absent is null. -/
theorem codec_receives_only_digit_strings (env : Env) (moment : Moment) (user : SupabaseUser)
    (body : RequestBody) (store : Store) :
    (∀ text ∈ (postIntakeRun env moment body store).encrypted,
      (text = normalizeSsn body.ssn ∧ IsDigits 9 text) ∨
        (text = normalizeIpPin body.ip_pin ∧ IsDigits 6 text)) ∧
    (∀ text ∈ (patchIntakeRun env moment user body store).encrypted,
      (text = normalizeSsn body.ssn ∧ IsDigits 9 text) ∨
        (text = normalizeIpPin body.ip_pin ∧ IsDigits 6 text)) ∧
    "" ∉ (postIntakeRun env moment body store).encrypted ∧
    "" ∉ (patchIntakeRun env moment user body store).encrypted ∧
    (∀ row, (postIntakeRun env moment body store).store.intakes = store.intakes ++ [row] →
      (normalizeSsn body.ssn = "" → row.ssn_encrypted = none) ∧
        (normalizeIpPin body.ip_pin = "" → row.ip_pin_encrypted = none)) := by
  have hpost := postIntakeRun_encrypts env moment body store
  have hpatch := patchIntakeRun_encrypts env moment user body store
  have hempty : ∀ run : HandlerRun, EncryptsOnlyDigits body run → "" ∉ run.encrypted := by
    intro run hrun hmem
    rcases hrun "" hmem with ⟨_, hlen, _⟩ | ⟨_, hlen, _⟩ <;> simp at hlen
  exact ⟨hpost, hpatch, hempty _ hpost, hempty _ hpatch,
    fun row hrow => submitted_tokens env moment body store row hrow⟩

/-- Witness for C13: a submission without SSN and with a dashed IP PIN stores a
null SSN token and encrypts the six digits of the IP PIN only. -/
theorem codec_receives_only_digit_strings_witness :
    (postIntakeRun sampleEnv sampleMoment
        { sampleSubmission with client_user_id := .str "user-1", ssn := .undefined,
                                ip_pin := .str "000-000" }
        emptyStore).encrypted = ["000000"] ∧
    ((postIntakeRun sampleEnv sampleMoment
        { sampleSubmission with client_user_id := .str "user-1", ssn := .undefined,
                                ip_pin := .str "000-000" }
        emptyStore).store.intakes.map fun row => row.ssn_encrypted) = [none] ∧
    IsDigits 6 "000000" :=
  ⟨rfl, rfl,
   ((codec_receives_only_digit_strings sampleEnv sampleMoment sampleUser
      { sampleSubmission with client_user_id := .str "user-1", ssn := .undefined,
                              ip_pin := .str "000-000" }
      emptyStore).1 "000000" (by decide)).elim
     (fun h => absurd h.1 (by decide)) (fun h => h.2)⟩

end Server

end TaxAgent

namespace TaxAgent

/-! ## Validation of the sensitive fields and of the review status -/

namespace Server

theorem normalizeSsn_length (s : String) :
    (normalizeSsn (.str s)).length = min 9 (digitsOnly s).length := by
  show (String.mk ((digitsOnly s).data.take 9)).length = min 9 (digitsOnly s).data.length
  rw [String.length_mk, List.length_take]

theorem normalizeIpPin_length (s : String) :
    (normalizeIpPin (.str s)).length = min 6 (digitsOnly s).length := by
  show (String.mk ((digitsOnly s).data.take 6)).length = min 6 (digitsOnly s).data.length
  rw [String.length_mk, List.length_take]

theorem postIntake_invalid_ssn (env : Env) (moment : Moment) (body : RequestBody) (store : Store)
    (uid fn ln dob email phone fs : String)
    (hid : cleanText body.client_user_id = some uid)
    (hfn : cleanText body.first_name = some fn) (hln : cleanText body.last_name = some ln)
    (hdob : cleanText body.dob = some dob) (hemail : cleanText body.email = some email)
    (hphone : cleanText body.phone = some phone)
    (hfs : cleanText body.filing_status = some fs)
    (hconsent : consentGiven body.consent = true)
    (h0 : (normalizeSsn body.ssn).length ≠ 0) (h9 : (normalizeSsn body.ssn).length ≠ 9) :
    postIntake env moment body store = (store, badRequest "Invalid SSN.") := by
  rw [postIntake_eq_run]
  unfold postIntakeRun
  simp [hid, hfn, hln, hdob, hemail, hphone, hfs, hconsent, h0, h9]

theorem postIntake_invalid_ip_pin (env : Env) (moment : Moment) (body : RequestBody)
    (store : Store) (uid fn ln dob email phone fs : String)
    (hid : cleanText body.client_user_id = some uid)
    (hfn : cleanText body.first_name = some fn) (hln : cleanText body.last_name = some ln)
    (hdob : cleanText body.dob = some dob) (hemail : cleanText body.email = some email)
    (hphone : cleanText body.phone = some phone)
    (hfs : cleanText body.filing_status = some fs)
    (hconsent : consentGiven body.consent = true)
    (hssn : (normalizeSsn body.ssn).length = 0 ∨ (normalizeSsn body.ssn).length = 9)
    (h0 : (normalizeIpPin body.ip_pin).length ≠ 0) (h6 : (normalizeIpPin body.ip_pin).length ≠ 6) :
    postIntake env moment body store = (store, badRequest "Invalid IP PIN.") := by
  rw [postIntake_eq_run]
  unfold postIntakeRun
  rcases hssn with h | h <;>
    simp [hid, hfn, hln, hdob, hemail, hphone, hfs, hconsent, h, h0, h6]

/-- C12, as the claim states it, fails: the SSN string `1234567890` is present
and is not exactly nine digits, yet the submission is answered with
`{ok: true, id}` and stored, the token being the encryption of its first nine
digits. -/
theorem submit_accepts_ten_digit_ssn :
    ¬ IsDigits 9 "1234567890" ∧
    (postIntake sampleEnv sampleMoment
        { sampleSubmission with client_user_id := .str "user-1", ssn := .str "1234567890" }
        emptyStore).2 = { status := 200, body := .okId (some 1) } ∧
    ((postIntake sampleEnv sampleMoment
        { sampleSubmission with client_user_id := .str "user-1", ssn := .str "1234567890" }
        emptyStore).1.intakes.map fun row => row.ssn_encrypted)
      = [some (encryptSensitive sampleEnv (sampleMoment.randomBytes 0) "123456789")] :=
  ⟨fun h => absurd h.1 (by decide), rfl, rfl⟩

/-- C12, amended: submit validates the SSN and the IP PIN after normalising
them (characters that are not digits are dropped, digits after the ninth,
respectively the sixth, are ignored). For every submission whose required
fields are present and whose `client_user_id` is supplied: if the `ssn` string
holds between one and eight digits, the response is 400 `Invalid SSN.`; if the
SSN passes and the `ip_pin` string holds between one and five digits, the
response is 400 `Invalid IP PIN.`; in both cases nothing is persisted. -/
theorem submit_rejects_short_sensitive_values (env : Env) (moment : Moment)
    (body : RequestBody) (store : Store) (uid fn ln dob email phone fs : String)
    (hid : cleanText body.client_user_id = some uid)
    (hfn : cleanText body.first_name = some fn) (hln : cleanText body.last_name = some ln)
    (hdob : cleanText body.dob = some dob) (hemail : cleanText body.email = some email)
    (hphone : cleanText body.phone = some phone)
    (hfs : cleanText body.filing_status = some fs)
    (hconsent : consentGiven body.consent = true) :
    (∀ s, body.ssn = .str s → 0 < (digitsOnly s).length → (digitsOnly s).length < 9 →
      postIntake env moment body store = (store, badRequest "Invalid SSN.")) ∧
    (∀ p, body.ip_pin = .str p →
      ((normalizeSsn body.ssn).length = 0 ∨ (normalizeSsn body.ssn).length = 9) →
      0 < (digitsOnly p).length → (digitsOnly p).length < 6 →
      postIntake env moment body store = (store, badRequest "Invalid IP PIN.")) := by
  constructor
  · intro s hs h0 h9
    have hlen := normalizeSsn_length s
    rw [← hs] at hlen
    exact postIntake_invalid_ssn env moment body store uid fn ln dob email phone fs hid hfn hln
      hdob hemail hphone hfs hconsent (by omega) (by omega)
  · intro p hp hssn h0 h6
    have hlen := normalizeIpPin_length p
    rw [← hp] at hlen
    exact postIntake_invalid_ip_pin env moment body store uid fn ln dob email phone fs hid hfn
      hln hdob hemail hphone hfs hconsent hssn (by omega) (by omega)

/-- Witness for C12, amended: the SSN `123-45` and the IP PIN `12345`. -/
theorem submit_rejects_short_sensitive_values_witness :
    postIntake sampleEnv sampleMoment
        { sampleSubmission with client_user_id := .str "user-1", ssn := .str "123-45" }
        emptyStore = (emptyStore, badRequest "Invalid SSN.") ∧
    postIntake sampleEnv sampleMoment
        { sampleSubmission with client_user_id := .str "user-1", ip_pin := .str "12345" }
        emptyStore = (emptyStore, badRequest "Invalid IP PIN.") :=
  ⟨(submit_rejects_short_sensitive_values sampleEnv sampleMoment
      { sampleSubmission with client_user_id := .str "user-1", ssn := .str "123-45" }
      emptyStore "user-1" "Ada" "Lovelace" "1990-01-01" "ada@example.com" "555-0100" "single"
      rfl rfl rfl rfl rfl rfl rfl rfl).1 "123-45" rfl (by decide) (by decide),
   (submit_rejects_short_sensitive_values sampleEnv sampleMoment
      { sampleSubmission with client_user_id := .str "user-1", ip_pin := .str "12345" }
      emptyStore "user-1" "Ada" "Lovelace" "1990-01-01" "ada@example.com" "555-0100" "single"
      rfl rfl rfl rfl rfl rfl rfl rfl).2 "12345" rfl (Or.inr (by decide)) (by decide)
      (by decide)⟩

/-! ### Updates -/

theorem patchIntake_outcome (env : Env) (moment : Moment) (user : SupabaseUser)
    (body : RequestBody) (store : Store) :
    UpdateOutcome env moment user body store ((toNullableInt body.intake_id).getD 0)
      { store := (patchIntake env moment user body store).1,
        response := (patchIntake env moment user body store).2,
        encrypted := (patchIntakeRun env moment user body store).encrypted } := by
  rw [patchIntake_eq_run]
  exact patchIntakeRun_outcome env moment user body store

theorem patchIntake_without_ssn (env : Env) (moment : Moment) (user : SupabaseUser)
    (body : RequestBody) (store : Store) (h : (normalizeSsn body.ssn).length ≠ 9) :
    (patchIntake env moment user body store).1 = store := by
  rcases patchIntake_outcome env moment user body store with ⟨hsame, _⟩ | ⟨_, h9, _⟩
  · exact hsame
  · exact absurd h9 h

theorem ownedBy_updatedRow (moment : Moment) (user : SupabaseUser) (body : RequestBody)
    (ssnEncrypted ipPinEncrypted : String) (estimate : Option Estimate) (intakeId : Int)
    (row : IntakeRow)
    (h : ownedBy intakeId (cleanText (.str user.id)) (normalizeEmail user.email) row = true) :
    ownedBy intakeId (cleanText (.str user.id)) (normalizeEmail user.email)
      (updatedRow moment user body ssnEncrypted ipPinEncrypted estimate row) = true := by
  unfold ownedBy at h ⊢
  simp only [Bool.and_eq_true] at h ⊢
  refine ⟨h.1, ?_⟩
  cases hid : cleanText (.str user.id) with
  | none => simp [updatedRow, hid]
  | some id => simp [updatedRow, hid]

theorem patchIntake_success (env : Env) (moment : Moment) (user : SupabaseUser)
    (body : RequestBody) (store : Store)
    (h : (patchIntake env moment user body store).2.status = 200) :
    ∃ estimate,
      (normalizeSsn body.ssn).length = 9 ∧ (normalizeIpPin body.ip_pin).length = 6 ∧
      (patchIntake env moment user body store).1.intakes = store.intakes.map (fun row =>
        if ownedBy ((toNullableInt body.intake_id).getD 0) (cleanText (.str user.id))
            (normalizeEmail user.email) row then
          updatedRow moment user body
            (encryptSensitive env (moment.randomBytes 0) (normalizeSsn body.ssn))
            (encryptSensitive env (moment.randomBytes 1) (normalizeIpPin body.ip_pin))
            estimate row
        else row) ∧
      ∃ target ∈ store.intakes,
        ownedBy ((toNullableInt body.intake_id).getD 0) (cleanText (.str user.id))
          (normalizeEmail user.email) target = true := by
  rcases patchIntake_outcome env moment user body store with ⟨_, hne⟩ | ⟨estimate, h9, h6, hmap, _, hiff⟩
  · exact absurd h hne
  · exact ⟨estimate, h9, h6, hmap, hiff.mp h⟩

/-- What holds of the rows of the updated record after a successful update: a
property of every updated row holds of every row of the new store that the
`WHERE` clause selects, and there is such a row. -/
theorem patchIntake_updated_rows (env : Env) (moment : Moment) (user : SupabaseUser)
    (body : RequestBody) (store : Store) (P : IntakeRow → Prop)
    (h : (patchIntake env moment user body store).2.status = 200)
    (hP : ∀ estimate row, P (updatedRow moment user body
      (encryptSensitive env (moment.randomBytes 0) (normalizeSsn body.ssn))
      (encryptSensitive env (moment.randomBytes 1) (normalizeIpPin body.ip_pin)) estimate row)) :
    (∃ row ∈ (patchIntake env moment user body store).1.intakes,
      ownedBy ((toNullableInt body.intake_id).getD 0) (cleanText (.str user.id))
        (normalizeEmail user.email) row = true) ∧
    ∀ row ∈ (patchIntake env moment user body store).1.intakes,
      ownedBy ((toNullableInt body.intake_id).getD 0) (cleanText (.str user.id))
        (normalizeEmail user.email) row = true → P row := by
  obtain ⟨estimate, _, _, hmap, target, htarget, howned⟩ :=
    patchIntake_success env moment user body store h
  rw [hmap]
  constructor
  · refine ⟨_, List.mem_map.mpr ⟨target, htarget, rfl⟩, ?_⟩
    simp only [howned, if_true]
    exact ownedBy_updatedRow moment user body _ _ estimate _ target howned
  · intro row hrow hown
    obtain ⟨old, _, hold⟩ := List.mem_map.mp hrow
    by_cases ho : ownedBy ((toNullableInt body.intake_id).getD 0) (cleanText (.str user.id))
        (normalizeEmail user.email) old = true
    · simp only [ho, if_true] at hold
      rw [← hold]
      exact hP estimate old
    · simp only [ho, if_false] at hold
      rw [← hold] at hown
      exact absurd hown ho

/-- C15: an update request that supplies no SSN and no IP PIN value leaves the
store as it was, the stored encrypted tokens included; after a successful
update the SSN supplied is nine digits long and the SSN token of every row of
the updated record is the encryption of that SSN. -/
theorem update_keeps_or_replaces_tokens (env : Env) (moment : Moment) (user : SupabaseUser)
    (body : RequestBody) (store : Store) :
    (normalizeSsn body.ssn = "" → normalizeIpPin body.ip_pin = "" →
      (patchIntake env moment user body store).1 = store) ∧
    ((patchIntake env moment user body store).2.status = 200 →
      IsDigits 9 (normalizeSsn body.ssn) ∧
      (∃ row ∈ (patchIntake env moment user body store).1.intakes,
        ownedBy ((toNullableInt body.intake_id).getD 0) (cleanText (.str user.id))
          (normalizeEmail user.email) row = true) ∧
      ∀ row ∈ (patchIntake env moment user body store).1.intakes,
        ownedBy ((toNullableInt body.intake_id).getD 0) (cleanText (.str user.id))
          (normalizeEmail user.email) row = true →
        row.ssn_encrypted
          = some (encryptSensitive env (moment.randomBytes 0) (normalizeSsn body.ssn))) := by
  constructor
  · intro hssn _
    apply patchIntake_without_ssn
    rw [hssn]
    decide
  · intro h
    obtain ⟨_, h9, _, _, _⟩ := patchIntake_success env moment user body store h
    have hrows := patchIntake_updated_rows env moment user body store
      (fun row => row.ssn_encrypted
        = some (encryptSensitive env (moment.randomBytes 0) (normalizeSsn body.ssn)))
      h (fun _ _ => rfl)
    exact ⟨⟨h9, normalizeSsn_isDigit body.ssn⟩, hrows.1, hrows.2⟩

/-- Witness for C15: the owner of the filed intake updates it without SSN and
IP PIN, then with the SSN `987654321`. -/
theorem update_keeps_or_replaces_tokens_witness :
    (patchIntake sampleEnv sampleMoment sampleUser
        { sampleUpdate with ssn := .undefined, ip_pin := .undefined } sampleFiledStore).1
      = sampleFiledStore ∧
    (patchIntake sampleEnv sampleMoment sampleUser sampleUpdate sampleFiledStore).2.status = 200 ∧
    ((patchIntake sampleEnv sampleMoment sampleUser sampleUpdate sampleFiledStore).1.intakes.map
        fun row => row.ssn_encrypted)
      = [some (encryptSensitive sampleEnv (sampleMoment.randomBytes 0) "987654321")] ∧
    IsDigits 9 (normalizeSsn sampleUpdate.ssn) :=
  ⟨(update_keeps_or_replaces_tokens sampleEnv sampleMoment sampleUser
      { sampleUpdate with ssn := .undefined, ip_pin := .undefined } sampleFiledStore).1 rfl rfl,
   rfl, rfl,
   ((update_keeps_or_replaces_tokens sampleEnv sampleMoment sampleUser sampleUpdate
      sampleFiledStore).2 rfl).1⟩

/-- C17: after a successful update of an intake by its owner, every row of the
updated record has the review status `received` and no review notes, whatever
the status and the notes were before, and the record has such a row. -/
theorem update_resets_review (env : Env) (moment : Moment) (user : SupabaseUser)
    (body : RequestBody) (store : Store)
    (h : (patchIntake env moment user body store).2.status = 200) :
    (∃ row ∈ (patchIntake env moment user body store).1.intakes,
      ownedBy ((toNullableInt body.intake_id).getD 0) (cleanText (.str user.id))
        (normalizeEmail user.email) row = true) ∧
    ∀ row ∈ (patchIntake env moment user body store).1.intakes,
      ownedBy ((toNullableInt body.intake_id).getD 0) (cleanText (.str user.id))
        (normalizeEmail user.email) row = true →
      row.review_status = some "received" ∧ row.review_notes = none :=
  patchIntake_updated_rows env moment user body store
    (fun row => row.review_status = some "received" ∧ row.review_notes = none) h
    (fun _ _ => ⟨rfl, rfl⟩)

/-- Witness for C17: the filed intake with review notes, updated by its owner. -/
theorem update_resets_review_witness :
    sampleFiledRow.review_status = some "filed" ∧
    sampleFiledRow.review_notes = some "Filed on time." ∧
    ((patchIntake sampleEnv sampleMoment sampleUser sampleUpdate sampleFiledStore).1.intakes.map
        fun row => (row.id, row.review_status, row.review_notes))
      = [(1, some "received", none)] ∧
    ∀ row ∈ (patchIntake sampleEnv sampleMoment sampleUser sampleUpdate sampleFiledStore).1.intakes,
      ownedBy ((toNullableInt sampleUpdate.intake_id).getD 0) (cleanText (.str sampleUser.id))
        (normalizeEmail sampleUser.email) row = true →
      row.review_status = some "received" ∧ row.review_notes = none :=
  ⟨rfl, rfl, rfl,
   (update_resets_review sampleEnv sampleMoment sampleUser sampleUpdate sampleFiledStore rfl).2⟩

theorem patchIntake_owner_without_ssn (env : Env) (moment : Moment) (user : SupabaseUser)
    (body : RequestBody) (store : Store) (intakeId : Int) (row : IntakeRow)
    (fn ln dob phone fs : String)
    (hid : toNullableInt body.intake_id = some intakeId) (hnz : intakeId ≠ 0)
    (hup : moment.storeUp = true)
    (hrow : store.intakes.find? (fun r => r.id == intakeId) = some row)
    (howner :
      (truthy row.client_user_id = true ∧ row.client_user_id = cleanText (.str user.id)) ∨
      (truthy row.client_user_id = false ∧
        normalizeEmail (row.email.getD "") = normalizeEmail user.email))
    (hfn : cleanText body.first_name = some fn) (hln : cleanText body.last_name = some ln)
    (hdob : cleanText body.dob = some dob) (hemail : normalizeEmail user.email ≠ "")
    (hphone : cleanText body.phone = some phone)
    (hfs : cleanText body.filing_status = some fs)
    (hconsent : consentGiven body.consent = true)
    (hssn : normalizeSsn body.ssn = "") :
    patchIntake env moment user body store = (store, badRequest "Invalid SSN.") := by
  have hnz' : (some intakeId == some (0 : Int)) = false := by simp [hnz]
  rw [patchIntake_eq_run]
  unfold patchIntakeRun patchIntakeApply
  rcases howner with ⟨h1, h2⟩ | ⟨h1, h2⟩
  · have h3 : truthy (cleanText (.str user.id)) = true := by rw [← h2]; exact h1
    simp [hid, hnz', hup, hrow, h1, h2, h3, hfn, hln, hdob, hemail, hphone, hfs, hconsent, hssn]
  · simp [hid, hnz', hup, hrow, h1, h2, hfn, hln, hdob, hemail, hphone, hfs, hconsent, hssn]

/-- C16, where the code departs from what the intake form announces: in edit
mode the form lets the SSN and the IP PIN stay untouched (`Sensitive fields
stay on file unless you change them`), and the `UPDATE` keeps a stored token
when the new one is null; but the handler of `PATCH /api/intake` requires nine
digits: the resubmission of the owner of the record, whose other fields are
valid and whose body carries no digit of an SSN, is answered with 400
`Invalid SSN.` and the update is not applied. -/
theorem edit_without_sensitive_fields_rejected (env : Env) (moment : Moment)
    (user : SupabaseUser) (body : RequestBody) (store : Store) (intakeId : Int)
    (row : IntakeRow) (fn ln dob phone fs : String)
    (hid : toNullableInt body.intake_id = some intakeId) (hnz : intakeId ≠ 0)
    (hup : moment.storeUp = true)
    (hrow : store.intakes.find? (fun r => r.id == intakeId) = some row)
    (howner :
      (truthy row.client_user_id = true ∧ row.client_user_id = cleanText (.str user.id)) ∨
      (truthy row.client_user_id = false ∧
        normalizeEmail (row.email.getD "") = normalizeEmail user.email))
    (hfn : cleanText body.first_name = some fn) (hln : cleanText body.last_name = some ln)
    (hdob : cleanText body.dob = some dob) (hemail : normalizeEmail user.email ≠ "")
    (hphone : cleanText body.phone = some phone)
    (hfs : cleanText body.filing_status = some fs)
    (hconsent : consentGiven body.consent = true)
    (hssn : normalizeSsn body.ssn = "") :
    patchIntake env moment user body store
      = (store, { status := 400, body := .error "Invalid SSN." }) :=
  patchIntake_owner_without_ssn env moment user body store intakeId row fn ln dob phone fs hid
    hnz hup hrow howner hfn hln hdob hemail hphone hfs hconsent hssn

/-- Witness for C16: the owner of the filed intake opens it for editing and
resubmits it with the SSN and IP PIN inputs untouched. The checks of the form
raise no error, the payload carries the masks shown in the inputs, and the
server answers 400 `Invalid SSN.`. -/
theorem edit_without_sensitive_fields_rejected_witness :
    App.sensitiveErrors (App.editUntouched 1) = [] ∧
    App.sensitivePayload (App.editUntouched 1) = (.str "*********", .str "••••••") ∧
    patchIntake sampleEnv sampleMoment sampleUser
        { sampleUpdate with ssn := (App.sensitivePayload (App.editUntouched 1)).1,
                            ip_pin := (App.sensitivePayload (App.editUntouched 1)).2 }
        sampleFiledStore
      = (sampleFiledStore, { status := 400, body := .error "Invalid SSN." }) :=
  ⟨rfl, rfl,
   edit_without_sensitive_fields_rejected sampleEnv sampleMoment sampleUser
     { sampleUpdate with ssn := (App.sensitivePayload (App.editUntouched 1)).1,
                         ip_pin := (App.sensitivePayload (App.editUntouched 1)).2 }
     sampleFiledStore 1 sampleFiledRow "Ada" "Lovelace" "1990-01-01" "555-0100" "single"
     rfl (by decide) rfl rfl (Or.inl ⟨rfl, rfl⟩) rfl rfl rfl (by decide) rfl rfl rfl rfl⟩

/-! ### The review status -/

theorem patchIntakeStatus_invalid (moment : Moment) (preparer : SupabaseUser)
    (body : RequestBody) (store : Store)
    (h : cleanText body.review_status = none ∨
      ∃ s, cleanText body.review_status = some s ∧ s ∉ reviewStatuses) :
    patchIntakeStatus moment preparer body store
      = (store, badRequest "Invalid review status.") := by
  unfold patchIntakeStatus patchIntakeStatusTry
  rcases h with h | ⟨s, h, hs⟩
  · simp [h, bind, Except.bind, pure, Except.pure]
  · simp [h, hs, bind, Except.bind, pure, Except.pure]

/-- C18, as the claim states it, fails: the value ` filed `, written with a
space on either side, is none of the six wire-exact values, yet the request of
the authorised preparer is answered with `{ok: true, id}` and the stored status
of the record becomes `filed`, because `cleanText` trims the value before it is
looked up. -/
theorem padded_status_accepted :
    " filed " ∉ reviewStatuses ∧
    patchIntakeStatusRoute samplePreparerEnv sampleMoment "Bearer client-token"
        { review_status := .str " filed ", intake_id := .num 1 }
        { emptyStore with intakes := [blankRow 1] }
      = ({ intakes := [{ blankRow 1 with review_status := some "filed",
                                         review_updated_at := some 1000 }],
           nextId := 1,
           audit := [{ actor_user_id := some "user-1", actor_email := some "ada@example.com",
                       actor_role := some "preparer",
                       action_type := some "intake_status_updated",
                       target_user_id := none, target_email := none, target_username := none,
                       metadata := [("review_status", .str "filed"), ("review_notes", .str ""),
                                    ("intake_id", .num 1)],
                       created_at := 1000 }] },
         { status := 200, body := .okId (some 1) }) :=
  ⟨by decide, rfl⟩

/-- C18, amended: for every `PATCH /api/intake/status` request by an authorised
preparer whose `review_status` is not a string, or is a string that, once
trimmed, is empty or is none of the six values `received`, `in_review`,
`awaiting_documents`, `awaiting_authorization`, `ready_to_file`, `filed` (for
example `zzz`), the response is 400 `Invalid review status.` and the store is
left as it was: the stored status of every record is unchanged. -/
theorem unknown_status_rejected (env : Env) (moment : Moment) (authorization : String)
    (preparer : SupabaseUser) (body : RequestBody) (store : Store)
    (hauth : requirePreparerAuth env authorization = .ok preparer)
    (h : cleanText body.review_status = none ∨
      ∃ s, cleanText body.review_status = some s ∧ s ∉ reviewStatuses) :
    patchIntakeStatusRoute env moment authorization body store
      = (store, { status := 400, body := .error "Invalid review status." }) := by
  unfold patchIntakeStatusRoute
  rw [hauth]
  exact patchIntakeStatus_invalid moment preparer body store h

/-- Witness for C18, amended: the preparer sends the status `zzz`. -/
theorem unknown_status_rejected_witness :
    requirePreparerAuth samplePreparerEnv "Bearer client-token" = .ok sampleUser ∧
    patchIntakeStatusRoute samplePreparerEnv sampleMoment "Bearer client-token"
        { review_status := .str "zzz", intake_id := .num 1 }
        { emptyStore with intakes := [blankRow 1] }
      = ({ emptyStore with intakes := [blankRow 1] },
         { status := 400, body := .error "Invalid review status." }) :=
  ⟨rfl,
   unknown_status_rejected samplePreparerEnv sampleMoment "Bearer client-token" sampleUser
     { review_status := .str "zzz", intake_id := .num 1 }
     { emptyStore with intakes := [blankRow 1] } rfl
     (Or.inr ⟨"zzz", rfl, by decide⟩)⟩

end Server

end TaxAgent

namespace TaxAgent.Server

/-! ### Responses do not depend on the sensitive values -/

theorem tokenTwin_id {r₁ r₂ : IntakeRow} (h : TokenTwin r₁ r₂) : r₁.id = r₂.id :=
  have e : (eraseTokens r₁).id = (eraseTokens r₂).id := congrArg IntakeRow.id (show eraseTokens r₁ = eraseTokens r₂ from h)
  e

theorem tokenTwin_client_user_id {r₁ r₂ : IntakeRow} (h : TokenTwin r₁ r₂) :
    r₁.client_user_id = r₂.client_user_id :=
  have e : (eraseTokens r₁).client_user_id = (eraseTokens r₂).client_user_id := congrArg IntakeRow.client_user_id (show eraseTokens r₁ = eraseTokens r₂ from h)
  e

theorem tokenTwin_email {r₁ r₂ : IntakeRow} (h : TokenTwin r₁ r₂) : r₁.email = r₂.email :=
  have e : (eraseTokens r₁).email = (eraseTokens r₂).email := congrArg IntakeRow.email (show eraseTokens r₁ = eraseTokens r₂ from h)
  e

theorem tokenTwin_created_at {r₁ r₂ : IntakeRow} (h : TokenTwin r₁ r₂) :
    r₁.created_at = r₂.created_at :=
  have e : (eraseTokens r₁).created_at = (eraseTokens r₂).created_at := congrArg IntakeRow.created_at (show eraseTokens r₁ = eraseTokens r₂ from h)
  e

theorem tokenTwin_view {r₁ r₂ : IntakeRow} (h : TokenTwin r₁ r₂) : r₁.view = r₂.view :=
  have e : (eraseTokens r₁).view = (eraseTokens r₂).view := congrArg IntakeRow.view (show eraseTokens r₁ = eraseTokens r₂ from h)
  e

theorem tokenTwin_statusView {r₁ r₂ : IntakeRow} (h : TokenTwin r₁ r₂) (columns : Bool) :
    statusView columns r₁ = statusView columns r₂ :=
  have e : statusView columns (eraseTokens r₁) = statusView columns (eraseTokens r₂) :=
    congrArg (statusView columns) (show eraseTokens r₁ = eraseTokens r₂ from h)
  e

theorem tokenTwin_filter {l₁ l₂ : List IntakeRow} (h : List.Forall₂ TokenTwin l₁ l₂)
    (p : IntakeRow → Bool) (hp : ∀ r₁ r₂, TokenTwin r₁ r₂ → p r₁ = p r₂) :
    List.Forall₂ TokenTwin (l₁.filter p) (l₂.filter p) := by
  induction h with
  | nil => exact List.Forall₂.nil
  | cons hr _ ih =>
    rw [List.filter_cons, List.filter_cons, hp _ _ hr]
    split
    · exact List.Forall₂.cons hr ih
    · exact ih

theorem tokenTwin_find {l₁ l₂ : List IntakeRow} (h : List.Forall₂ TokenTwin l₁ l₂)
    (p : IntakeRow → Bool) (hp : ∀ r₁ r₂, TokenTwin r₁ r₂ → p r₁ = p r₂) :
    (l₁.find? p).map eraseTokens = (l₂.find? p).map eraseTokens := by
  induction h with
  | nil => rfl
  | cons hr _ ih =>
    rw [List.find?_cons, List.find?_cons, hp _ _ hr]
    split
    · exact congrArg some (show eraseTokens _ = eraseTokens _ from hr)
    · exact ih

theorem tokenTwin_head {l₁ l₂ : List IntakeRow} (h : List.Forall₂ TokenTwin l₁ l₂) :
    l₁.head?.map eraseTokens = l₂.head?.map eraseTokens := by
  cases h with
  | nil => rfl
  | cons hr _ => exact congrArg some (show eraseTokens _ = eraseTokens _ from hr)

theorem tokenTwin_any {l₁ l₂ : List IntakeRow} (h : List.Forall₂ TokenTwin l₁ l₂)
    (p q : IntakeRow → Bool) (hp : ∀ r₁ r₂, TokenTwin r₁ r₂ → p r₁ = q r₂) :
    l₁.any p = l₂.any q := by
  induction h with
  | nil => rfl
  | cons hr _ ih => rw [List.any_cons, List.any_cons, hp _ _ hr, ih]

theorem tokenTwin_latest_fold {l₁ l₂ : List IntakeRow} (h : List.Forall₂ TokenTwin l₁ l₂) :
    ∀ b₁ b₂ : Option IntakeRow, b₁.map eraseTokens = b₂.map eraseTokens →
      (l₁.foldl (fun best row =>
          match best with
          | none => some row
          | some b => if b.created_at < row.created_at then some row else some b) b₁).map
        eraseTokens =
      (l₂.foldl (fun best row =>
          match best with
          | none => some row
          | some b => if b.created_at < row.created_at then some row else some b) b₂).map
        eraseTokens := by
  induction h with
  | nil => intro b₁ b₂ hb; exact hb
  | cons hr _ ih =>
    intro b₁ b₂ hb
    rw [List.foldl_cons, List.foldl_cons]
    apply ih
    cases b₁ <;> cases b₂ <;> simp at hb
    · exact congrArg some (show eraseTokens _ = eraseTokens _ from hr)
    · show Option.map eraseTokens (if _ < _ then _ else _)
        = Option.map eraseTokens (if _ < _ then _ else _)
      rw [tokenTwin_created_at hb, tokenTwin_created_at hr]
      split
      · exact congrArg some (show eraseTokens _ = eraseTokens _ from hr)
      · exact congrArg some (show eraseTokens _ = eraseTokens _ from hb)

theorem tokenTwin_latestWhere {l₁ l₂ : List IntakeRow} (h : List.Forall₂ TokenTwin l₁ l₂)
    (p : IntakeRow → Bool) (hp : ∀ r₁ r₂, TokenTwin r₁ r₂ → p r₁ = p r₂) :
    (latestWhere p l₁).map eraseTokens = (latestWhere p l₂).map eraseTokens :=
  tokenTwin_latest_fold (tokenTwin_filter h p hp) none none rfl

theorem tokenTwin_option {x y : Option IntakeRow}
    (h : x.map eraseTokens = y.map eraseTokens) :
    (x = none ∧ y = none) ∨ ∃ a b, x = some a ∧ y = some b ∧ TokenTwin a b := by
  cases x <;> cases y <;> simp at h
  · exact Or.inl ⟨rfl, rfl⟩
  · exact Or.inr ⟨_, _, rfl, rfl, h⟩

theorem getIntakeLatest_blind (moment : Moment) (user : SupabaseUser) (s₁ s₂ : Store)
    (h : List.Forall₂ TokenTwin s₁.intakes s₂.intakes) :
    getIntakeLatest moment user s₁ = getIntakeLatest moment user s₂ := by
  unfold getIntakeLatest
  rcases tokenTwin_option (tokenTwin_latestWhere h
      (fun row => ((cleanText (.str user.id)).isSome &&
        row.client_user_id == cleanText (.str user.id)) ||
          row.email == some (normalizeEmail user.email))
      (fun r₁ r₂ hr => by
        simp only [tokenTwin_client_user_id hr, tokenTwin_email hr])) with
    ⟨e₁, e₂⟩ | ⟨a, b, e₁, e₂, hab⟩
  · simp only [e₁, e₂]
  · simp only [e₁, e₂, tokenTwin_view hab]

theorem getIntakeStatus_blind (moment : Moment) (columns : Bool) (queryId queryEmail : JsValue)
    (s₁ s₂ : Store) (h : List.Forall₂ TokenTwin s₁.intakes s₂.intakes) :
    getIntakeStatus moment columns queryId queryEmail s₁
      = getIntakeStatus moment columns queryId queryEmail s₂ := by
  unfold getIntakeStatus
  cases hid : cleanText queryId with
  | none =>
    rcases tokenTwin_option (tokenTwin_latestWhere h
        (fun row => row.email == cleanText queryEmail)
        (fun r₁ r₂ hr => by simp only [tokenTwin_email hr])) with
      ⟨e₁, e₂⟩ | ⟨a, b, e₁, e₂, hab⟩
    · simp only [e₁, e₂]
    · simp only [e₁, e₂, tokenTwin_statusView hab]
  | some id =>
    rcases tokenTwin_option (tokenTwin_latestWhere h
        (fun row => row.client_user_id == some id)
        (fun r₁ r₂ hr => by simp only [tokenTwin_client_user_id hr])) with
      ⟨e₁, e₂⟩ | ⟨a, b, e₁, e₂, hab⟩
    · simp only [e₁, e₂]
    · simp only [e₁, e₂, tokenTwin_statusView hab]

theorem postIntakeRun_response_blind (env : Env) (m₁ m₂ : Moment) (body : RequestBody)
    (x₁ y₁ x₂ y₂ : JsValue) (s₁ s₂ : Store)
    (hEnv : EstimateIgnoresSensitive env) (hM : SameStoreBehaviour m₁ m₂)
    (hS : s₁.nextId = s₂.nextId) (h₁ : ValidSensitive x₁ y₁) (h₂ : ValidSensitive x₂ y₂) :
    (postIntakeRun env m₁ (withSensitive body x₁ y₁) s₁).response
      = (postIntakeRun env m₂ (withSensitive body x₂ y₂) s₂).response := by
  have hrow : ∀ id estimate,
      m₁.storeAccepts (submittedRow env m₁ (withSensitive body x₁ y₁) s₁ id estimate)
        = m₂.storeAccepts (submittedRow env m₂ (withSensitive body x₂ y₂) s₂ id estimate) :=
    fun id estimate => hM.2.2.2 _ _
      (by simp [TokenTwin, eraseTokens, submittedRow, withSensitive, hS, hM.1])
  obtain ⟨hx₁, hy₁⟩ := h₁
  obtain ⟨hx₂, hy₂⟩ := h₂
  simp only [postIntakeRun, hEnv _ _ body x₁ y₁, hEnv _ _ body x₂ y₂, hrow, hM.2.1]
  simp only [withSensitive, hx₁, hy₁, hx₂, hy₂]
  repeat' split
  all_goals simp_all [submittedRow]

theorem tokenTwin_ownedBy (intakeId : Int) (clientUserId : Option String) (email : String)
    {r₁ r₂ : IntakeRow} (h : TokenTwin r₁ r₂) :
    ownedBy intakeId clientUserId email r₁ = ownedBy intakeId clientUserId email r₂ := by
  simp only [ownedBy, tokenTwin_id h, tokenTwin_client_user_id h, tokenTwin_email h]

theorem tokenTwin_updatedRow (m₁ m₂ : Moment) (hnow : m₁.now = m₂.now) (user : SupabaseUser)
    (body : RequestBody) (x₁ y₁ x₂ y₂ : JsValue) (a₁ b₁ a₂ b₂ : String)
    (estimate : Option Estimate) {r₁ r₂ : IntakeRow} (hr : TokenTwin r₁ r₂) :
    TokenTwin (updatedRow m₁ user (withSensitive body x₁ y₁) a₁ b₁ estimate r₁)
      (updatedRow m₂ user (withSensitive body x₂ y₂) a₂ b₂ estimate r₂) := by
  simp [TokenTwin, eraseTokens, updatedRow, withSensitive, hnow, tokenTwin_id hr,
    tokenTwin_created_at hr]

theorem patchIntakeApply_response_blind (env : Env) (m₁ m₂ : Moment) (user : SupabaseUser)
    (body : RequestBody) (x₁ y₁ x₂ y₂ : JsValue) (s₁ s₂ : Store) (intakeId : Int)
    (hEnv : EstimateIgnoresSensitive env) (hM : SameStoreBehaviour m₁ m₂)
    (hS : List.Forall₂ TokenTwin s₁.intakes s₂.intakes)
    (h₁ : ValidSensitive x₁ y₁) (h₂ : ValidSensitive x₂ y₂) :
    (patchIntakeApply env m₁ user (withSensitive body x₁ y₁) s₁ intakeId).response
      = (patchIntakeApply env m₂ user (withSensitive body x₂ y₂) s₂ intakeId).response := by
  have htargets := tokenTwin_filter hS
    (ownedBy intakeId (cleanText (.str user.id)) (normalizeEmail user.email))
    (fun _ _ hr => tokenTwin_ownedBy _ _ _ hr)
  have hany : ∀ a₁ b₁ a₂ b₂ estimate,
      (List.filter (ownedBy intakeId (cleanText (.str user.id)) (normalizeEmail user.email))
          s₁.intakes).any
        (fun row => !m₁.storeAccepts
          (updatedRow m₁ user (withSensitive body x₁ y₁) a₁ b₁ estimate row))
      = (List.filter (ownedBy intakeId (cleanText (.str user.id)) (normalizeEmail user.email))
          s₂.intakes).any
        (fun row => !m₂.storeAccepts
          (updatedRow m₂ user (withSensitive body x₂ y₂) a₂ b₂ estimate row)) :=
    fun a₁ b₁ a₂ b₂ estimate => tokenTwin_any htargets _ _ (fun r₁ r₂ hr => by
      rw [hM.2.2.2 _ _
        (tokenTwin_updatedRow m₁ m₂ hM.1 user body x₁ y₁ x₂ y₂ a₁ b₁ a₂ b₂ estimate hr)])
  obtain ⟨hx₁, hy₁⟩ := h₁
  obtain ⟨hx₂, hy₂⟩ := h₂
  simp only [patchIntakeApply, hEnv _ _ body x₁ y₁, hEnv _ _ body x₂ y₂,
    hany _ _ (encryptSensitive env (m₂.randomBytes 0) (normalizeSsn x₂))
      (encryptSensitive env (m₂.randomBytes 1) (normalizeIpPin y₂))]
  rcases tokenTwin_option (tokenTwin_head htargets) with ⟨e₁, e₂⟩ | ⟨a, b, e₁, e₂, hab⟩
  · simp only [e₁, e₂, withSensitive, hx₁, hy₁, hx₂, hy₂]
    clear hany htargets hS hEnv hM e₁ e₂
    repeat' split
    all_goals rfl
  · simp only [e₁, e₂, withSensitive, hx₁, hy₁, hx₂, hy₂, tokenTwin_id hab]
    clear hany htargets hS hEnv hM e₁ e₂ hab
    repeat' split
    all_goals rfl

theorem patchIntakeRun_response_blind (env : Env) (m₁ m₂ : Moment) (user : SupabaseUser)
    (body : RequestBody) (x₁ y₁ x₂ y₂ : JsValue) (s₁ s₂ : Store)
    (hEnv : EstimateIgnoresSensitive env) (hM : SameStoreBehaviour m₁ m₂)
    (hS : List.Forall₂ TokenTwin s₁.intakes s₂.intakes)
    (h₁ : ValidSensitive x₁ y₁) (h₂ : ValidSensitive x₂ y₂) :
    (patchIntakeRun env m₁ user (withSensitive body x₁ y₁) s₁).response
      = (patchIntakeRun env m₂ user (withSensitive body x₂ y₂) s₂).response := by
  have happly := patchIntakeApply_response_blind env m₁ m₂ user body x₁ y₁ x₂ y₂ s₁ s₂
    ((toNullableInt body.intake_id).getD 0) hEnv hM hS h₁ h₂
  have hid₁ : (withSensitive body x₁ y₁).intake_id = body.intake_id := rfl
  have hid₂ : (withSensitive body x₂ y₂).intake_id = body.intake_id := rfl
  simp only [patchIntakeRun, hid₁, hid₂, hM.2.1]
  rcases tokenTwin_option (tokenTwin_find hS
      (fun row => row.id == (toNullableInt body.intake_id).getD 0)
      (fun r₁ r₂ hr => by simp only [tokenTwin_id hr])) with
    ⟨e₁, e₂⟩ | ⟨a, b, e₁, e₂, hab⟩
  · simp only [e₁, e₂]
    repeat' split
    all_goals rfl
  · simp only [e₁, e₂, tokenTwin_client_user_id hab, tokenTwin_email hab]
    repeat' split
    all_goals first | rfl | exact happly

/-- C14: the responses of submit, of update, of `GET /api/intake/latest` and of
`GET /api/intake/status` are the same in two runs that differ only in the valid
SSN and IP PIN supplied, in the random bytes of the codec and in the tokens
held by the rows of the store. -/
theorem responses_hide_sensitive_values (env : Env) (m₁ m₂ : Moment) (user : SupabaseUser)
    (body : RequestBody) (ssn₁ pin₁ ssn₂ pin₂ : JsValue) (s₁ s₂ : Store) (columns : Bool)
    (queryId queryEmail : JsValue)
    (hEnv : EstimateIgnoresSensitive env) (hM : SameStoreBehaviour m₁ m₂)
    (hS : SameUpToTokens s₁ s₂)
    (h₁ : ValidSensitive ssn₁ pin₁) (h₂ : ValidSensitive ssn₂ pin₂) :
    (postIntake env m₁ (withSensitive body ssn₁ pin₁) s₁).2
      = (postIntake env m₂ (withSensitive body ssn₂ pin₂) s₂).2 ∧
    (patchIntake env m₁ user (withSensitive body ssn₁ pin₁) s₁).2
      = (patchIntake env m₂ user (withSensitive body ssn₂ pin₂) s₂).2 ∧
    getIntakeLatest m₁ user s₁ = getIntakeLatest m₂ user s₂ ∧
    getIntakeStatus m₁ columns queryId queryEmail s₁
      = getIntakeStatus m₂ columns queryId queryEmail s₂ := by
  refine ⟨?_, ?_, ?_, ?_⟩
  · rw [postIntake_eq_run, postIntake_eq_run]
    exact postIntakeRun_response_blind env m₁ m₂ body ssn₁ pin₁ ssn₂ pin₂ s₁ s₂ hEnv hM hS.2.1
      h₁ h₂
  · rw [patchIntake_eq_run, patchIntake_eq_run]
    exact patchIntakeRun_response_blind env m₁ m₂ user body ssn₁ pin₁ ssn₂ pin₂ s₁ s₂ hEnv hM
      hS.1 h₁ h₂
  · rw [getIntakeLatest_blind m₁ user s₁ s₂ hS.1]
    unfold getIntakeLatest
    rw [hM.2.1]
  · rw [getIntakeStatus_blind m₁ columns queryId queryEmail s₁ s₂ hS.1]
    unfold getIntakeStatus
    rw [hM.2.1]

/-- Witness for C14: the owner of the filed intake submits and updates with the
SSN `123456789` and then with the SSN `987-65-4321`, against two stores whose
rows hold different tokens; both submissions and both updates succeed. -/
theorem responses_hide_sensitive_values_witness :
    (postIntake sampleEnv sampleMoment
        (withSensitive sampleOwnedUpdate (.str "123456789") (.str "000000"))
        sampleFiledStore).2.status = 200 ∧
    (patchIntake sampleEnv sampleMoment sampleUser
        (withSensitive sampleOwnedUpdate (.str "123456789") (.str "000000"))
        sampleFiledStore).2.status = 200 ∧
    sampleFiledStore ≠ sampleRetokenedStore ∧
    ((postIntake sampleEnv sampleMoment
        (withSensitive sampleOwnedUpdate (.str "123456789") (.str "000000"))
        sampleFiledStore).2
      = (postIntake sampleEnv sampleOtherMoment
        (withSensitive sampleOwnedUpdate (.str "987-65-4321") (.str "111111"))
        sampleRetokenedStore).2 ∧
    (patchIntake sampleEnv sampleMoment sampleUser
        (withSensitive sampleOwnedUpdate (.str "123456789") (.str "000000"))
        sampleFiledStore).2
      = (patchIntake sampleEnv sampleOtherMoment sampleUser
        (withSensitive sampleOwnedUpdate (.str "987-65-4321") (.str "111111"))
        sampleRetokenedStore).2 ∧
    getIntakeLatest sampleMoment sampleUser sampleFiledStore
      = getIntakeLatest sampleOtherMoment sampleUser sampleRetokenedStore ∧
    getIntakeStatus sampleMoment true (.str "user-1") .undefined sampleFiledStore
      = getIntakeStatus sampleOtherMoment true (.str "user-1") .undefined
          sampleRetokenedStore) :=
  ⟨rfl, rfl, by decide,
   responses_hide_sensitive_values sampleEnv sampleMoment sampleOtherMoment sampleUser
     sampleOwnedUpdate (.str "123456789") (.str "000000") (.str "987-65-4321") (.str "111111")
     sampleFiledStore sampleRetokenedStore true (.str "user-1") .undefined
     (fun _ _ _ _ _ => rfl) ⟨rfl, rfl, rfl, fun _ _ _ => rfl⟩
     ⟨List.Forall₂.cons rfl List.Forall₂.nil, rfl, rfl⟩ ⟨rfl, rfl⟩ ⟨rfl, rfl⟩⟩

end TaxAgent.Server

namespace TaxAgent.Server

/-! ### The review status over the life of the store -/

theorem patchIntakeStatus_eq_run (moment : Moment) (preparer : SupabaseUser)
    (body : RequestBody) (store : Store) :
    patchIntakeStatus moment preparer body store
      = patchIntakeStatusRun moment preparer body store := by
  unfold patchIntakeStatus patchIntakeStatusTry patchIntakeStatusRun
  simp only [bind, Except.bind, pure, Except.pure]
  cases h1 : ((cleanText body.review_status).isNone ||
    !reviewStatuses.contains ((cleanText body.review_status).getD ""))
  case true => simp
  simp only [Bool.false_eq_true, if_false]
  cases h2 : (((toNullableInt body.intake_id).isNone || toNullableInt body.intake_id == some 0) &&
    (cleanText body.client_user_id).isNone && (cleanText body.email).isNone)
  case true => simp
  simp only [Bool.false_eq_true, if_false]
  cases h3 : moment.storeUp
  case false => simp [throw, throwThe, MonadExceptOf.throw]
  simp only [Bool.not_true, Bool.false_eq_true, if_false]
  change (match ((if (List.any (List.filter (fun row => (statusTargetIds body store).contains row.id)
      store.intakes) (fun row => !moment.storeAccepts (reviewedRow moment
        (cleanText body.review_status) (cleanText body.review_notes) row))) = true then _ else _) :
        Except JsError (Store × Response)) with
    | .ok result => result
    | .error _ => (store, serverError)) = _
  cases h4 : (List.any (List.filter (fun row => (statusTargetIds body store).contains row.id)
      store.intakes) (fun row => !moment.storeAccepts (reviewedRow moment
        (cleanText body.review_status) (cleanText body.review_notes) row)))
  case true => simp [throw, throwThe, MonadExceptOf.throw]
  simp only [Bool.false_eq_true, if_false]
  change (match ((match (statusTargetIds body store).head? with
      | none => _
      | some id => _) : Except JsError (Store × Response)) with
    | .ok result => result
    | .error _ => (store, serverError)) = _
  cases h5 : (statusTargetIds body store).head? <;> rfl

theorem patchIntakeStatusRun_outcome (moment : Moment) (preparer : SupabaseUser)
    (body : RequestBody) (store : Store) :
    (patchIntakeStatusRun moment preparer body store).1 = store ∨
    ∃ s ∈ reviewStatuses,
      (patchIntakeStatusRun moment preparer body store).1.intakes
        = store.intakes.map (fun row =>
            if (statusTargetIds body store).contains row.id then
              reviewedRow moment (some s) (cleanText body.review_notes) row
            else row) := by
  unfold patchIntakeStatusRun
  simp only
  cases hs : cleanText body.review_status with
  | none => exact Or.inl (by simp)
  | some s =>
    by_cases hmem : s ∈ reviewStatuses
    swap
    · exact Or.inl (by simp [hmem])
    · repeat' split
      all_goals first
        | exact Or.inl rfl
        | exact Or.inr ⟨s, hmem, rfl⟩
        | exact Or.inr ⟨s, hmem, by rw [logAuditEvent_intakes]⟩

theorem statusesValid_submit (env : Env) (moment : Moment) (body : RequestBody) (store : Store)
    (h : StatusesValid store) : StatusesValid (postIntake env moment body store).1 := by
  rw [postIntake_eq_run]
  rcases postIntakeRun_outcome env moment body store with ⟨hsame, _⟩ | ⟨id, estimate, _, _, hst⟩
  · show StatusesValid (postIntakeRun env moment body store).store
    rw [hsame]
    exact h
  · show StatusesValid (postIntakeRun env moment body store).store
    rw [hst]
    intro row hrow
    rw [logAuditEvent_intakes] at hrow
    rcases List.mem_append.mp hrow with hold | hnew
    · exact h row hold
    · rw [List.mem_singleton.mp hnew]
      exact ⟨"received", by decide, rfl⟩

theorem statusesValid_update (env : Env) (moment : Moment) (user : SupabaseUser)
    (body : RequestBody) (store : Store)
    (h : StatusesValid store) : StatusesValid (patchIntake env moment user body store).1 := by
  rcases patchIntake_outcome env moment user body store with
    ⟨hsame, _⟩ | ⟨estimate, _, _, hrows, _⟩
  · have hsame : (patchIntake env moment user body store).1 = store := hsame
    rw [hsame]
    exact h
  · have hrows : (patchIntake env moment user body store).1.intakes = _ := hrows
    intro row hrow
    rw [hrows] at hrow
    obtain ⟨old, hold, rfl⟩ := List.mem_map.mp hrow
    split
    · exact ⟨"received", by decide, rfl⟩
    · exact h old hold

theorem statusesValid_review (moment : Moment) (preparer : SupabaseUser) (body : RequestBody)
    (store : Store) (h : StatusesValid store) :
    StatusesValid (patchIntakeStatus moment preparer body store).1 := by
  rw [patchIntakeStatus_eq_run]
  rcases patchIntakeStatusRun_outcome moment preparer body store with hsame | ⟨s, hmem, hrows⟩
  · rw [hsame]
    exact h
  · intro row hrow
    rw [hrows] at hrow
    obtain ⟨old, hold, rfl⟩ := List.mem_map.mp hrow
    split
    · exact ⟨s, hmem, rfl⟩
    · exact h old hold

theorem reachable_statusesValid (store : Store) (h : Reachable store) : StatusesValid store := by
  induction h with
  | empty => intro row hrow; cases hrow
  | submit env moment body store _ ih => exact statusesValid_submit env moment body store ih
  | update env moment user body store _ ih =>
    exact statusesValid_update env moment user body store ih
  | review moment preparer body store _ ih =>
    exact statusesValid_review moment preparer body store ih

theorem statusTargetIds_of_id (body : RequestBody) (store : Store) (target : Int)
    (hid : toNullableInt body.intake_id = some target) (h0 : target ≠ 0) :
    statusTargetIds body store
      = (store.intakes.filter fun row => row.id == target).map fun row => row.id := by
  simp [statusTargetIds, hid, h0]

theorem statusTargetIds_contains (body : RequestBody) (store : Store) (target : Int)
    (hid : toNullableInt body.intake_id = some target) (h0 : target ≠ 0)
    (row : IntakeRow) (hrow : row ∈ store.intakes) :
    (statusTargetIds body store).contains row.id = decide (row.id = target) := by
  rw [statusTargetIds_of_id body store target hid h0]
  by_cases h : row.id = target
  · simp only [h, decide_True, List.contains_iff_exists_mem_beq]
    exact ⟨target, List.mem_map.mpr ⟨row, List.mem_filter.mpr ⟨hrow, by simp [h]⟩, h⟩, by simp⟩
  · simp only [h, decide_False, Bool.eq_false_iff, ne_eq, List.contains_iff_exists_mem_beq,
      not_exists, not_and]
    intro x hx hbeq
    obtain ⟨r, hr, rfl⟩ := List.mem_map.mp hx
    have hrt : r.id = target := by simpa using (List.mem_filter.mp hr).2
    have : row.id = r.id := by simpa using hbeq
    exact h (this.trans hrt)

theorem statusTargetIds_head (body : RequestBody) (store : Store) (target : Int)
    (hid : toNullableInt body.intake_id = some target) (h0 : target ≠ 0)
    (hex : ∃ row ∈ store.intakes, row.id = target) :
    (statusTargetIds body store).head? = some target := by
  rw [statusTargetIds_of_id body store target hid h0]
  obtain ⟨row, hrow, hrt⟩ := hex
  have hmem : row ∈ store.intakes.filter fun row => row.id == target :=
    List.mem_filter.mpr ⟨hrow, by simp [hrt]⟩
  cases hf : store.intakes.filter fun row => row.id == target with
  | nil => rw [hf] at hmem; cases hmem
  | cons a as =>
    have ha : a ∈ store.intakes.filter fun row => row.id == target := by rw [hf]; simp
    have hat : a.id = target := by simpa using (List.mem_filter.mp ha).2
    simp [hat]

theorem patchIntakeStatusRun_sets (moment : Moment) (preparer : SupabaseUser)
    (body : RequestBody) (store : Store) (target : Int) (s : String)
    (hid : toNullableInt body.intake_id = some target) (h0 : target ≠ 0)
    (hex : ∃ row ∈ store.intakes, row.id = target)
    (hs : cleanText body.review_status = some s) (hmem : s ∈ reviewStatuses)
    (hup : moment.storeUp = true)
    (hacc : ∀ row ∈ store.intakes, row.id = target →
      moment.storeAccepts (reviewedRow moment (some s) (cleanText body.review_notes) row)
        = true) :
    (patchIntakeStatusRun moment preparer body store).2
      = { status := 200, body := .okId (some target) } ∧
    (patchIntakeStatusRun moment preparer body store).1.intakes
      = store.intakes.map (fun row =>
          if row.id = target then
            reviewedRow moment (some s) (cleanText body.review_notes) row
          else row) := by
  have hhead := statusTargetIds_head body store target hid h0 hex
  have hany : (List.filter (fun row => (statusTargetIds body store).contains row.id)
      store.intakes).any (fun row => !moment.storeAccepts
        (reviewedRow moment (some s) (cleanText body.review_notes) row)) = false := by
    rw [Bool.eq_false_iff]
    intro hany
    obtain ⟨row, hrow, hrej⟩ := List.any_eq_true.mp hany
    obtain ⟨hin, hc⟩ := List.mem_filter.mp hrow
    rw [statusTargetIds_contains body store target hid h0 row hin] at hc
    rw [hacc row hin (of_decide_eq_true hc)] at hrej
    cases hrej
  have hmap : store.intakes.map (fun row =>
        if (statusTargetIds body store).contains row.id then
          reviewedRow moment (some s) (cleanText body.review_notes) row
        else row)
      = store.intakes.map (fun row =>
          if row.id = target then
            reviewedRow moment (some s) (cleanText body.review_notes) row
          else row) := by
    apply List.map_congr_left
    intro row hrow
    rw [statusTargetIds_contains body store target hid h0 row hrow]
    simp
  unfold patchIntakeStatusRun
  simp only [hs, hid, hup, hany, hhead, hmap]
  simp [hmem, h0, logAuditEvent_intakes]

/-- C19: in every store reached from the empty store by submissions, updates
and status changes, every record has one of the six review statuses; and in
such a store an authorised preparer who addresses a record by its identifier
sets any of the six statuses on it, whatever its current status is, `filed`
included, when the store answers and accepts the row. -/
theorem review_status_within_six_values (store : Store) (h : Reachable store) :
    StatusesValid store ∧
    ∀ (env : Env) (moment : Moment) (authorization : String) (preparer : SupabaseUser)
      (body : RequestBody) (row : IntakeRow) (s : String),
      requirePreparerAuth env authorization = .ok preparer →
      row ∈ store.intakes → row.id ≠ 0 →
      toNullableInt body.intake_id = some row.id →
      cleanText body.review_status = some s → s ∈ reviewStatuses →
      moment.storeUp = true →
      (∀ r ∈ store.intakes, r.id = row.id →
        moment.storeAccepts (reviewedRow moment (some s) (cleanText body.review_notes) r)
          = true) →
      (patchIntakeStatusRoute env moment authorization body store).2
        = { status := 200, body := .okId (some row.id) } ∧
      (patchIntakeStatusRoute env moment authorization body store).1.intakes
        = store.intakes.map (fun r =>
            if r.id = row.id then
              reviewedRow moment (some s) (cleanText body.review_notes) r
            else r) := by
  refine ⟨reachable_statusesValid store h, ?_⟩
  intro env moment authorization preparer body row s hauth hrow h0 hid hs hmem hup hacc
  unfold patchIntakeStatusRoute
  rw [hauth]
  show (patchIntakeStatus moment preparer body store).2 = _ ∧
    (patchIntakeStatus moment preparer body store).1.intakes = _
  rw [patchIntakeStatus_eq_run]
  exact patchIntakeStatusRun_sets moment preparer body store row.id s hid h0 ⟨row, hrow, rfl⟩ hs
    hmem hup hacc

/-- Witness for C19: the intake submitted by `user-1` and then set to `filed`
is set back to `in_review` by the preparer. -/
theorem review_status_within_six_values_witness :
    Reachable sampleReviewedStore ∧
    sampleReviewedStore.intakes.map (fun row => (row.id, row.review_status))
      = [(1, some "filed")] ∧
    StatusesValid sampleReviewedStore ∧
    (patchIntakeStatusRoute samplePreparerEnv sampleMoment "Bearer client-token"
        { review_status := .str "in_review", intake_id := .num 1 } sampleReviewedStore).2
      = { status := 200, body := .okId (some 1) } ∧
    (patchIntakeStatusRoute samplePreparerEnv sampleMoment "Bearer client-token"
        { review_status := .str "in_review", intake_id := .num 1 }
        sampleReviewedStore).1.intakes.map (fun row => (row.id, row.review_status))
      = [(1, some "in_review")] :=
  ⟨Reachable.review _ _ _ _ (Reachable.submit _ _ _ _ Reachable.empty), rfl,
   (review_status_within_six_values sampleReviewedStore
      (Reachable.review _ _ _ _ (Reachable.submit _ _ _ _ Reachable.empty))).1,
   ((review_status_within_six_values sampleReviewedStore
      (Reachable.review _ _ _ _ (Reachable.submit _ _ _ _ Reachable.empty))).2
      samplePreparerEnv sampleMoment "Bearer client-token" sampleUser
      { review_status := .str "in_review", intake_id := .num 1 }
      (reviewedRow sampleMoment (some "filed") none
        (submittedRow sampleEnv sampleMoment
          { sampleSubmission with client_user_id := .str "user-1" } emptyStore (some "user-1")
          none))
      "in_review" rfl (List.Mem.head _) (by decide) rfl rfl (by decide) rfl
      (fun _ _ _ => rfl)).1,
   rfl⟩

end TaxAgent.Server

namespace TaxAgent.Server

/-! ### The record of an upload -/

theorem insertTaken_upload : insertTaken uploadInsertColumns uploadInsertValues = false := by
  decide

theorem postUploadsRecordInsert_rejected (env : Env) (moment : Moment) (user : SupabaseUser)
    (data : UploadRecordBody) (tables : UploadTables) (store : Store) (owner : Option String) :
    (postUploadsRecordInsert env moment user data tables store owner).tables = tables ∧
    (postUploadsRecordInsert env moment user data tables store owner).store = store ∧
    (postUploadsRecordInsert env moment user data tables store owner).response = serverError ∧
    ∃ record,
      (postUploadsRecordInsert env moment user data tables store owner).submitted = some record ∧
      record.client_user_id = owner ∧
      record.uploader_user_id = orNull (some user.id) ∧
      record.uploader_role
        = (if isPreparerAllowed env user.email then "preparer" else "client") := by
  unfold postUploadsRecordInsert
  simp only [insertTaken_upload, Bool.not_false, Bool.or_true, if_true]
  exact ⟨trivial, trivial, trivial, _, rfl, rfl, rfl, rfl⟩

theorem postUploadsRecord_stores_nothing (env : Env) (moment : Moment) (user : SupabaseUser)
    (data : UploadRecordBody) (tables : UploadTables) (store : Store) :
    (postUploadsRecord env moment user data tables store).tables = tables ∧
    (postUploadsRecord env moment user data tables store).store = store ∧
    (postUploadsRecord env moment user data tables store).response.status ≠ 200 := by
  have hinsert : ∀ owner,
      (postUploadsRecordInsert env moment user data tables store owner).tables = tables ∧
      (postUploadsRecordInsert env moment user data tables store owner).store = store ∧
      (postUploadsRecordInsert env moment user data tables store owner).response.status
        ≠ 200 := by
    intro owner
    obtain ⟨h1, h2, h3, _⟩ :=
      postUploadsRecordInsert_rejected env moment user data tables store owner
    refine ⟨h1, h2, ?_⟩
    rw [h3]
    decide
  unfold postUploadsRecord
  simp only
  split
  · exact ⟨rfl, rfl, by simp [badRequest]⟩
  · split
    · split
      · exact ⟨rfl, rfl, by simp [serverError]⟩
      · split
        · exact ⟨rfl, rfl, by simp⟩
        · exact hinsert _
    · exact hinsert _

theorem postUploadsRecord_of_client (env : Env) (moment : Moment) (user : SupabaseUser)
    (data : UploadRecordBody) (tables : UploadTables) (store : Store)
    (hclient : isPreparerAllowed env user.email = false)
    (hname : (cleanText data.file_name).isSome = true)
    (hpath : (cleanText data.storage_path).isSome = true) :
    postUploadsRecord env moment user data tables store
      = postUploadsRecordInsert env moment user data tables store
          (cleanText data.client_user_id) := by
  unfold postUploadsRecord
  cases hn : cleanText data.file_name with
  | none => rw [hn] at hname; cases hname
  | some name =>
    cases hp : cleanText data.storage_path with
    | none => rw [hp] at hpath; cases hpath
    | some path => simp [hclient]

/-- C20: the claim speaks of the upload record that a request of the client
role creates, owned by the requester; the handler creates none. For every
`POST /api/uploads/record`, whoever sends it, the tables and the audit log are
left as they were and the answer is not 200; for every request of the client
role that names a file and a storage path, the answer is 500 `Server error.`,
after the handler has handed its thirteen parameters to the `INSERT`, the
first of them the trimmed `client_user_id` of the body, the third the user id
of the requester, the fourth the role `client`. -/
theorem upload_record_never_created (env : Env) (moment : Moment) (user : SupabaseUser)
    (data : UploadRecordBody) (tables : UploadTables) (store : Store) :
    (postUploadsRecord env moment user data tables store).tables = tables ∧
    (postUploadsRecord env moment user data tables store).store = store ∧
    (postUploadsRecord env moment user data tables store).response.status ≠ 200 ∧
    (isPreparerAllowed env user.email = false →
      (cleanText data.file_name).isSome = true →
      (cleanText data.storage_path).isSome = true →
      (postUploadsRecord env moment user data tables store).response
          = { status := 500, body := .error "Server error." } ∧
        ∃ record,
          (postUploadsRecord env moment user data tables store).submitted = some record ∧
          record.client_user_id = cleanText data.client_user_id ∧
          record.uploader_user_id = orNull (some user.id) ∧
          record.uploader_role = "client") := by
  obtain ⟨h1, h2, h3⟩ := postUploadsRecord_stores_nothing env moment user data tables store
  refine ⟨h1, h2, h3, ?_⟩
  intro hclient hname hpath
  rw [postUploadsRecord_of_client env moment user data tables store hclient hname hpath]
  obtain ⟨_, _, hresponse, record, hsubmitted, howner, huploader, hrole⟩ :=
    postUploadsRecordInsert_rejected env moment user data tables store
      (cleanText data.client_user_id)
  rw [hclient] at hrole
  exact ⟨hresponse, record, hsubmitted, howner, huploader, hrole⟩

/-- Witness for C20: `user-1`, who has the client role, posts the metadata of a
file it has stored under its own folder, with itself as the owning client; the
answer is 500 and no upload record exists afterwards. -/
theorem upload_record_never_created_witness :
    isPreparerAllowed sampleEnv sampleUser.email = false ∧
    sampleUser.id = "user-1" ∧
    (postUploadsRecord sampleEnv sampleMoment sampleUser sampleOwnUpload emptyUploadTables
        emptyStore).tables = emptyUploadTables ∧
    (postUploadsRecord sampleEnv sampleMoment sampleUser sampleOwnUpload emptyUploadTables
        emptyStore).store = emptyStore ∧
    (postUploadsRecord sampleEnv sampleMoment sampleUser sampleOwnUpload emptyUploadTables
        emptyStore).response = { status := 500, body := .error "Server error." } ∧
    ∃ record,
      (postUploadsRecord sampleEnv sampleMoment sampleUser sampleOwnUpload emptyUploadTables
        emptyStore).submitted = some record ∧
      record.client_user_id = cleanText sampleOwnUpload.client_user_id ∧
      record.uploader_user_id = orNull (some sampleUser.id) ∧
      record.uploader_role = "client" :=
  ⟨rfl, rfl,
   (upload_record_never_created sampleEnv sampleMoment sampleUser sampleOwnUpload
      emptyUploadTables emptyStore).1,
   (upload_record_never_created sampleEnv sampleMoment sampleUser sampleOwnUpload
      emptyUploadTables emptyStore).2.1,
   (upload_record_never_created sampleEnv sampleMoment sampleUser sampleOwnUpload
      emptyUploadTables emptyStore).2.2.2 rfl rfl rfl⟩

end TaxAgent.Server

namespace TaxAgent.Server

/-! ### The owner fields and the amounts of a stored intake -/

theorem postIntakeRun_created_email (env : Env) (moment : Moment) (body : RequestBody)
    (store : Store) :
    (postIntakeRun env moment body store).response.status = 200 →
      cleanText body.email ≠ none := by
  unfold postIntakeRun
  simp only
  repeat' split
  all_goals simp_all [serverError, badRequest]

theorem postIntake_created_row (env : Env) (moment : Moment) (body : RequestBody) (store : Store)
    (row : IntakeRow)
    (hrow : (postIntake env moment body store).1.intakes = store.intakes ++ [row]) :
    cleanText body.email ≠ none ∧
    ∃ id estimate, cleanText body.client_user_id = some id ∧
      row = submittedRow env moment body store (some id) estimate := by
  rw [postIntake_eq_run] at hrow
  have hrow : (postIntakeRun env moment body store).store.intakes = store.intakes ++ [row] := hrow
  rcases postIntakeRun_outcome env moment body store with
    ⟨hsame, _⟩ | ⟨id, estimate, hid, hresp, hstore⟩
  · rw [hsame] at hrow
    have := congrArg List.length hrow
    simp at this
  · rw [hstore, logAuditEvent_intakes] at hrow
    have heq := List.append_cancel_left hrow
    have hr : row = submittedRow env moment body store (some id) estimate := by
      simpa using heq.symm
    exact ⟨postIntakeRun_created_email env moment body store (by rw [hresp]), id, estimate, hid, hr⟩

theorem roundToDouble_intCast (n : ℤ) (h : n.natAbs ≤ 9007199254740992) :
    roundToDouble (n : ℚ) = some (n : ℚ) := by
  unfold roundToDouble
  rw [if_pos]
  exact ⟨Rat.den_intCast n, by rw [Rat.num_intCast]; exact h⟩

theorem toNullableNumber_minus_five : toNullableNumber (.str "-5") = some (-5) := by
  have htrim : (trim "-5").data = ['-', '5'] := by decide
  have hu : unsignedDecimal ['5'] = some 5 := by
    have h1 : List.takeWhile isDigit ['5'] = ['5'] := by decide
    have h2 : List.dropWhile isDigit ['5'] = [] := by decide
    have h3 : digitsValue ['5'] = 5 := by decide
    simp [unsignedDecimal, h1, h2, h3]
  show stringToNumber "-5" = some (-5)
  unfold stringToNumber
  simp only [htrim, hu, Option.map_some', Option.some_bind]
  have h := roundToDouble_intCast (-5) (by decide)
  simpa using h

theorem nearestDouble_above_safe_integers :
    nearestDouble 9007199254740993 1 = (4503599627370496, 1) := by
  decide

theorem roundToDouble_above_safe_integers :
    roundToDouble (9007199254740993 : ℚ) = some (9007199254740992 : ℚ) := by
  have hden : (9007199254740993 : ℚ).den = 1 := Rat.den_ofNat _
  have hnum : (9007199254740993 : ℚ).num = 9007199254740993 := Rat.num_ofNat _
  have hn : Int.natAbs 9007199254740993 = 9007199254740993 := rfl
  unfold roundToDouble
  rw [hden, hnum, hn, nearestDouble_above_safe_integers]
  norm_num [doubleOverflow]

theorem toNullableNumber_rounds :
    toNullableNumber (.str "9007199254740993") = some (9007199254740992 : ℚ) ∧
    toNullableInt (.str "9007199254740993") = some 9007199254740992 := by
  have htrim : (trim "9007199254740993").data = "9007199254740993".data := by decide
  have hu : unsignedDecimal "9007199254740993".data = some 9007199254740993 := by
    have h1 : List.takeWhile isDigit "9007199254740993".data = "9007199254740993".data := by
      decide
    have h2 : List.dropWhile isDigit "9007199254740993".data = [] := by decide
    have h3 : digitsValue "9007199254740993".data = 9007199254740993 := by decide
    unfold unsignedDecimal
    rw [h1, h2]
    simp [h3]
  refine ⟨?_, by decide⟩
  show stringToNumber "9007199254740993" = some (9007199254740992 : ℚ)
  unfold stringToNumber
  rw [htrim]
  show (unsignedDecimal "9007199254740993".data).bind roundToDouble = _
  rw [hu, Option.some_bind]
  exact roundToDouble_above_safe_integers

/-- C21, as the claim states it, fails: the record created for a submission
that carries the owner `user-1` and the email `ada@example.com` has both its
owning user id and its owning email set. -/
theorem submitted_record_has_both_owners :
    (postIntake sampleEnv sampleMoment
        { sampleSubmission with client_user_id := .str "user-1" } emptyStore).2
      = { status := 200, body := .okId (some 1) } ∧
    (postIntake sampleEnv sampleMoment
        { sampleSubmission with client_user_id := .str "user-1" } emptyStore).1.intakes.map
        (fun row => (row.client_user_id, row.email))
      = [(some "user-1", some "ada@example.com")] :=
  ⟨rfl, rfl⟩

/-- C21, amended: for every intake record created by submit, the owning email
is non-null at creation, being the trimmed `email` of the body, which is a
required field; the owning user id is the trimmed `client_user_id` of the
body, stored next to the email. -/
theorem submitted_record_owner_fields (env : Env) (moment : Moment) (body : RequestBody)
    (store : Store) (row : IntakeRow)
    (hrow : (postIntake env moment body store).1.intakes = store.intakes ++ [row]) :
    row.email ≠ none ∧ row.email = cleanText body.email ∧
    row.client_user_id = cleanText body.client_user_id := by
  obtain ⟨hemail, id, estimate, hid, hr⟩ := postIntake_created_row env moment body store row hrow
  subst hr
  exact ⟨hemail, rfl, hid.symm⟩

/-- Witness for C21, amended: the sample submission of `user-1`. -/
theorem submitted_record_owner_fields_witness :
    (submittedRow sampleEnv sampleMoment { sampleSubmission with client_user_id := .str "user-1" }
        emptyStore (some "user-1") none).email ≠ none ∧
    (submittedRow sampleEnv sampleMoment { sampleSubmission with client_user_id := .str "user-1" }
        emptyStore (some "user-1") none).email = some "ada@example.com" ∧
    (submittedRow sampleEnv sampleMoment { sampleSubmission with client_user_id := .str "user-1" }
        emptyStore (some "user-1") none).client_user_id = some "user-1" :=
  submitted_record_owner_fields sampleEnv sampleMoment
    { sampleSubmission with client_user_id := .str "user-1" } emptyStore
    (submittedRow sampleEnv sampleMoment { sampleSubmission with client_user_id := .str "user-1" }
      emptyStore (some "user-1") none) rfl

/-- C22, as the claim states it, fails: a submission whose `wages` is `-5` is
stored, and the amount persisted is the negative number -5. -/
theorem negative_amount_persisted :
    (postIntake sampleEnv sampleMoment
        { sampleSubmission with client_user_id := .str "user-1", wages := .str "-5" }
        emptyStore).2 = { status := 200, body := .okId (some 1) } ∧
    (postIntake sampleEnv sampleMoment
        { sampleSubmission with client_user_id := .str "user-1", wages := .str "-5" }
        emptyStore).1.intakes.map (fun row => row.wages) = [some (-5)] ∧
    (-5 : ℚ) < 0 := by
  refine ⟨rfl, ?_, by norm_num⟩
  rw [← toNullableNumber_minus_five]
  rfl

/-- C22, amended: every financial amount persisted by submit or update (wages,
federal withholding, 1099 income, investment income, retirement income,
mortgage interest, charitable contributions, student-loan interest, HSA
contributions) is the value that `toNullableNumber` gives for the field of the
body, for every request body: null when the field is absent, null or empty,
otherwise null or the number the field converts to, whatever its sign; an
integer of at most 2^53 in absolute value, sent as a JSON number, is persisted
as it is. -/
theorem amounts_persisted_as_sent (env : Env) (moment : Moment) (user : SupabaseUser)
    (body : RequestBody) (store : Store) :
    (∀ row, (postIntake env moment body store).1.intakes = store.intakes ++ [row] →
      AmountsAsSent body row) ∧
    ((patchIntake env moment user body store).2.status = 200 →
      ∀ row ∈ (patchIntake env moment user body store).1.intakes,
        ownedBy ((toNullableInt body.intake_id).getD 0) (cleanText (.str user.id))
          (normalizeEmail user.email) row = true → AmountsAsSent body row) ∧
    (toNullableNumber .undefined = none ∧ toNullableNumber .null = none ∧
      toNullableNumber (.str "") = none) ∧
    (∀ n : ℤ, n.natAbs ≤ 9007199254740992 → toNullableNumber (.num n) = some (n : ℚ)) := by
  refine ⟨?_, ?_, ⟨rfl, rfl, rfl⟩, fun n hn => roundToDouble_intCast n hn⟩
  · intro row hrow
    obtain ⟨_, id, estimate, _, hr⟩ := postIntake_created_row env moment body store row hrow
    subst hr
    exact ⟨rfl, rfl, rfl, rfl, rfl, rfl, rfl, rfl, rfl⟩
  · intro h
    exact (patchIntake_updated_rows env moment user body store (AmountsAsSent body) h
      (fun _ _ => ⟨rfl, rfl, rfl, rfl, rfl, rfl, rfl, rfl, rfl⟩)).2

/-- Witness for C22, amended: the owner of the filed intake updates it with the
JSON number -5 as wages, and -5 is the amount of the record afterwards. -/
theorem amounts_persisted_as_sent_witness :
    (patchIntake sampleEnv sampleMoment sampleUser { sampleUpdate with wages := .num (-5) }
        sampleFiledStore).2.status = 200 ∧
    (∀ row ∈ (patchIntake sampleEnv sampleMoment sampleUser
        { sampleUpdate with wages := .num (-5) } sampleFiledStore).1.intakes,
      ownedBy ((toNullableInt (JsValue.num 1)).getD 0) (cleanText (.str sampleUser.id))
          (normalizeEmail sampleUser.email) row = true →
        AmountsAsSent { sampleUpdate with wages := .num (-5) } row) ∧
    (-5 : ℤ).natAbs ≤ 9007199254740992 ∧
    toNullableNumber (.num (-5)) = some ((-5 : ℤ) : ℚ) :=
  ⟨rfl,
   (amounts_persisted_as_sent sampleEnv sampleMoment sampleUser
      { sampleUpdate with wages := .num (-5) } sampleFiledStore).2.1 rfl,
   by decide,
   (amounts_persisted_as_sent sampleEnv sampleMoment sampleUser
      { sampleUpdate with wages := .num (-5) } sampleFiledStore).2.2.2 (-5) (by decide)⟩

end TaxAgent.Server

namespace TaxAgent.App

open UploadSecurity

/-! ## The naming policy of the intake form -/

/-- The message of a violation of the rule. -/
theorem ruleMessage_ne_empty (rule : FileNameRule) :
    "Rename the " ++ rule.label ++ " file to include " ++ " or ".intercalate rule.display ++
      ". Example: " ++ rule.exampleName ++ "." ≠ "" := by
  intro h
  have := congrArg String.length h
  simp only [String.length_append] at this
  have hdot : ".".length = 1 := by decide
  rw [hdot] at this
  simp at this

theorem getFileNameError_rule (input : FileInput) (rule : FileNameRule)
    (htype : input.type = "file") (hrule : fileNameRules input.name = some (.rule rule)) :
    getFileNameError (some input)
      = .ok (if input.files.any (fun file => !matchesFileNameTokens file.name rule.tokens) then
          "Rename the " ++ rule.label ++ " file to include " ++
            " or ".intercalate rule.display ++ ". Example: " ++ rule.exampleName ++ "."
        else "") := by
  unfold getFileNameError
  simp only [htype, hrule, ne_eq, not_true_eq_false, if_false]
  cases hfiles : input.files with
  | nil => simp
  | cons file rest =>
    cases hfind : (file :: rest).find?
        (fun file => !matchesFileNameTokens file.name rule.tokens) with
    | none =>
      have hany : (file :: rest).any (fun file => !matchesFileNameTokens file.name rule.tokens)
          = false := by
        rw [Bool.eq_false_iff]
        intro hany
        obtain ⟨f, hf, hp⟩ := List.any_eq_true.mp hany
        exact absurd hp (by simpa using List.find?_eq_none.mp hfind f hf)
      simp [hany]
    | some found =>
      have hany : (file :: rest).any (fun file => !matchesFileNameTokens file.name rule.tokens)
          = true :=
        List.any_eq_true.mpr ⟨found, List.mem_of_find?_eq_some hfind,
          List.find?_some (p := fun (file : UploadFile) =>
            !matchesFileNameTokens file.name rule.tokens) hfind⟩
      simp [hany]

theorem char_le_iff (c d : Char) : c ≤ d ↔ c.toNat ≤ d.toNat := Iff.rfl

theorem char_ge_val (c : Char) (n : UInt32) : (c.val ≥ n) ↔ n.toNat ≤ c.toNat := Iff.rfl

theorem char_le_val (c : Char) (n : UInt32) : (c.val ≤ n) ↔ c.toNat ≤ n.toNat := Iff.rfl

theorem lowerChar_of_isAlpha (c : Char) (h : c.isAlpha = true) : lowerChar c = [c.toLower] := by
  have hA : ('A' : Char).toNat = 65 := rfl
  have hZ : ('Z' : Char).toNat = 90 := rfl
  simp only [Char.isAlpha, Char.isUpper, Char.isLower, Bool.or_eq_true, Bool.and_eq_true,
    decide_eq_true_eq, char_ge_val, char_le_val] at h
  have h65 : (65 : UInt32).toNat = 65 := rfl
  have h90 : (90 : UInt32).toNat = 90 := rfl
  have h97 : (97 : UInt32).toNat = 97 := rfl
  have h122 : (122 : UInt32).toNat = 122 := rfl
  rw [h65, h90, h97, h122] at h
  have hascii : c.toNat < 128 := by omega
  unfold lowerChar Char.toLower
  simp only [char_le_iff, hA, hZ, ge_iff_le, hascii, if_true]
  by_cases hup : 65 ≤ c.toNat ∧ c.toNat ≤ 90
  · simp [hup]
  · simp [hup]

theorem lowerChar_of_isPunctuation (c : Char) (h : isPunctuation c = true) :
    (lowerChar c).filter (fun c => c.isLower || c.isDigit) = [] := by
  have hA : ('A' : Char).toNat = 65 := rfl
  have hZ : ('Z' : Char).toNat = 90 := rfl
  have h65 : (65 : UInt32).toNat = 65 := rfl
  have h90 : (90 : UInt32).toNat = 90 := rfl
  have h97 : (97 : UInt32).toNat = 97 := rfl
  have h122 : (122 : UInt32).toNat = 122 := rfl
  have h48 : (48 : UInt32).toNat = 48 := rfl
  have h57 : (57 : UInt32).toNat = 57 := rfl
  simp only [isPunctuation, Char.isAlphanum, Char.isAlpha, Char.isUpper, Char.isLower,
    Char.isDigit, Bool.or_eq_true, Bool.and_eq_true, Bool.not_eq_true', Bool.or_eq_false_iff,
    Bool.and_eq_false_iff, decide_eq_true_eq, decide_eq_false_iff_not, char_ge_val, char_le_val,
    h65, h90, h97, h122, h48, h57] at h
  have hup : ¬ (65 ≤ c.toNat ∧ c.toNat ≤ 90) := by omega
  have hascii : c.toNat < 128 := by omega
  have hl : lowerChar c = [c] := by
    unfold lowerChar
    simp only [char_le_iff, hA, hZ, hascii, if_true]
    simp [hup]
  rw [hl]
  have hlow : c.isLower = false := by
    simp only [Char.isLower, Bool.and_eq_false_iff, decide_eq_false_iff_not, char_ge_val,
      char_le_val, h97, h122]
    omega
  have hdig : c.isDigit = false := by
    simp only [Char.isDigit, Bool.and_eq_false_iff, decide_eq_false_iff_not, char_ge_val,
      char_le_val, h48, h57]
    omega
  simp [hlow, hdig]

theorem lowerCharAt_filter (before : List Char) (c : Char) (after : List Char) :
    (lowerCharAt before c after).filter (fun c => c.isLower || c.isDigit)
      = (lowerChar c).filter (fun c => c.isLower || c.isDigit) := by
  unfold lowerCharAt
  split
  · rename_i hsigma
    have hl : lowerChar c = [Char.ofNat 0x3C3] := by
      unfold lowerChar
      rw [if_neg (by omega), if_neg (by omega), hsigma]
      rfl
    rw [hl]
    split <;> rfl
  · rfl

theorem lowerCharsFrom_filter (before : List Char) (cs : List Char) :
    (lowerCharsFrom before cs).filter (fun c => c.isLower || c.isDigit)
      = (lowerCharsFrom [] cs).filter (fun c => c.isLower || c.isDigit) := by
  induction cs generalizing before with
  | nil => rfl
  | cons c cs ih =>
    simp only [lowerCharsFrom, List.filter_append, lowerCharAt_filter]
    rw [ih (c :: before), ih [c]]

theorem normalizeFileName_cons (c : Char) (cs : List Char) :
    (normalizeFileName (String.mk (c :: cs))).data
      = (lowerChar c).filter (fun c => c.isLower || c.isDigit)
          ++ (normalizeFileName (String.mk cs)).data := by
  simp only [normalizeFileName, toLowerCase, lowerCharsFrom, List.filter_append,
    lowerCharAt_filter]
  rw [lowerCharsFrom_filter [c] cs]

theorem normalizeFileName_change {a b : List Char} (h : CaseOrPunctuationChange a b) :
    normalizeFileName (String.mk a) = normalizeFileName (String.mk b) := by
  apply String.ext
  induction h with
  | done => rfl
  | keep c _ ih => rw [normalizeFileName_cons, normalizeFileName_cons, ih]
  | recase c d hc hd hcd _ ih =>
    rw [normalizeFileName_cons, normalizeFileName_cons, ih, lowerChar_of_isAlpha c hc,
      lowerChar_of_isAlpha d hd, hcd]
  | remove c hc _ ih => rw [normalizeFileName_cons, lowerChar_of_isPunctuation c hc, ih]; rfl
  | insert c hc _ ih => rw [normalizeFileName_cons, lowerChar_of_isPunctuation c hc, ih]; rfl

theorem any_rejected_change (tokens : List String) {files files' : List UploadFile}
    (h : List.Forall₂ (fun f g => CaseOrPunctuationChange f.name.data g.name.data) files files') :
    files.any (fun file => !matchesFileNameTokens file.name tokens)
      = files'.any (fun file => !matchesFileNameTokens file.name tokens) := by
  induction h with
  | nil => rfl
  | @cons f g _ _ hfg _ ih =>
    rw [List.any_cons, List.any_cons, ih]
    have hn : normalizeFileName f.name = normalizeFileName g.name :=
      normalizeFileName_change hfg
    unfold matchesFileNameTokens
    simp only [hn]

theorem any_rejected_iff (tokens : List String) (files : List UploadFile) :
    files.any (fun file => !matchesFileNameTokens file.name tokens) = true ↔
      ∃ file ∈ files, ∀ token ∈ tokens,
        includes (normalizeFileName file.name) (normalizeFileName token) = false := by
  simp [List.any_eq_true, matchesFileNameTokens]

/-- C23, where the code departs from the claim. For an input of type `file`:
with a known category (`w2_upload`, `mortgage_upload`, `id_upload`) the
function returns a violation message if and only if some selected file has a
normalised name that contains none of the normalised tokens of the category,
and the outcome is the same after a change of letter case or punctuation in
the file names; with a category that `fileNameRules` does not hold, or with an
empty selection, it returns no violation. But a category named like a member
that the object `fileNameRules` inherits (`constructor`, `toString`, ...) is
looked up as a rule without tokens: with a file selected the function does not
return, it throws a `TypeError`. -/
theorem getFileNameError_policy (input : FileInput) (htype : input.type = "file") :
    (∀ rule, fileNameRules input.name = some (.rule rule) →
      ((∃ file ∈ input.files, ∀ token ∈ rule.tokens,
          includes (normalizeFileName file.name) (normalizeFileName token) = false) →
        ∃ message, message ≠ "" ∧ getFileNameError (some input) = .ok message) ∧
      ((¬ ∃ file ∈ input.files, ∀ token ∈ rule.tokens,
          includes (normalizeFileName file.name) (normalizeFileName token) = false) →
        getFileNameError (some input) = .ok "") ∧
      ∀ files,
        List.Forall₂ (fun f g => CaseOrPunctuationChange f.name.data g.name.data)
          input.files files →
        getFileNameError (some { input with files := files })
          = getFileNameError (some input)) ∧
    (fileNameRules input.name = none ∨ input.files = [] →
      getFileNameError (some input) = .ok "") ∧
    (fileNameRules input.name = some .inherited → input.files ≠ [] →
      getFileNameError (some input)
        = .error (.typeError "Cannot read properties of undefined (reading 'some')")) := by
  refine ⟨?_, ?_, ?_⟩
  · intro rule hrule
    have hrun := getFileNameError_rule input rule htype hrule
    refine ⟨?_, ?_, ?_⟩
    · intro hex
      rw [hrun, if_pos ((any_rejected_iff rule.tokens input.files).mpr hex)]
      exact ⟨_, ruleMessage_ne_empty rule, rfl⟩
    · intro hno
      rw [hrun, if_neg (fun hany => hno ((any_rejected_iff rule.tokens input.files).mp hany))]
    · intro files hfiles
      rw [hrun, getFileNameError_rule { input with files := files } rule htype hrule]
      simp only [any_rejected_change rule.tokens hfiles]
  · intro h
    unfold getFileNameError
    rcases h with h | h
    · simp [htype, h]
    · simp only [htype, h]
      cases fileNameRules input.name <;> simp
  · intro hrule hfiles
    unfold getFileNameError
    have hne : input.files.isEmpty = false := by
      cases hf : input.files with
      | nil => exact absurd hf hfiles
      | cons _ _ => rfl
    simp [htype, hrule, hne]

/-- Witness for C23: in the W-2 category `W-2_2025.pdf` passes, as does the
same name in other case and punctuation, and `scan.pdf` is a violation; in a
category that is not known a file raises no violation, but in the category
named `constructor` the function throws. -/
theorem getFileNameError_policy_witness :
    getFileNameError (some (sampleW2Input "W-2_2025.pdf")) = .ok "" ∧
    getFileNameError (some (sampleW2Input "w2 (2025).PDF")) = .ok "" ∧
    getFileNameError (some (sampleW2Input "scan.pdf"))
      = .ok "Rename the W-2 or 1099 forms file to include W-2 or 1099. Example: W-2_2025.pdf." ∧
    getFileNameError (some { sampleW2Input "scan.pdf" with name := "other_upload" }) = .ok "" ∧
    getFileNameError (some { sampleW2Input "W-2_2025.pdf" with name := "constructor" })
      = .error (.typeError "Cannot read properties of undefined (reading 'some')") :=
  ⟨rfl, rfl, rfl,
   (getFileNameError_policy { sampleW2Input "scan.pdf" with name := "other_upload" } rfl).2.1
     (Or.inl rfl),
   (getFileNameError_policy { sampleW2Input "W-2_2025.pdf" with name := "constructor" }
     rfl).2.2 rfl (by decide)⟩

end TaxAgent.App

namespace TaxAgent.Upload

open UploadSecurity

/-! ## The storage paths of a batch -/

theorem digitChar_value (k : Nat) (h : k < 10) :
    (Nat.digitChar k).toNat - 48 = k ∧ Nat.digitChar k ≠ '-' := by
  interval_cases k <;> exact ⟨rfl, by decide⟩

theorem digitsValue_append_single (l : List Char) (d : Char) :
    digitsValue (l ++ [d]) = digitsValue l * 10 + (d.toNat - 48) := by
  simp [digitsValue, List.foldl_append]

theorem toDigitsCore_spec (fuel : Nat) : ∀ (n : Nat) (ds : List Char), n < fuel →
    ∃ l, Nat.toDigitsCore 10 fuel n ds = l ++ ds ∧ digitsValue l = n ∧ '-' ∉ l := by
  induction fuel with
  | zero => intro n ds h; omega
  | succ fuel ih =>
    intro n ds h
    have hd := digitChar_value (n % 10) (Nat.mod_lt n (by norm_num))
    unfold Nat.toDigitsCore
    by_cases h0 : n / 10 = 0
    · simp only [h0, if_true]
      refine ⟨[Nat.digitChar (n % 10)], rfl, ?_, ?_⟩
      · have : digitsValue [Nat.digitChar (n % 10)] = (Nat.digitChar (n % 10)).toNat - 48 := by
          simp [digitsValue]
        rw [this, hd.1]
        omega
      · simp only [List.mem_singleton]
        exact fun heq => hd.2 heq.symm
    · simp only [h0, if_false]
      obtain ⟨l, hl, hv, hm⟩ := ih (n / 10) (Nat.digitChar (n % 10) :: ds) (by omega)
      refine ⟨l ++ [Nat.digitChar (n % 10)], ?_, ?_, ?_⟩
      · rw [hl]; simp
      · rw [digitsValue_append_single, hv, hd.1]
        omega
      · simp only [List.mem_append, List.mem_singleton, not_or]
        exact ⟨hm, fun heq => hd.2 heq.symm⟩

theorem repr_spec (n : Nat) : digitsValue (toString n).data = n ∧ '-' ∉ (toString n).data := by
  obtain ⟨l, hl, hv, hm⟩ := toDigitsCore_spec (n + 1) n [] (by omega)
  have hdata : (toString n).data = l := by
    show (Nat.toDigits 10 n).asString.data = l
    simp [Nat.toDigits, hl, List.asString]
  rw [hdata]
  exact ⟨hv, hm⟩

theorem append_cons_cancel {α : Type} (c : α) :
    ∀ (l₁ l₂ x y : List α), c ∉ l₁ → c ∉ l₂ → l₁ ++ c :: x = l₂ ++ c :: y → l₁ = l₂
  | [], [], _, _, _, _, _ => rfl
  | [], b :: l₂, _, _, _, h₂, h => by
    simp only [List.nil_append, List.cons_append, List.cons.injEq] at h
    exact absurd (h.1 ▸ List.mem_cons_self _ _) h₂
  | a :: l₁, [], _, _, h₁, _, h => by
    simp only [List.nil_append, List.cons_append, List.cons.injEq] at h
    exact absurd (h.1 ▸ List.mem_cons_self _ _) h₁
  | a :: l₁, b :: l₂, x, y, h₁, h₂, h => by
    simp only [List.cons_append, List.cons.injEq] at h
    rw [h.1, append_cons_cancel c l₁ l₂ x y (fun hm => h₁ (List.mem_cons_of_mem _ hm))
      (fun hm => h₂ (List.mem_cons_of_mem _ hm)) h.2]

/-- C25: in a batch of two or more files, the storage paths built for two
different positions differ, whatever the two file names are and whatever
17-character timestamps `buildTimestamp` returns for them, equal ones
included. -/
theorem storagePath_distinct (env : UploadEnv) (context : UploadContext) (total i j : Nat)
    (first second : String) (htotal : 2 ≤ total) (hij : i ≠ j)
    (hi : (env.buildTimestamp (i - 1)).length = 17)
    (hj : (env.buildTimestamp (j - 1)).length = 17) :
    storagePath env context total i first ≠ storagePath env context total j second := by
  intro h
  have htot : total > 1 := by omega
  unfold storagePath at h
  simp only [htot, if_true] at h
  have hdata := congrArg String.data h
  simp only [String.data_append] at hdata
  simp only [List.append_assoc] at hdata
  have h1 := List.append_cancel_left hdata
  have h2 := List.append_cancel_left h1
  have h3 := List.append_cancel_left h2
  have hlen : (env.buildTimestamp (i - 1)).data.length = (env.buildTimestamp (j - 1)).data.length := by
    show (env.buildTimestamp (i - 1)).length = (env.buildTimestamp (j - 1)).length
    rw [hi, hj]
  have h4 := (List.append_inj h3 hlen).2
  simp only [List.singleton_append, List.cons_append, List.nil_append, List.cons.injEq,
    true_and] at h4
  have h5 := append_cons_cancel '-' _ _ _ _ (repr_spec i).2 (repr_spec j).2 h4
  have h6 : digitsValue (toString i).data = digitsValue (toString j).data := by rw [h5]
  rw [(repr_spec i).1, (repr_spec j).1] at h6
  exact hij h6

/-- Witness for C25: the second and the third file of a batch of three, both
named `w2.pdf`, at the same instant. -/
theorem storagePath_distinct_witness :
    storagePath sampleEnv sampleContext 3 2 "w2.pdf" = "uploads/ada/20250101120000000-2-w2.pdf" ∧
    storagePath sampleEnv sampleContext 3 3 "w2.pdf" = "uploads/ada/20250101120000000-3-w2.pdf" ∧
    storagePath sampleEnv sampleContext 3 2 "w2.pdf"
      ≠ storagePath sampleEnv sampleContext 3 3 "w2.pdf" :=
  ⟨by decide, by decide,
   storagePath_distinct sampleEnv sampleContext 3 2 3 "w2.pdf" "w2.pdf" (by decide) (by decide)
     (by decide) (by decide)⟩

end TaxAgent.Upload

namespace TaxAgent

/-! ## The result of a batch upload that fails -/

namespace Upload

open UploadSecurity

theorem recordUpload_objects (env : UploadEnv) (payload : UploadPayload) (stored : Stored) :
    (recordUpload env payload stored).objects = stored.objects := by
  unfold recordUpload
  split
  · rfl
  · split <;> rfl

theorem uploadedObjects_length (env : UploadEnv) (context : UploadContext) (total : Nat)
    (files : List UploadFile) :
    ∀ counter, (uploadedObjects env context total counter files).length = files.length := by
  induction files with
  | nil => intro _; rfl
  | cons file rest ih => intro counter; simp [uploadedObjects, ih]

end Upload

namespace App

open UploadSecurity Upload

theorem uploadIntakeLoop_storage_failure (env : UploadEnv) (context : UploadContext) (userId : String)
    (total : Nat) (results : List ScanEntry) (bad : UploadItem) (after : List UploadItem)
    (errorMessage : String) :
    ∀ (before : List UploadItem) (counter : Nat) (stored : Stored),
      allStored env context total counter (before.map fun item => item.file) = true →
      env.storageError
          (storagePath env context total (counter + before.length + 1) bad.file.name) bad.file
        = some errorMessage →
      (uploadLoop env context userId total results (before ++ bad :: after) counter stored).2
        = some ("Document upload failed for " ++ bad.file.name ++
            ". Please retry in the dashboard.") ∧
      (uploadLoop env context userId total results (before ++ bad :: after) counter
          stored).1.objects
        = stored.objects ++
            uploadedObjects env context total counter (before.map fun item => item.file) := by
  intro before
  induction before with
  | nil =>
    intro counter stored _ hbad
    simp only [List.length_nil, Nat.add_zero] at hbad
    simp [uploadLoop, hbad, uploadedObjects]
  | cons item rest ih =>
    intro counter stored hbefore hbad
    simp only [List.map_cons, allStored, Bool.and_eq_true, Option.isNone_iff_eq_none] at hbefore
    have hbad' : env.storageError
        (storagePath env context total (counter + 1 + rest.length + 1) bad.file.name) bad.file
        = some errorMessage := by
      rw [← hbad]
      simp only [List.length_cons]
      congr 2
      omega
    simp only [List.cons_append, uploadLoop, hbefore.1]
    obtain ⟨h1, h2⟩ := ih (counter + 1) _ hbefore.2 hbad'
    refine ⟨h1, h2.trans ?_⟩
    rw [recordUpload_objects]
    simp [uploadedObjects]

theorem uploadIntakeDocuments_storage_failure (env : UploadEnv) (context : UploadContext)
    (userId : String) (before : List UploadItem) (bad : UploadItem) (after : List UploadItem)
    (stored : Stored) (dlpHits : Nat) (warnings : List String) (results : List ScanEntry)
    (errorMessage : String)
    (hsupabase : env.supabase = true) (huser : context.user = some userId)
    (hkey : context.usernameKey ≠ "")
    (hallowed : ∀ i ∈ before ++ bad :: after,
      env.allowedTypes.contains i.file.type = true ∧ i.file.size ≤ env.maxUploadSize)
    (hscan : (scanFiles ((before ++ bad :: after).map fun item => item.file)).outcome
      = .ok (.passed dlpHits warnings results))
    (hbefore : allStored env context (before ++ bad :: after).length 0
      (before.map fun item => item.file) = true)
    (hbad : env.storageError
        (storagePath env context (before ++ bad :: after).length (before.length + 1)
          bad.file.name) bad.file
      = some errorMessage) :
    (uploadIntakeDocuments env context (before ++ bad :: after) stored).outcome
      = .ok (.failed ("Document upload failed for " ++ bad.file.name ++
          ". Please retry in the dashboard.")) ∧
    (uploadIntakeDocuments env context (before ++ bad :: after) stored).stored.objects
      = stored.objects ++ uploadedObjects env context (before ++ bad :: after).length 0
          (before.map fun item => item.file) := by
  have hnonempty : (before ++ bad :: after).isEmpty = false := by
    cases before <;> rfl
  have hfind : (before ++ bad :: after).find? (fun item =>
      !env.allowedTypes.contains item.file.type ||
        decide (item.file.size > env.maxUploadSize)) = none := by
    rw [List.find?_eq_none]
    intro i hi
    have := hallowed i hi
    have hmem : i.file.type ∈ env.allowedTypes := by simpa using this.1
    simp [hmem, Nat.not_lt.mpr this.2]
  have hloop := uploadIntakeLoop_storage_failure env context userId (before ++ bad :: after).length
    results bad after errorMessage before 0 stored hbefore (by simpa using hbad)
  unfold uploadIntakeDocuments
  simp only [hnonempty, Bool.false_eq_true, if_false, hsupabase, Bool.not_true, huser, hkey,
    hfind, hscan]
  cases hrun : uploadLoop env context userId (before ++ bad :: after).length results
      (before ++ bad :: after) 0 stored with
  | mk left message =>
    rw [hrun] at hloop
    obtain ⟨h1, h2⟩ := hloop
    simp only at h1 h2
    subst h1
    exact ⟨rfl, h2⟩

end App

namespace Vault

open UploadSecurity Upload

theorem uploadFilesLoop_storage_failure (env : UploadEnv) (context : UploadContext)
    (total : Nat) (results : List ScanEntry) (bad : UploadFile) (after : List UploadFile)
    (errorMessage : String) :
    ∀ (before : List UploadFile) (counter : Nat) (page : Page),
      allStored env context total counter before = true →
      env.storageError (storagePath env context total (counter + before.length + 1) bad.name) bad
        = some errorMessage →
      (uploadLoop env context total results (before ++ bad :: after) counter page).2 = false ∧
      (uploadLoop env context total results (before ++ bad :: after) counter page).1.message
        = ("Upload failed: " ++ (if errorMessage = "" then bad.name else errorMessage),
           "error") ∧
      (uploadLoop env context total results (before ++ bad :: after) counter
          page).1.stored.objects
        = page.stored.objects ++ uploadedObjects env context total counter before := by
  intro before
  induction before with
  | nil =>
    intro counter page _ hbad
    simp only [List.length_nil, Nat.add_zero] at hbad
    simp [uploadLoop, hbad, uploadedObjects]
  | cons file rest ih =>
    intro counter page hbefore hbad
    simp only [allStored, Bool.and_eq_true, Option.isNone_iff_eq_none] at hbefore
    have hbad' : env.storageError
        (storagePath env context total (counter + 1 + rest.length + 1) bad.name) bad
        = some errorMessage := by
      rw [← hbad]
      simp only [List.length_cons]
      congr 2
      omega
    simp only [List.cons_append, uploadLoop, hbefore.1]
    obtain ⟨h1, h2, h3⟩ := ih (counter + 1) _ hbefore.2 hbad'
    refine ⟨h1, h2, h3.trans ?_⟩
    rw [recordUpload_objects]
    simp [uploadedObjects]

theorem uploadFiles_storage_failure (env : UploadEnv) (context : UploadContext)
    (before : List UploadFile) (bad : UploadFile) (after : List UploadFile) (page : Page)
    (dlpHits : Nat) (warnings : List String) (results : List ScanEntry) (errorMessage : String)
    (hsupabase : env.supabase = true) (hkey : context.usernameKey ≠ "")
    (hnames : ∀ f ∈ before ++ bad :: after, getDocumentNameError f = "")
    (hallowed : ∀ f ∈ before ++ bad :: after,
      env.allowedTypes.contains f.type = true ∧ f.size ≤ env.maxUploadSize)
    (hscan : (scanFiles (before ++ bad :: after)).outcome
      = .ok (.passed dlpHits warnings results))
    (hbefore : allStored env context (before ++ bad :: after).length 0 before = true)
    (hbad : env.storageError
        (storagePath env context (before ++ bad :: after).length (before.length + 1) bad.name)
        bad
      = some errorMessage) :
    (uploadFiles env true context (before ++ bad :: after) page).thrown = none ∧
    (uploadFiles env true context (before ++ bad :: after) page).page.message
      = ("Upload failed: " ++ (if errorMessage = "" then bad.name else errorMessage),
         "error") ∧
    (uploadFiles env true context (before ++ bad :: after) page).page.stored.objects
      = page.stored.objects ++ uploadedObjects env context (before ++ bad :: after).length 0
          before := by
  have hnonempty : (before ++ bad :: after).isEmpty = false := by
    cases before <;> rfl
  have hfind1 : (before ++ bad :: after).find? (fun file => getDocumentNameError file != "")
      = none := by
    rw [List.find?_eq_none]
    intro f hf
    simp [hnames f hf]
  have hfind2 : (before ++ bad :: after).find? (fun file =>
      !env.allowedTypes.contains file.type || decide (file.size > env.maxUploadSize)) = none := by
    rw [List.find?_eq_none]
    intro f hf
    have := hallowed f hf
    have hmem : f.type ∈ env.allowedTypes := by simpa using this.1
    simp [hmem, Nat.not_lt.mpr this.2]
  have hloop := fun start => uploadFilesLoop_storage_failure env context
    (before ++ bad :: after).length results bad after errorMessage before 0 start hbefore
    (by simpa using hbad)
  unfold uploadFiles
  simp only [Bool.not_true, Bool.false_eq_true, if_false, hkey, hnonempty, hfind1, hfind2,
    hscan, hsupabase]
  split
  · rename_i left hrun
    exact ⟨rfl, (congrArg (fun r => r.1.message) hrun).symm.trans (hloop _).2.1,
      (congrArg (fun r => r.1.stored.objects) hrun).symm.trans (hloop _).2.2⟩
  · rename_i left hrun
    exact absurd ((congrArg Prod.snd hrun).symm.trans (hloop _).1) (by simp)

end Vault

namespace Upload

open UploadSecurity

/-- C24, as the claim states it, fails: with an object store that refuses
`tax-id.pdf`, the batch that fails at its first file and the batch that fails
at its second file, after one file was stored, return the same result
`{ok: false, message}`; the result has no count of the files uploaded. -/
theorem failed_batch_result_has_no_count :
    (App.uploadIntakeDocuments sampleFailingEnv sampleContext
        [{ file := sampleId, label := "ID" }, { file := sampleW2, label := "W-2" }]
        { objects := [], records := [] }).outcome
      = .ok (.failed "Document upload failed for tax-id.pdf. Please retry in the dashboard.") ∧
    (App.uploadIntakeDocuments sampleFailingEnv sampleContext
        [{ file := sampleW2, label := "W-2" }, { file := sampleId, label := "ID" }]
        { objects := [], records := [] }).outcome
      = .ok (.failed "Document upload failed for tax-id.pdf. Please retry in the dashboard.") ∧
    (App.uploadIntakeDocuments sampleFailingEnv sampleContext
        [{ file := sampleId, label := "ID" }, { file := sampleW2, label := "W-2" }]
        { objects := [], records := [] }).stored.objects.length = 0 ∧
    (App.uploadIntakeDocuments sampleFailingEnv sampleContext
        [{ file := sampleW2, label := "W-2" }, { file := sampleId, label := "ID" }]
        { objects := [], records := [] }).stored.objects.length = 1 := by
  refine ⟨?_, ?_, ?_, ?_⟩ <;> decide

/-- C24, amended: the result of a batch upload that fails at file `k` carries
a message and no count. When the object store refuses file `k` after it wrote
the `k - 1` files before it, `uploadIntakeDocuments` returns
`{ok: false, message}` with the message `Document upload failed for <name of
file k>. Please retry in the dashboard.` and `uploadFiles` returns nothing and
shows `Upload failed: ` followed by the error message of the store (the name of
file `k` when that is empty); in both cases the `k - 1` files stay stored.
When screening rejects the batch, `uploadIntakeDocuments` returns
`{ok: false, message}` with the message of screening and stores nothing. -/
theorem failed_batch_reports_message_only (env : UploadEnv) (context : UploadContext)
    (dlpHits : Nat) (warnings : List String) (results : List ScanEntry)
    (errorMessage : String) (hsupabase : env.supabase = true)
    (hkey : context.usernameKey ≠ "") :
    (∀ (userId : String) (before : List App.UploadItem) (bad : App.UploadItem)
        (after : List App.UploadItem) (stored : Stored),
      context.user = some userId →
      (∀ i ∈ before ++ bad :: after,
        env.allowedTypes.contains i.file.type = true ∧ i.file.size ≤ env.maxUploadSize) →
      (scanFiles ((before ++ bad :: after).map fun item => item.file)).outcome
        = .ok (.passed dlpHits warnings results) →
      allStored env context (before ++ bad :: after).length 0
        (before.map fun item => item.file) = true →
      env.storageError
          (storagePath env context (before ++ bad :: after).length (before.length + 1)
            bad.file.name) bad.file
        = some errorMessage →
      (App.uploadIntakeDocuments env context (before ++ bad :: after) stored).outcome
        = .ok (.failed ("Document upload failed for " ++ bad.file.name ++
            ". Please retry in the dashboard.")) ∧
      (App.uploadIntakeDocuments env context (before ++ bad :: after) stored).stored.objects
        = stored.objects ++ uploadedObjects env context (before ++ bad :: after).length 0
            (before.map fun item => item.file) ∧
      (App.uploadIntakeDocuments env context (before ++ bad :: after)
          stored).stored.objects.length = stored.objects.length + before.length) ∧
    (∀ (before : List UploadFile) (bad : UploadFile) (after : List UploadFile)
        (page : Vault.Page),
      (∀ f ∈ before ++ bad :: after, Vault.getDocumentNameError f = "") →
      (∀ f ∈ before ++ bad :: after,
        env.allowedTypes.contains f.type = true ∧ f.size ≤ env.maxUploadSize) →
      (scanFiles (before ++ bad :: after)).outcome = .ok (.passed dlpHits warnings results) →
      allStored env context (before ++ bad :: after).length 0 before = true →
      env.storageError
          (storagePath env context (before ++ bad :: after).length (before.length + 1)
            bad.name) bad
        = some errorMessage →
      (Vault.uploadFiles env true context (before ++ bad :: after) page).thrown = none ∧
      (Vault.uploadFiles env true context (before ++ bad :: after) page).page.message
        = ("Upload failed: " ++ (if errorMessage = "" then bad.name else errorMessage),
           "error") ∧
      (Vault.uploadFiles env true context (before ++ bad :: after)
          page).page.stored.objects.length = page.stored.objects.length + before.length) ∧
    (∀ (userId : String) (items : List App.UploadItem) (stored : Stored) (message : String)
        (entries : List ScanEntry),
      context.user = some userId →
      (∀ i ∈ items,
        env.allowedTypes.contains i.file.type = true ∧ i.file.size ≤ env.maxUploadSize) →
      (scanFiles (items.map fun item => item.file)).outcome = .ok (.blocked message entries) →
      message ≠ "" →
      (App.uploadIntakeDocuments env context items stored).outcome = .ok (.failed message) ∧
      (App.uploadIntakeDocuments env context items stored).stored = stored) := by
  refine ⟨?_, ?_, ?_⟩
  · intro userId before bad after stored huser hallowed hscan hbefore hbad
    obtain ⟨h1, h2⟩ := App.uploadIntakeDocuments_storage_failure env context userId before bad
      after stored dlpHits warnings results errorMessage hsupabase huser hkey hallowed hscan
      hbefore hbad
    refine ⟨h1, h2, ?_⟩
    rw [h2, List.length_append, uploadedObjects_length, List.length_map]
  · intro before bad after page hnames hallowed hscan hbefore hbad
    obtain ⟨h1, h2, h3⟩ := Vault.uploadFiles_storage_failure env context before bad after page
      dlpHits warnings results errorMessage hsupabase hkey hnames hallowed hscan hbefore hbad
    refine ⟨h1, h2, ?_⟩
    rw [h3, List.length_append, uploadedObjects_length]
  · intro userId items stored message entries huser hallowed hscan hmsg
    refine ⟨App.uploadIntakeDocuments_blocked_message env context userId items stored message
      entries hsupabase huser hkey hallowed hscan hmsg, ?_⟩
    apply App.uploadIntakeDocuments_stored_of_not_passed
    intro d w rs h
    rw [hscan] at h
    cases h

/-- Witness for C24, amended: the batch `w2.pdf`, `tax-id.pdf` against the
store that refuses `tax-id.pdf`: the first file stays stored and the result is
the message that names the second. -/
theorem failed_batch_reports_message_only_witness :
    (App.uploadIntakeDocuments sampleFailingEnv sampleContext
        ([{ file := sampleW2, label := "W-2" }] ++ { file := sampleId, label := "ID" } :: [])
        { objects := [], records := [] }).outcome
      = .ok (.failed ("Document upload failed for " ++ sampleId.name ++
          ". Please retry in the dashboard.")) ∧
    (App.uploadIntakeDocuments sampleFailingEnv sampleContext
        ([{ file := sampleW2, label := "W-2" }] ++ { file := sampleId, label := "ID" } :: [])
        { objects := [], records := [] }).stored.objects.length = 0 + 1 :=
  have h := (failed_batch_reports_message_only sampleFailingEnv sampleContext 0 []
      [{ name := "w2.pdf", ok := true, dlp := false, message := "" },
       { name := "tax-id.pdf", ok := true, dlp := false, message := "" }]
      "quota" rfl (by decide)).1 "user-1"
      [{ file := sampleW2, label := "W-2" }] { file := sampleId, label := "ID" } []
      { objects := [], records := [] } rfl (by decide) (by decide) (by decide) (by decide)
  ⟨h.1, h.2.2⟩

end Upload

end TaxAgent

namespace TaxAgent.Server

/-! ## The rate limiter -/

theorem rateLimit_other (config : RateConfig) (hits : String → Option RateEntry) (now : Int)
    (key other : String) (h : other ≠ key) :
    (rateLimit config hits now key).1 other = hits other := by
  unfold rateLimit
  simp only
  split_ifs <;> simp [h]

theorem rateLimit_verdict (config : RateConfig) (hits : String → Option RateEntry) (now : Int)
    (key : String) :
    (rateLimit config hits now key).2 = none ∨
      (rateLimit config hits now key).2 = some { status := 429, body := .error config.message } := by
  unfold rateLimit
  simp only
  split_ifs <;> simp

theorem rateLimit_same_window (config : RateConfig) (hits : String → Option RateEntry)
    (now : Int) (key : String) (count : Nat) (start : Int)
    (hentry : hits key = some { count := count, start := start })
    (hnow : now - start ≤ config.windowMs) :
    (rateLimit config hits now key).1 key = some { count := count + 1, start := start } ∧
    (rateLimit config hits now key).2.isNone = decide (((count + 1 : Nat) : Int) ≤ config.max) := by
  have hnot : ¬ (now - start > config.windowMs) := by omega
  unfold rateLimit
  simp only [hentry, Option.getD_some, hnot, if_false]
  split
  · rename_i h
    refine ⟨by simp, ?_⟩
    have : ¬ (((count + 1 : Nat) : Int) ≤ config.max) := by omega
    exact (decide_eq_false this).symm
  · rename_i h
    refine ⟨by simp, ?_⟩
    have : ((count + 1 : Nat) : Int) ≤ config.max := by omega
    exact (decide_eq_true this).symm

theorem rateLimit_opens (config : RateConfig) (hits : String → Option RateEntry)
    (now : Int) (key : String)
    (hopen : hits key = none ∨
      ∃ entry, hits key = some entry ∧ now - entry.start > config.windowMs) :
    (rateLimit config hits now key).1 key = some { count := 1, start := now } ∧
    (rateLimit config hits now key).2.isNone = decide (((0 + 1 : Nat) : Int) ≤ config.max) := by
  have hentry : (if now - ((hits key).getD { count := 0, start := now }).start > config.windowMs
      then ({ count := 0, start := now } : RateEntry)
      else (hits key).getD { count := 0, start := now }) = { count := 0, start := now } := by
    rcases hopen with h | ⟨entry, h, hlate⟩
    · simp [h]
    · simp [h, hlate]
  unfold rateLimit
  simp only [hentry]
  split
  · rename_i h
    refine ⟨by simp, ?_⟩
    have : ¬ (((0 + 1 : Nat) : Int) ≤ config.max) := by
      simp only [Nat.zero_add] at h ⊢
      omega
    exact (decide_eq_false this).symm
  · rename_i h
    refine ⟨by simp, ?_⟩
    have : ((0 + 1 : Nat) : Int) ≤ config.max := by
      simp only [Nat.zero_add] at h ⊢
      omega
    exact (decide_eq_true this).symm

theorem rateLimitRun_in_window (config : RateConfig) (key : String) (start : Int) :
    ∀ (requests : List (Int × String)) (hits : String → Option RateEntry) (count : Nat),
      hits key = some { count := count, start := start } →
      (∀ request ∈ requests, request.2 = key → request.1 - start ≤ config.windowMs) →
      verdictsFor key requests (rateLimitRun config hits requests)
        = (List.range (requestsOf key requests)).map
            (fun i => decide (((count + i + 1 : Nat) : Int) ≤ config.max)) := by
  intro requests
  induction requests with
  | nil => intro hits count _ _; rfl
  | cons request rest ih =>
    intro hits count hentry hwindow
    obtain ⟨now, caller⟩ := request
    have hrest : ∀ request ∈ rest, request.2 = key → request.1 - start ≤ config.windowMs :=
      fun r hr => hwindow r (List.mem_cons_of_mem _ hr)
    by_cases hkey : caller = key
    · subst hkey
      obtain ⟨h1, h2⟩ := rateLimit_same_window config hits now caller count start hentry
        (hwindow (now, caller) (List.mem_cons_self _ _) rfl)
      have hstep := ih (rateLimit config hits now caller).1 (count + 1) h1 hrest
      simp only [verdictsFor, requestsOf, rateLimitRun, List.zip_cons_cons, List.filter_cons,
        beq_self_eq_true, if_true, List.map_cons, List.length_cons, h2]
      simp only [verdictsFor, requestsOf] at hstep
      rw [hstep, List.range_succ_eq_map, List.map_cons, List.map_map]
      congr 1
      apply List.map_congr_left
      intro i _
      simp only [Function.comp, Nat.add_zero]
      congr 2
      omega
    · have hne : (caller == key) = false := by simpa using hkey
      have hstep := ih (rateLimit config hits now caller).1 count
        (by rw [rateLimit_other config hits now caller key (fun h => hkey h.symm)]; exact hentry)
        hrest
      simp only [verdictsFor, requestsOf, rateLimitRun, List.zip_cons_cons, List.filter_cons, hne,
        Bool.false_eq_true, if_false]
      simpa only [verdictsFor, requestsOf] using hstep

/-- C26: the limiter counts per caller key and per window. When a request of a
caller opens a window at the time `start` (the caller has no entry yet, or its
window began more than `windowMs` before), its count is reset to 1; of the
requests of that caller from this one on, as long as they arrive no later than
`windowMs` after `start` and whatever other callers send in between, the
`i`-th is passed on exactly when `i ≤ max`, so exactly the first `max` are, and
every further one is answered 429 with the message of the limiter; the request
that opens a window is passed on (`max` is at least 1), and the entries of
other callers are left as they are. -/
theorem rateLimit_counts_per_window (config : RateConfig) (hits : String → Option RateEntry)
    (key : String) (start : Int) (requests : List (Int × String))
    (hopen : hits key = none ∨
      ∃ entry, hits key = some entry ∧ start - entry.start > config.windowMs)
    (hwindow : ∀ request ∈ requests, request.2 = key →
      request.1 - start ≤ config.windowMs) :
    verdictsFor key ((start, key) :: requests)
        (rateLimitRun config hits ((start, key) :: requests))
      = (List.range (requestsOf key requests + 1)).map
          (fun i => decide (((i + 1 : Nat) : Int) ≤ config.max)) ∧
    (rateLimit config hits start key).1 key = some { count := 1, start := start } ∧
    (1 ≤ config.max → (rateLimit config hits start key).2 = none) ∧
    (∀ other, other ≠ key → (rateLimit config hits start key).1 other = hits other) ∧
    (∀ state now caller,
      (rateLimit config state now caller).2 = none ∨
        (rateLimit config state now caller).2
          = some { status := 429, body := .error config.message }) := by
  obtain ⟨h1, h2⟩ := rateLimit_opens config hits start key hopen
  have hrest := rateLimitRun_in_window config key start requests
    (rateLimit config hits start key).1 1 h1 hwindow
  refine ⟨?_, h1, ?_, fun other h => rateLimit_other config hits start key other h,
    fun state now caller => rateLimit_verdict config state now caller⟩
  · simp only [verdictsFor, requestsOf, rateLimitRun, List.zip_cons_cons, List.filter_cons,
      beq_self_eq_true, if_true, List.map_cons, h2]
    simp only [verdictsFor, requestsOf] at hrest
    rw [hrest, List.range_succ_eq_map, List.map_cons, List.map_map]
    congr 1
    apply List.map_congr_left
    intro i _
    simp only [Function.comp]
    congr 2
    omega
  · intro hmax
    have hpass : ((0 + 1 : Nat) : Int) ≤ config.max := by
      simp only [Nat.zero_add]
      omega
    rw [decide_eq_true hpass] at h2
    exact Option.isNone_iff_eq_none.mp h2

/-- Witness for C26: the limiter of `/api/intake` (eight requests in five
minutes) on a first request of `10.0.0.1` at time 0 and the sample burst: the
first eight requests of the caller are passed on, the next three are not. -/
theorem rateLimit_counts_per_window_witness :
    verdictsFor "10.0.0.1" ((0, "10.0.0.1") :: sampleBurst)
        (rateLimitRun intakeLimiter (fun _ => none) ((0, "10.0.0.1") :: sampleBurst))
      = [true, true, true, true, true, true, true, true, false, false, false] ∧
    verdictsFor "10.0.0.1" ((0, "10.0.0.1") :: sampleBurst)
        (rateLimitRun intakeLimiter (fun _ => none) ((0, "10.0.0.1") :: sampleBurst))
      = (List.range (requestsOf "10.0.0.1" sampleBurst + 1)).map
          (fun i => decide (((i + 1 : Nat) : Int) ≤ intakeLimiter.max)) ∧
    (rateLimit intakeLimiter (fun _ => none) 0 "10.0.0.1").2 = none :=
  ⟨by decide,
   (rateLimit_counts_per_window intakeLimiter (fun _ => none) "10.0.0.1" 0 sampleBurst
      (Or.inl rfl) (by decide)).1,
   (rateLimit_counts_per_window intakeLimiter (fun _ => none) "10.0.0.1" 0 sampleBurst
      (Or.inl rfl) (by decide)).2.2.1 (by decide)⟩

end TaxAgent.Server

namespace TaxAgent.Vault

open UploadSecurity

/-! ## The display of the review status -/

/-- C27, as the claim states it, fails: on a timeline of six steps the status
`awaiting_documents` marks the third step active and the two before it
complete, while `awaiting_authorization` marks the fourth step active and the
three before it complete. -/
theorem awaiting_statuses_have_different_ranks :
    (setReviewStatus true true 6 (.str "awaiting_documents")).map (fun display => display.steps)
      = some [⟨true, false⟩, ⟨true, false⟩, ⟨false, true⟩, ⟨false, false⟩, ⟨false, false⟩,
              ⟨false, false⟩] ∧
    (setReviewStatus true true 6 (.str "awaiting_authorization")).map
        (fun display => display.steps)
      = some [⟨true, false⟩, ⟨true, false⟩, ⟨true, false⟩, ⟨false, true⟩, ⟨false, false⟩,
              ⟨false, false⟩] ∧
    activeIndex (.str "in_review") + 1 = activeIndex (.str "awaiting_documents") ∧
    activeIndex (.str "awaiting_documents") + 1 = activeIndex (.str "awaiting_authorization") := by
  refine ⟨?_, ?_, ?_, ?_⟩ <;> decide

theorem activeIndex_of_position (position : Nat) (status : String)
    (h : reviewStatusMap.get? position = some status) :
    activeIndex (.str status) = position := by
  have hlt : position < 6 := by
    by_contra hge
    have : reviewStatusMap.get? position = none :=
      List.get?_eq_none.mpr (by simpa [reviewStatusMap] using hge)
    rw [this] at h
    cases h
  interval_cases position <;> simp [reviewStatusMap] at h <;> subst h <;> decide

/-- C27, amended: the display layer (`setReviewStatus`) renders progress on the
fixed linear ordering of `reviewStatusMap` and gives each of the six statuses
its own rank, its position in that list: on a timeline of any length the step
whose index is the position of the status is marked active and the steps of
smaller index are marked complete. `awaiting_documents` has rank 2, one step
after `in_review`, and `awaiting_authorization` has rank 3, one step after
`awaiting_documents`. -/
theorem timeline_follows_status_position (steps position : Nat) (status : String)
    (h : reviewStatusMap.get? position = some status) :
    (setReviewStatus true true steps (.str status)).map (fun display => display.steps)
      = some ((List.range steps).map fun index =>
          { isComplete := decide (index < position), isActive := decide (index = position) }) ∧
    reviewStatusMap.get? 1 = some "in_review" ∧
    reviewStatusMap.get? 2 = some "awaiting_documents" ∧
    reviewStatusMap.get? 3 = some "awaiting_authorization" := by
  refine ⟨?_, rfl, rfl, rfl⟩
  simp only [setReviewStatus, Bool.not_true, Bool.or_self, Bool.false_eq_true, if_false,
    Option.map_some', activeIndex_of_position position status h]

/-- Witness for C27, amended: `awaiting_authorization`, at position 3, on a
timeline of five steps. -/
theorem timeline_follows_status_position_witness :
    (setReviewStatus true true 5 (.str "awaiting_authorization")).map
        (fun display => display.steps)
      = some ((List.range 5).map fun index =>
          { isComplete := decide (index < 3), isActive := decide (index = 3) }) :=
  (timeline_follows_status_position 5 3 "awaiting_authorization" rfl).1

end TaxAgent.Vault

namespace TaxAgent.UploadSecurity

/-! ## The pattern of the SSN and the files without a signature -/

theorem digits_some (n : Nat) :
    ∀ (cs rest : List Char), digits n cs = some rest →
      ∃ a, cs = a ++ rest ∧ a.length = n ∧ ∀ x ∈ a, isDigit x = true := by
  induction n with
  | zero =>
    intro cs rest h
    simp only [digits, Option.some.injEq] at h
    exact ⟨[], by simp [h], rfl, by simp⟩
  | succ n ih =>
    intro cs rest h
    cases cs with
    | nil => simp [digits] at h
    | cons c cs =>
      simp only [digits] at h
      by_cases hc : isDigit c = true
      · simp only [hc, if_true] at h
        obtain ⟨a, ha, hlen, hdig⟩ := ih cs rest h
        refine ⟨c :: a, by simp [ha], by simp [hlen], ?_⟩
        intro x hx
        rcases List.mem_cons.mp hx with rfl | hx
        · exact hc
        · exact hdig x hx
      · simp [hc] at h

theorem notBeforeDigit_delimited (after : List Char) (h : notBeforeDigit after = true) :
    after = [] ∨ ∃ c tail, after = c :: tail ∧ isDigit c = false := by
  cases after with
  | nil => exact Or.inl rfl
  | cons c tail =>
    refine Or.inr ⟨c, tail, rfl, ?_⟩
    simpa [notBeforeDigit] using h

theorem ssnLast_shape (cs : List Char) (h : ssnLast cs = true) :
    ∃ c after, cs = c ++ after ∧ c.length = 4 ∧ (∀ x ∈ c, isDigit x = true) ∧
      notBeforeDigit after = true := by
  unfold ssnLast at h
  cases hd : digits 4 cs with
  | none => simp [hd] at h
  | some rest =>
    simp only [hd] at h
    obtain ⟨c, hc, hlen, hdig⟩ := digits_some 4 cs rest hd
    exact ⟨c, rest, hc, hlen, hdig, h⟩

theorem ssnMiddle_shape (cs : List Char) (h : ssnMiddle cs = true) :
    ∃ b h₂ c after, cs = b ++ (h₂ ++ (c ++ after)) ∧ b.length = 2 ∧
      (∀ x ∈ b, isDigit x = true) ∧ (h₂ = [] ∨ h₂ = ['-']) ∧ c.length = 4 ∧
      (∀ x ∈ c, isDigit x = true) ∧ notBeforeDigit after = true := by
  unfold ssnMiddle at h
  cases hd : digits 2 cs with
  | none => simp [hd] at h
  | some rest =>
    simp only [hd, Bool.or_eq_true] at h
    obtain ⟨b, hb, hlen, hdig⟩ := digits_some 2 cs rest hd
    rcases h with h | h
    · cases rest with
      | nil => simp at h
      | cons r rest' =>
        by_cases hr : r = '-'
        · subst hr
          simp only at h
          obtain ⟨c, after, hc, hclen, hcdig, hafter⟩ := ssnLast_shape rest' h
          exact ⟨b, ['-'], c, after, by rw [hb, hc]; rfl, hlen, hdig, Or.inr rfl, hclen, hcdig,
            hafter⟩
        · exfalso
          revert h
          split
          · rename_i heq
            simp only [List.cons.injEq] at heq
            exact absurd heq.1 hr
          · simp
    · obtain ⟨c, after, hc, hclen, hcdig, hafter⟩ := ssnLast_shape rest h
      exact ⟨b, [], c, after, by rw [hb, hc]; rfl, hlen, hdig, Or.inl rfl, hclen, hcdig, hafter⟩

theorem ssnBody_shape (cs : List Char) (h : ssnBody cs = true) :
    ∃ mid after, cs = mid ++ after ∧ SsnShaped mid ∧ notBeforeDigit after = true := by
  unfold ssnBody at h
  cases hd : digits 3 cs with
  | none => simp [hd] at h
  | some rest =>
    simp only [hd, Bool.or_eq_true] at h
    obtain ⟨a, ha, hlen, hdig⟩ := digits_some 3 cs rest hd
    rcases h with h | h
    · cases rest with
      | nil => simp at h
      | cons r rest' =>
        by_cases hr : r = '-'
        · subst hr
          simp only at h
          obtain ⟨b, h₂, c, after, hm, hb, hbd, hh₂, hc, hcd, hafter⟩ := ssnMiddle_shape rest' h
          refine ⟨a ++ ['-'] ++ b ++ h₂ ++ c, after, ?_,
            ⟨a, ['-'], b, h₂, c, rfl, hlen, hdig, Or.inr rfl, hb, hbd, hh₂, hc, hcd⟩, hafter⟩
          rw [ha, hm]
          simp [List.append_assoc]
        · exfalso
          revert h
          split
          · rename_i heq
            simp only [List.cons.injEq] at heq
            exact absurd heq.1 hr
          · simp
    · obtain ⟨b, h₂, c, after, hm, hb, hbd, hh₂, hc, hcd, hafter⟩ := ssnMiddle_shape rest h
      refine ⟨a ++ [] ++ b ++ h₂ ++ c, after, ?_,
        ⟨a, [], b, h₂, c, rfl, hlen, hdig, Or.inl rfl, hb, hbd, hh₂, hc, hcd⟩, hafter⟩
      rw [ha, hm]
      simp [List.append_assoc]

theorem ssnAt_shape (atStart : Bool) (cs : List Char) (h : ssnAt atStart cs = true) :
    (atStart = true ∧ ssnBody cs = true) ∨
      ∃ c rest, cs = c :: rest ∧ isDigit c = false ∧ ssnBody rest = true := by
  unfold ssnAt at h
  simp only [Bool.or_eq_true, Bool.and_eq_true] at h
  rcases h with h | h
  · exact Or.inl h
  · cases cs with
    | nil => simp at h
    | cons c rest =>
      simp only [Bool.and_eq_true, Bool.not_eq_true'] at h
      exact Or.inr ⟨c, rest, rfl, h.1, h.2⟩

theorem ssnSearch_shape :
    ∀ (cs : List Char) (atStart : Bool), ssnSearch atStart cs = true →
      ∃ before mid after, cs = before ++ mid ++ after ∧ SsnShaped mid ∧
        ((atStart = true ∧ before = []) ∨ ∃ init c, before = init ++ [c] ∧ isDigit c = false) ∧
        notBeforeDigit after = true := by
  intro cs
  induction cs with
  | nil =>
    intro atStart h
    simp only [ssnSearch] at h
    rcases ssnAt_shape atStart [] h with ⟨hs, hb⟩ | ⟨c, rest, hc, _, _⟩
    · obtain ⟨mid, after, hmid, hshape, hafter⟩ := ssnBody_shape [] hb
      exact ⟨[], mid, after, by simpa using hmid, hshape, Or.inl ⟨hs, rfl⟩, hafter⟩
    · cases hc
  | cons x xs ih =>
    intro atStart h
    simp only [ssnSearch, Bool.or_eq_true] at h
    rcases h with h | h
    · rcases ssnAt_shape atStart (x :: xs) h with ⟨hs, hb⟩ | ⟨c, rest, hc, hnd, hb⟩
      · obtain ⟨mid, after, hmid, hshape, hafter⟩ := ssnBody_shape (x :: xs) hb
        exact ⟨[], mid, after, by simpa using hmid, hshape, Or.inl ⟨hs, rfl⟩, hafter⟩
      · obtain ⟨mid, after, hmid, hshape, hafter⟩ := ssnBody_shape rest hb
        refine ⟨[c], mid, after, ?_, hshape, Or.inr ⟨[], c, rfl, hnd⟩, hafter⟩
        rw [hc, hmid]
        simp
    · obtain ⟨before, mid, after, hcs, hshape, hbefore, hafter⟩ := ih false h
      refine ⟨x :: before, mid, after, by rw [hcs]; simp, hshape, ?_, hafter⟩
      rcases hbefore with ⟨hf, _⟩ | ⟨init, c, hinit, hc⟩
      · cases hf
      · exact Or.inr ⟨x :: init, c, by rw [hinit]; simp, hc⟩

theorem SSN_PATTERN_test_iff (text : String) :
    SSN_PATTERN_test text = true ↔ ContainsDelimitedSsn text := by
  constructor
  · intro h
    obtain ⟨before, mid, after, hcs, hshape, hbefore, hafter⟩ := ssnSearch_shape text.data true h
    refine ⟨before, mid, after, hcs, hshape, ?_, notBeforeDigit_delimited after hafter⟩
    rcases hbefore with ⟨_, hb⟩ | hb
    · exact Or.inl hb
    · exact Or.inr hb
  · exact SSN_PATTERN_test_of_delimited text

theorem scanFile_accepted_dlp (file : UploadFile) (r : ScanResult)
    (hr : scanFile file = .ok r) (hok : r.ok = true) :
    r.dlp = SSN_PATTERN_test (decodeSample (readSample file)) := by
  unfold scanFile at hr
  simp only at hr
  split at hr
  · cases hr
  · simp only [Except.ok.injEq] at hr
    subst hr
    cases hok
  · split at hr
    · simp only [Except.ok.injEq] at hr
      subst hr
      cases hok
    · simp only [Except.ok.injEq] at hr
      subst hr
      rfl

theorem digit_run_not_delimited (text : String) (hdigits : ∀ c ∈ text.data, isDigit c = true)
    (hlen : 10 ≤ text.data.length) : ¬ ContainsDelimitedSsn text := by
  rintro ⟨before, mid, after, htext, hshape, hbefore, hafter⟩
  have hb : before = [] := by
    rcases hbefore with h | ⟨init, c, h, hc⟩
    · exact h
    · have := hdigits c (by rw [htext, h]; simp)
      rw [hc] at this
      cases this
  have ha : after = [] := by
    rcases hafter with h | ⟨c, tail, h, hc⟩
    · exact h
    · have := hdigits c (by rw [htext, h]; simp)
      rw [hc] at this
      cases this
  subst hb ha
  obtain ⟨a, h₁, b, h₂, c, hmid, hal, _, hh₁, hbl, _, hh₂, hcl, _⟩ := hshape
  have hdash : isDigit '-' = false := by decide
  have h1 : h₁ = [] := by
    rcases hh₁ with h | h
    · exact h
    · have := hdigits '-' (by rw [htext, hmid, h]; simp)
      rw [hdash] at this
      cases this
  have h2 : h₂ = [] := by
    rcases hh₂ with h | h
    · exact h
    · have := hdigits '-' (by rw [htext, hmid, h]; simp)
      rw [hdash] at this
      cases this
  subst h1 h2
  rw [htext, hmid] at hlen
  simp only [List.append_nil, List.nil_append, List.length_append, hal, hbl, hcl] at hlen
  omega

/-- C29: for every file that `scanFile` accepts, `dlp` is true if and only if
the decoded prefix holds, at its start or right after a character that is not
a digit, three digits, an optional hyphen, two digits, an optional hyphen and
four digits that no digit follows; a decoded prefix that is one unbroken run of
ten or more digits does not set the flag. -/
theorem dlp_flag_iff_delimited_ssn (file : UploadFile) (r : ScanResult)
    (hr : scanFile file = .ok r) (hok : r.ok = true) :
    (r.dlp = true ↔ ContainsDelimitedSsn (decodeSample (readSample file))) ∧
    ((∀ c ∈ (decodeSample (readSample file)).data, isDigit c = true) →
      10 ≤ (decodeSample (readSample file)).data.length → r.dlp = false) := by
  have hdlp := scanFile_accepted_dlp file r hr hok
  constructor
  · rw [hdlp]
    exact SSN_PATTERN_test_iff _
  · intro hdigits hlen
    rw [hdlp, Bool.eq_false_iff]
    intro h
    exact digit_run_not_delimited _ hdigits hlen ((SSN_PATTERN_test_iff _).mp h)

/-- Witness for C29: three text files, with the texts `123-45-6789`,
`1234567890` and `123 45 6789`; only the first is flagged. -/
theorem dlp_flag_iff_delimited_ssn_witness :
    scanFile { name := "a.txt", type := "text/plain", bytes := "123-45-6789".data.map Char.toNat }
      = .ok (ScanResult.mk true false true "Sensitive data detected in a.txt.") ∧
    scanFile { name := "b.txt", type := "text/plain", bytes := "1234567890".data.map Char.toNat }
      = .ok (ScanResult.mk true false false "") ∧
    scanFile { name := "c.txt", type := "text/plain", bytes := "123 45 6789".data.map Char.toNat }
      = .ok (ScanResult.mk true false false "") ∧
    ContainsDelimitedSsn (decodeSample (readSample
      { name := "a.txt", type := "text/plain", bytes := "123-45-6789".data.map Char.toNat })) ∧
    ¬ ContainsDelimitedSsn (decodeSample (readSample
      { name := "c.txt", type := "text/plain", bytes := "123 45 6789".data.map Char.toNat })) :=
  ⟨by decide, by decide, by decide,
   (dlp_flag_iff_delimited_ssn
      { name := "a.txt", type := "text/plain", bytes := "123-45-6789".data.map Char.toNat }
      (ScanResult.mk true false true "Sensitive data detected in a.txt.") (by decide) rfl).1.mp
      rfl,
   fun h => Bool.noConfusion ((dlp_flag_iff_delimited_ssn
      { name := "c.txt", type := "text/plain", bytes := "123 45 6789".data.map Char.toNat }
      (ScanResult.mk true false false "") (by decide) rfl).1.mpr h)⟩

theorem getExpectedSignature_none (file : UploadFile) (htype : SIGNATURES file.type = none)
    (hext : toLowerCase (lastSegment file.name) ≠ "pdf" ∧
      toLowerCase (lastSegment file.name) ≠ "png" ∧
      toLowerCase (lastSegment file.name) ≠ "jpg" ∧
      toLowerCase (lastSegment file.name) ≠ "jpeg") :
    getExpectedSignature file = none := by
  unfold getExpectedSignature
  simp [htype, hext.1, hext.2.1, hext.2.2.1, hext.2.2.2]

/-- C28, where the code departs from the claim. A declared type for which the
object `SIGNATURES` yields nothing, with an extension that is none of `pdf`,
`png`, `jpg`, `jpeg`, resolves no signature, and the file is accepted unless
its decoded prefix contains the malware test string, whatever its bytes are.
But a declared type that names a method which `SIGNATURES` inherits from
`Object.prototype` (`constructor`, `toString`, ...) is none of the three media
types and yet resolves that method as the expected signature: `scanFile` then
throws a `TypeError` on a file that is at least as long as the number of
parameters of the method, and rejects a shorter file as a signature
mismatch. -/
theorem scanFile_type_without_signature (file : UploadFile)
    (hext : toLowerCase (lastSegment file.name) ≠ "pdf" ∧
      toLowerCase (lastSegment file.name) ≠ "png" ∧
      toLowerCase (lastSegment file.name) ≠ "jpg" ∧
      toLowerCase (lastSegment file.name) ≠ "jpeg") :
    (SIGNATURES file.type = none →
      getExpectedSignature file = none ∧
      (includes (decodeSample (readSample file)) EICAR_SIGNATURE = false →
        ∃ r, scanFile file = .ok r ∧ r.ok = true)) ∧
    (∀ length, SIGNATURES file.type = some (.inheritedFunction length) →
      (length ≤ (readSample file).length →
        scanFile file = .error (.typeError "signature.every is not a function")) ∧
      ((readSample file).length < length →
        scanFile file = .ok (ScanResult.mk false true false
          ("File signature mismatch detected in " ++ file.name ++ ".")))) := by
  constructor
  · intro htype
    have hnone := getExpectedSignature_none file htype hext
    refine ⟨hnone, fun hclean => ?_⟩
    rw [scanFile_of_passes file (Or.inl hnone), hclean]
    exact ⟨_, rfl, rfl⟩
  · intro length htype
    have hexp : getExpectedSignature file
        = some { type := file.type, signature := .inheritedFunction length } := by
      unfold getExpectedSignature
      simp [htype]
    constructor
    · intro hlen
      unfold scanFile
      simp [hexp, matchesSignature, Nat.not_lt.mpr hlen, Except.map]
    · intro hlen
      unfold scanFile
      simp [hexp, matchesSignature, hlen, Except.map]

/-- Witness for C28: a text file declared as `text/plain` is accepted, while the
same file declared with the type `constructor` makes `scanFile` throw, and an
empty file of that type is rejected. -/
theorem scanFile_type_without_signature_witness :
    scanFile { name := "notes.txt", type := "text/plain", bytes := [0x4d, 0x5a] }
      = .ok (ScanResult.mk true false false "") ∧
    scanFile { name := "notes.txt", type := "constructor", bytes := [0x4d, 0x5a] }
      = .error (.typeError "signature.every is not a function") ∧
    scanFile { name := "notes.txt", type := "constructor", bytes := [] }
      = .ok (ScanResult.mk false true false "File signature mismatch detected in notes.txt.") :=
  ⟨by decide,
   ((scanFile_type_without_signature
      { name := "notes.txt", type := "constructor", bytes := [0x4d, 0x5a] }
      (by decide)).2 1 rfl).1 (by decide),
   ((scanFile_type_without_signature
      { name := "notes.txt", type := "constructor", bytes := [] }
      (by decide)).2 1 rfl).2 (by decide)⟩

end TaxAgent.UploadSecurity

namespace TaxAgent.Vault

open UploadSecurity

/-! ## The naming policy of the client vault -/

theorem genericTail_backslash : ∀ cs : List Char, genericTail cs = true → '\\' ∈ cs
  | [], h => by simp [genericTail] at h
  | c :: cs, h => by
    simp only [genericTail, Bool.or_eq_true, Bool.and_eq_true, beq_iff_eq] at h
    rcases h with ⟨_, h⟩ | h
    · exact List.mem_cons_of_mem _ (genericTail_backslash cs h)
    · rw [h]
      exact List.mem_cons_self _ _

theorem stripWord_rest : ∀ (word cs rest : List Char), stripWord word cs = some rest →
    ∀ x ∈ rest, x ∈ cs
  | [], cs, rest, h => by
    simp only [stripWord, Option.some.injEq] at h
    subst h
    exact fun _ hx => hx
  | _ :: _, [], rest, h => by simp [stripWord] at h
  | p :: ps, c :: cs, rest, h => by
    simp only [stripWord] at h
    split at h
    · exact fun x hx => List.mem_cons_of_mem _ (stripWord_rest ps cs rest h x hx)
    · cases h

theorem genericFilePattern_test_backslash (name : String)
    (h : genericFilePattern_test name = true) : '\\' ∈ name.data := by
  unfold genericFilePattern_test at h
  obtain ⟨word, _, hword⟩ := List.any_eq_true.mp h
  cases hs : stripWord word.data name.data with
  | none => simp [hs] at hword
  | some rest =>
    simp only [hs] at hword
    exact stripWord_rest _ _ _ hs _ (genericTail_backslash rest hword)

theorem documentNameMessage_ne_empty (name : String) :
    "Rename \"" ++ name ++
      "\" to include the document type (e.g., W-2_2025.pdf) and reselect it." ≠ "" := by
  intro h
  have := congrArg String.length h
  simp only [String.length_append] at this
  have hl : "Rename \"".length = 8 := by decide
  rw [hl] at this
  simp at this

/-- C30: for every file name without a backslash, `genericFilePattern` does not
match the name, and `getDocumentNameError` returns an error if and only if the
normalised name contains none of the eleven document tokens; it returns no
error as soon as the normalised name contains one, also when the name begins
with `img`, `image`, `scan`, `document`, `file`, `photo` or `screenshot`. -/
theorem getDocumentNameError_without_backslash (file : UploadFile)
    (h : '\\' ∉ file.name.data) :
    genericFilePattern_test file.name = false ∧
    (getDocumentNameError file ≠ "" ↔
      ∀ token ∈ documentNameTokens, includes (normalizeFileName file.name) token = false) ∧
    (getDocumentNameError file = "" ↔
      ∃ token ∈ documentNameTokens, includes (normalizeFileName file.name) token = true) := by
  have hgen : genericFilePattern_test file.name = false := by
    rw [Bool.eq_false_iff]
    exact fun hg => h (genericFilePattern_test_backslash file.name hg)
  have hrun : getDocumentNameError file
      = if (documentNameTokens.any fun token => includes (normalizeFileName file.name) token)
          = true then ""
        else "Rename \"" ++ file.name ++
          "\" to include the document type (e.g., W-2_2025.pdf) and reselect it." := by
    unfold getDocumentNameError
    simp only [hgen, Bool.or_false]
    cases documentNameTokens.any fun token => includes (normalizeFileName file.name) token <;>
      simp
  refine ⟨hgen, ?_, ?_⟩
  · rw [hrun]
    constructor
    · intro hne token htoken
      rw [Bool.eq_false_iff]
      intro hinc
      exact hne (if_pos (List.any_eq_true.mpr ⟨token, htoken, hinc⟩))
    · intro hall
      have hany : ¬ (documentNameTokens.any
          fun token => includes (normalizeFileName file.name) token) = true := by
        intro hany
        obtain ⟨token, htoken, hinc⟩ := List.any_eq_true.mp hany
        rw [hall token htoken] at hinc
        cases hinc
      rw [if_neg hany]
      exact documentNameMessage_ne_empty file.name
  · rw [hrun]
    constructor
    · intro heq
      by_contra hno
      have hany : ¬ (documentNameTokens.any
          fun token => includes (normalizeFileName file.name) token) = true := by
        intro hany
        obtain ⟨token, htoken, hinc⟩ := List.any_eq_true.mp hany
        exact hno ⟨token, htoken, hinc⟩
      rw [if_neg hany] at heq
      exact documentNameMessage_ne_empty file.name heq
    · rintro ⟨token, htoken, hinc⟩
      exact if_pos (List.any_eq_true.mpr ⟨token, htoken, hinc⟩)

/-- Witness for C30: `IMG_1099.pdf` begins with `img` and contains the token
`1099`: no error; `scan.pdf` contains no token: an error. -/
theorem getDocumentNameError_without_backslash_witness :
    getDocumentNameError { name := "IMG_1099.pdf", type := "application/pdf", bytes := [] } = "" ∧
    getDocumentNameError { name := "scan.pdf", type := "application/pdf", bytes := [] }
      = "Rename \"scan.pdf\" to include the document type (e.g., W-2_2025.pdf) and reselect it." ∧
    genericFilePattern_test "IMG_1099.pdf" = false :=
  ⟨((getDocumentNameError_without_backslash
      { name := "IMG_1099.pdf", type := "application/pdf", bytes := [] } (by decide)).2.2).mpr
      ⟨"1099", by decide, by decide⟩,
   by decide,
   (getDocumentNameError_without_backslash
      { name := "IMG_1099.pdf", type := "application/pdf", bytes := [] } (by decide)).1⟩

end TaxAgent.Vault
